import Mathlib

/-
Verification of the Library Synchronization & Provider-Mapping Reconciliation
Engine (music_assistant/models/music_provider.py).

The Python code is shallowly embedded as pure Lean functions.  External
collaborators (the Library Store controllers and the Snapshot Cache) are not
part of the repository sources; they are modelled from the specification of
their interfaces (each such definition is marked in its doc comment).
Exceptions raised by external awaits are modelled by an explicit per-item
fault tag (ItemFault) and by the removeFails oracle for removal failures;
all other code paths are deterministic translations of the source.
-/

namespace MusicAssistant

/-- Media types relevant to the sync engine (music_assistant_models.enums.MediaType). -/
inductive MediaType where
  | artist
  | album
  | track
  | playlist
  | radios
  | audiobook
  | podcast
  | podcastEpisode
  | folder
  | unknown
deriving DecidableEq, Repr

/-- Provider feature flags relevant to library sync (music_assistant_models.enums.ProviderFeature). -/
inductive ProviderFeature where
  | libraryArtists
  | libraryAlbums
  | libraryTracks
  | libraryPlaylists
  | libraryRadios
  | libraryAudiobooks
  | libraryPodcasts
  | libraryArtistsEdit
  | libraryAlbumsEdit
  | libraryTracksEdit
  | libraryPlaylistsEdit
  | libraryRadiosEdit
  | libraryAudiobooksEdit
  | libraryPodcastsEdit
deriving DecidableEq, Repr

/-- Errors surfaced by a sync pass: UnsupportedFeaturedException, a generic
MusicAssistantError (DomainError), and the inconsistent-mapping
MusicAssistantError raised by check_provider_mappings. -/
inductive SyncError where
  | unsupported
  | domain
  | consistency
deriving DecidableEq, Repr

/-- Fault injected by the external environment while one catalog item is
handled: ItemFault.ok means all awaits succeed, lookupFail means the
get_library_item_by_prov_mappings call (which the source performs outside the
per-item try block) raises MusicAssistantError, storeFail means every library
store mutation attempted for this item raises MusicAssistantError (and is
caught by the per-item except clause). -/
inductive ItemFault where
  | ok
  | lookupFail
  | storeFail
deriving DecidableEq, Repr

/-- A provider mapping (music_assistant_models.media_items.ProviderMapping):
one source-side representation of a canonical entity. -/
structure ProviderMapping where
  item_id : String
  provider_domain : String
  provider_instance : String
  available : Bool
  in_library : Bool
  url : Option String
deriving DecidableEq, Repr

/-- A provider-shaped media item as yielded by a catalog iterator, with the
fields the sync engine reads. -/
structure ProvItem where
  item_id : String
  name : String
  uri : String
  favorite : Bool
  available : Bool
  cache_checksum : Option String
  resume_position_ms : Option Nat
  fully_played : Option Bool
  provider_mappings : List ProviderMapping
deriving DecidableEq, Repr

/-- A canonical library entity held by the Library Store.  db_id is the
numeric item_id assigned by the store (the source applies int() to it). -/
structure LibItem where
  db_id : Nat
  name : String
  favorite : Bool
  available : Bool
  cache_checksum : Option String
  resume_position_ms : Option Nat
  fully_played : Option Bool
  provider_mappings : List ProviderMapping
deriving DecidableEq, Repr

/-- Mutations requested from the Library Store, recorded as a trace.
removeFailed records a remove_item_from_library attempt that raised
MusicAssistantError (it is not a committed mutation). -/
inductive StoreOp where
  | addItem (item : ProvItem) (newId : Nat)
  | updateItem (dbId : Nat) (item : ProvItem)
  | setFavorite (dbId : Nat) (value : Bool)
  | setMappings (dbId : Nat) (mappings : List ProviderMapping)
  | removeItem (dbId : Nat) (recursive : Bool)
  | removeFailed (dbId : Nat) (recursive : Bool)
deriving DecidableEq, Repr

/-- MusicProvider.lookup_key: domain if (multi-instance) streaming_provider or
instance_id otherwise (music_provider.py lines 66-71). -/
def lookup_key (is_streaming_provider : Bool) (multi_instance : Bool)
    (domain instance_id : String) : String :=
  if is_streaming_provider || !multi_instance then domain else instance_id

/-- Following the spec's words only (section 3, Provider Descriptor): the
lookup key equals the domain when the provider is streaming or is
multi-instance-capable and not differentiated, and equals the instance id
otherwise.  Used solely to compare the spec sentence against the code. -/
def lookup_key_specVersion (is_streaming_provider : Bool) (multi_instance : Bool)
    (differentiated : Bool) (domain instance_id : String) : String :=
  if is_streaming_provider || (multi_instance && !differentiated) then domain
  else instance_id

/-- MusicProvider.library_supported (music_provider.py lines 1084-1100). -/
def library_supported (features : List ProviderFeature) (media_type : MediaType) : Bool :=
  if media_type = MediaType.artist then features.contains ProviderFeature.libraryArtists
  else if media_type = MediaType.album then features.contains ProviderFeature.libraryAlbums
  else if media_type = MediaType.track then features.contains ProviderFeature.libraryTracks
  else if media_type = MediaType.playlist then features.contains ProviderFeature.libraryPlaylists
  else if media_type = MediaType.radios then features.contains ProviderFeature.libraryRadios
  else if media_type = MediaType.audiobook then features.contains ProviderFeature.libraryAudiobooks
  else if media_type = MediaType.podcast then features.contains ProviderFeature.libraryPodcasts
  else false

/-- Key equality of two provider mappings: same provider instance and same
source item id (the lookup key used throughout the reconciler). -/
def mappingKeyMatch (a b : ProviderMapping) : Bool :=
  a.provider_instance == b.provider_instance && a.item_id == b.item_id

/-- The state of one Library Store controller (one media type's table).
Modelled from the spec: the store assigns stable opaque numeric ids; we keep
the next fresh id explicit. -/
structure LibraryState where
  items : List LibItem
  next_id : Nat
deriving DecidableEq, Repr

/-- Does a library entity hold a mapping matching one of the given mappings? -/
def entityMatches (mappings : List ProviderMapping) (e : LibItem) : Bool :=
  e.provider_mappings.any (fun lm => mappings.any (fun m => mappingKeyMatch lm m))

/-- Modelled from the spec: Library Store lookupByMapping(mappings) -> Entity?
(section 6); returns the first canonical entity having a provider mapping
whose (provider instance, item id) key occurs among the given mappings. -/
def get_library_item_by_prov_mappings (st : LibraryState)
    (mappings : List ProviderMapping) : Option LibItem :=
  st.items.find? (entityMatches mappings)

/-- The canonical entity created by the store for a provider item. -/
def entityOfItem (dbId : Nat) (item : ProvItem) : LibItem :=
  { db_id := dbId
    name := item.name
    favorite := item.favorite
    available := item.available
    cache_checksum := item.cache_checksum
    resume_position_ms := item.resume_position_ms
    fully_played := item.fully_played
    provider_mappings := item.provider_mappings }

/-- Modelled from the spec: Library Store add(item) -> Entity (section 6);
creates a canonical entity carrying the item's fields and mappings, under a
fresh id. -/
def add_item_to_library (st : LibraryState) (item : ProvItem) : LibraryState × LibItem :=
  let e := entityOfItem st.next_id item
  ({ items := st.items ++ [e], next_id := st.next_id + 1 }, e)

/-- Merge provider mappings on update: mappings of the incoming item replace
existing mappings with the same (instance, item id) key; all other mappings
are kept unchanged. -/
def mergeMappings (old new : List ProviderMapping) : List ProviderMapping :=
  old.filter (fun m => !(new.any (fun n => mappingKeyMatch n m))) ++ new

/-- The entity resulting from updating e with a provider item.  The favorite
flag is preserved (the spec's favorite-monotonicity property, section 8,
forbids update from clearing it). -/
def updateEntity (e : LibItem) (item : ProvItem) : LibItem :=
  { e with
    name := item.name
    available := item.available
    cache_checksum := item.cache_checksum
    resume_position_ms := item.resume_position_ms
    fully_played := item.fully_played
    provider_mappings := mergeMappings e.provider_mappings item.provider_mappings }

/-- Modelled from the spec: Library Store update(id, item) -> Entity
(section 6); refreshes the entity with the given id from the item. -/
def update_item_in_library (st : LibraryState) (dbId : Nat) (item : ProvItem) : LibraryState :=
  { st with items := st.items.map (fun e => if e.db_id == dbId then updateEntity e item else e) }

/-- Modelled from the spec: Library Store setFavorite(id, bool) (section 6). -/
def set_favorite (st : LibraryState) (dbId : Nat) (value : Bool) : LibraryState :=
  { st with items := st.items.map (fun e => if e.db_id == dbId then { e with favorite := value } else e) }

/-- Modelled from the spec: Library Store setProviderMappings(id, mappings)
(section 6). -/
def set_provider_mappings (st : LibraryState) (dbId : Nat)
    (mappings : List ProviderMapping) : LibraryState :=
  { st with items := st.items.map (fun e => if e.db_id == dbId then { e with provider_mappings := mappings } else e) }

/-- Modelled from the spec: Library Store remove(id, recursive) (section 6).
The recursive cascade touches child tracks in a different controller and is
not represented in this single-controller state; the flag is recorded in the
trace. -/
def remove_item_from_library (st : LibraryState) (dbId : Nat) : LibraryState :=
  { st with items := st.items.filter (fun e => e.db_id != dbId) }

/-- Modelled from the spec: Library Store get(id) -> Entity | NotFound
(section 6); None models the MediaNotFoundError path. -/
def get_library_item (st : LibraryState) (dbId : Nat) : Option LibItem :=
  st.items.find? (fun e => e.db_id == dbId)

/-- MusicProvider._check_provider_mappings (music_provider.py lines
1155-1179).  The loop body returns (or raises) on its first iteration, so
only the head of the provider item's mapping list is ever inspected; the
final fall-through (empty mapping set) returns False.  The Python code
assigns in_library to the provider mapping before comparing; that assignment
is reflected in the comparison below and in markFirstMappingInLibrary, which
models the same in-place assignment as seen by later uses of the item. -/
def check_provider_mappings (instance_id : String) (library_item : LibItem)
    (provider_item : ProvItem) (in_library : Bool) : Except SyncError Bool :=
  match provider_item.provider_mappings with
  | [] => Except.ok false
  | pm :: _ =>
    if pm.item_id != provider_item.item_id then Except.error SyncError.consistency
    else if pm.provider_instance != instance_id then Except.error SyncError.consistency
    else
      let pm2 : ProviderMapping := { pm with in_library := in_library }
      match library_item.provider_mappings.find? (fun x =>
          x.provider_instance == pm2.provider_instance && x.item_id == pm2.item_id) with
      | none => Except.ok false
      | some lm =>
        if pm2.in_library != lm.in_library then Except.ok false
        else Except.ok (pm2.available == lm.available)

/-- The in-place mutation performed by check_provider_mappings on the provider
item: the first provider mapping's in_library flag is set (the loop returns
on its first iteration, so later mappings are untouched). -/
def markFirstMappingInLibrary (item : ProvItem) (value : Bool) : ProvItem :=
  match item.provider_mappings with
  | [] => item
  | m :: rest => { item with provider_mappings := { m with in_library := value } :: rest }

/-- Static provider configuration consulted by a sync pass: the provider's
instance id, the import_as_favorite argument, the
CONF_ENTRY_LIBRARY_IMPORT_ALBUM_TRACKS flag, the
CONF_ENTRY_LIBRARY_IMPORT_PLAYLIST_TRACKS allow-list, and the provider-owned
child catalog iterators (get_album_tracks and iter_playlist_tracks). -/
structure SyncEnv where
  instance_id : String
  import_as_favorite : Bool
  sync_album_tracks : Bool
  playlist_sync_conf : List String
  albumTracks : String → List ProvItem
  playlistTracks : String → List ProvItem

/-- The running state of one reconciler pass: the pass's own controller table,
the tracks controller table (targeted by album/playlist child-track fan-out),
the accumulated seen set (cur_db_ids, as an insertion-ordered duplicate-free
list), and the trace of store mutations. -/
structure RecState where
  store : LibraryState
  sub : LibraryState
  seen : List Nat
  log : List StoreOp
deriving DecidableEq, Repr

/-- cur_db_ids.add: set insertion. -/
def insertSeen (s : List Nat) (i : Nat) : List Nat :=
  if s.contains i then s else s ++ [i]

/-- MusicProvider._sync_album_tracks / _sync_playlist_tracks (music_provider.py
lines 811-836 and 932-957, which share this per-track body): child tracks are
looked up, added, or updated in the tracks controller; they are not recorded
in the seen set and carry no favorite logic.  Per-track MusicAssistantError
is caught and the loop continues. -/
def syncChildTracks (instance_id : String) (sub : LibraryState)
    (tracks : List ProvItem) (log : List StoreOp) : LibraryState × List StoreOp :=
  tracks.foldl
    (fun acc prov =>
      match get_library_item_by_prov_mappings acc.1 prov.provider_mappings with
      | none =>
        let res := add_item_to_library acc.1 prov
        (res.1, acc.2 ++ [StoreOp.addItem prov res.2.db_id])
      | some lib =>
        match check_provider_mappings instance_id lib prov true with
        | Except.error _ => acc
        | Except.ok true => acc
        | Except.ok false =>
          let prov2 := markFirstMappingInLibrary prov true
          (update_item_in_library acc.1 lib.db_id prov2,
           acc.2 ++ [StoreOp.updateItem lib.db_id prov2]))
    (sub, log)

/-- Per-item body of _sync_library_artists (music_provider.py lines 743-768). -/
def artistStepCore (env : SyncEnv) (r : RecState) (prov : ProvItem)
    (fault : ItemFault) : RecState :=
  match get_library_item_by_prov_mappings r.store prov.provider_mappings with
  | none =>
    if fault = ItemFault.storeFail then r
    else
      let prov2 := if env.import_as_favorite then { prov with favorite := true } else prov
      let res := add_item_to_library r.store prov2
      { r with store := res.1, seen := insertSeen r.seen res.2.db_id,
               log := r.log ++ [StoreOp.addItem prov2 res.2.db_id] }
  | some lib =>
    if !lib.favorite && env.import_as_favorite then
      if fault = ItemFault.storeFail then r
      else
        { r with store := set_favorite r.store lib.db_id true,
                 seen := insertSeen r.seen lib.db_id,
                 log := r.log ++ [StoreOp.setFavorite lib.db_id true] }
    else
      match check_provider_mappings env.instance_id lib prov true with
      | Except.error _ => r
      | Except.ok true => { r with seen := insertSeen r.seen lib.db_id }
      | Except.ok false =>
        if fault = ItemFault.storeFail then r
        else
          let prov2 := markFirstMappingInLibrary prov true
          { r with store := update_item_in_library r.store lib.db_id prov2,
                   seen := insertSeen r.seen lib.db_id,
                   log := r.log ++ [StoreOp.updateItem lib.db_id prov2] }

/-- Per-item body of _sync_library_radios (music_provider.py lines 1048-1080);
its branch structure coincides with the artists body. -/
def radioStepCore (env : SyncEnv) (r : RecState) (prov : ProvItem)
    (fault : ItemFault) : RecState :=
  artistStepCore env r prov fault

/-- Per-item body of _sync_library_albums (music_provider.py lines 771-808):
the artists-shaped branch chain followed by the optional album-track fan-out
controlled by CONF_ENTRY_LIBRARY_IMPORT_ALBUM_TRACKS. -/
def albumStepCore (env : SyncEnv) (r : RecState) (prov : ProvItem)
    (fault : ItemFault) : RecState :=
  match get_library_item_by_prov_mappings r.store prov.provider_mappings with
  | none =>
    if fault = ItemFault.storeFail then r
    else
      let prov2 := if env.import_as_favorite then { prov with favorite := true } else prov
      let res := add_item_to_library r.store prov2
      let r2 := { r with store := res.1, seen := insertSeen r.seen res.2.db_id,
                         log := r.log ++ [StoreOp.addItem prov2 res.2.db_id] }
      if env.sync_album_tracks then
        let fo := syncChildTracks env.instance_id r2.sub (env.albumTracks prov.item_id) r2.log
        { r2 with sub := fo.1, log := fo.2 }
      else r2
  | some lib =>
    if !lib.favorite && env.import_as_favorite then
      if fault = ItemFault.storeFail then r
      else
        let r2 := { r with store := set_favorite r.store lib.db_id true,
                           seen := insertSeen r.seen lib.db_id,
                           log := r.log ++ [StoreOp.setFavorite lib.db_id true] }
        if env.sync_album_tracks then
          let fo := syncChildTracks env.instance_id r2.sub (env.albumTracks prov.item_id) r2.log
          { r2 with sub := fo.1, log := fo.2 }
        else r2
    else
      match check_provider_mappings env.instance_id lib prov true with
      | Except.error _ => r
      | Except.ok true =>
        let r2 := { r with seen := insertSeen r.seen lib.db_id }
        if env.sync_album_tracks && fault != ItemFault.storeFail then
          let fo := syncChildTracks env.instance_id r2.sub (env.albumTracks prov.item_id) r2.log
          { r2 with sub := fo.1, log := fo.2 }
        else r2
      | Except.ok false =>
        if fault = ItemFault.storeFail then r
        else
          let prov2 := markFirstMappingInLibrary prov true
          let r2 := { r with store := update_item_in_library r.store lib.db_id prov2,
                             seen := insertSeen r.seen lib.db_id,
                             log := r.log ++ [StoreOp.updateItem lib.db_id prov2] }
          if env.sync_album_tracks then
            let fo := syncChildTracks env.instance_id r2.sub (env.albumTracks prov.item_id) r2.log
            { r2 with sub := fo.1, log := fo.2 }
          else r2

/-- Per-item body of _sync_library_tracks (music_provider.py lines 959-1002):
new-and-unavailable tracks are skipped; for existing items an availability
change is checked before favorite promotion. -/
def trackStepCore (env : SyncEnv) (r : RecState) (prov : ProvItem)
    (fault : ItemFault) : RecState :=
  match get_library_item_by_prov_mappings r.store prov.provider_mappings with
  | none =>
    if !prov.available then r
    else if fault = ItemFault.storeFail then r
    else
      let prov2 := if env.import_as_favorite then { prov with favorite := true } else prov
      let res := add_item_to_library r.store prov2
      { r with store := res.1, seen := insertSeen r.seen res.2.db_id,
               log := r.log ++ [StoreOp.addItem prov2 res.2.db_id] }
  | some lib =>
    if lib.available != prov.available then
      if fault = ItemFault.storeFail then r
      else
        { r with store := update_item_in_library r.store lib.db_id prov,
                 seen := insertSeen r.seen lib.db_id,
                 log := r.log ++ [StoreOp.updateItem lib.db_id prov] }
    else if !lib.favorite && env.import_as_favorite then
      if fault = ItemFault.storeFail then r
      else
        { r with store := set_favorite r.store lib.db_id true,
                 seen := insertSeen r.seen lib.db_id,
                 log := r.log ++ [StoreOp.setFavorite lib.db_id true] }
    else
      match check_provider_mappings env.instance_id lib prov true with
      | Except.error _ => r
      | Except.ok true => { r with seen := insertSeen r.seen lib.db_id }
      | Except.ok false =>
        if fault = ItemFault.storeFail then r
        else
          let prov2 := markFirstMappingInLibrary prov true
          { r with store := update_item_in_library r.store lib.db_id prov2,
                   seen := insertSeen r.seen lib.db_id,
                   log := r.log ++ [StoreOp.updateItem lib.db_id prov2] }

/-- Per-item body of _sync_library_podcasts (music_provider.py lines
1004-1046): availability change before favorite promotion; the episode
precache loop performs no store mutation and is not represented. -/
def podcastStepCore (env : SyncEnv) (r : RecState) (prov : ProvItem)
    (fault : ItemFault) : RecState :=
  match get_library_item_by_prov_mappings r.store prov.provider_mappings with
  | none =>
    if fault = ItemFault.storeFail then r
    else
      let prov2 := if env.import_as_favorite then { prov with favorite := true } else prov
      let res := add_item_to_library r.store prov2
      { r with store := res.1, seen := insertSeen r.seen res.2.db_id,
               log := r.log ++ [StoreOp.addItem prov2 res.2.db_id] }
  | some lib =>
    if lib.available != prov.available then
      if fault = ItemFault.storeFail then r
      else
        { r with store := update_item_in_library r.store lib.db_id prov,
                 seen := insertSeen r.seen lib.db_id,
                 log := r.log ++ [StoreOp.updateItem lib.db_id prov] }
    else if !lib.favorite && env.import_as_favorite then
      if fault = ItemFault.storeFail then r
      else
        { r with store := set_favorite r.store lib.db_id true,
                 seen := insertSeen r.seen lib.db_id,
                 log := r.log ++ [StoreOp.setFavorite lib.db_id true] }
    else
      match check_provider_mappings env.instance_id lib prov true with
      | Except.error _ => r
      | Except.ok true => { r with seen := insertSeen r.seen lib.db_id }
      | Except.ok false =>
        if fault = ItemFault.storeFail then r
        else
          let prov2 := markFirstMappingInLibrary prov true
          { r with store := update_item_in_library r.store lib.db_id prov2,
                   seen := insertSeen r.seen lib.db_id,
                   log := r.log ++ [StoreOp.updateItem lib.db_id prov2] }

/-- The separate resume-state condition of _sync_library_audiobooks
(music_provider.py lines 861-869), evaluated against whatever library_item
currently refers to. -/
def resumeDiffers (current : LibItem) (prov : ProvItem) : Bool :=
  prov.resume_position_ms.isSome && prov.fully_played.isSome &&
    (current.resume_position_ms != prov.resume_position_ms ||
     current.fully_played != prov.fully_played)

/-- Per-item body of _sync_library_playlists (music_provider.py lines
884-929): the cache_checksum comparison comes first, then favorite promotion,
then the mapping check; after the seen insertion the playlist-track fan-out
runs when the playlist's name or uri is in the configured allow-list. -/
def playlistStepCore (env : SyncEnv) (r : RecState) (prov : ProvItem)
    (fault : ItemFault) : RecState :=
  let fanout : RecState → RecState := fun r2 =>
    if (env.playlist_sync_conf.contains prov.name
        || env.playlist_sync_conf.contains prov.uri)
        && fault != ItemFault.storeFail then
      let fo := syncChildTracks env.instance_id r2.sub (env.playlistTracks prov.item_id) r2.log
      { r2 with sub := fo.1, log := fo.2 }
    else r2
  match get_library_item_by_prov_mappings r.store prov.provider_mappings with
  | none =>
    if fault = ItemFault.storeFail then r
    else
      let prov2 := if env.import_as_favorite then { prov with favorite := true } else prov
      let res := add_item_to_library r.store prov2
      fanout { r with store := res.1, seen := insertSeen r.seen res.2.db_id,
                      log := r.log ++ [StoreOp.addItem prov2 res.2.db_id] }
  | some lib =>
    if lib.cache_checksum != prov.cache_checksum then
      if fault = ItemFault.storeFail then r
      else
        fanout { r with store := update_item_in_library r.store lib.db_id prov,
                        seen := insertSeen r.seen lib.db_id,
                        log := r.log ++ [StoreOp.updateItem lib.db_id prov] }
    else if !lib.favorite && env.import_as_favorite then
      if fault = ItemFault.storeFail then r
      else
        fanout { r with store := set_favorite r.store lib.db_id true,
                        seen := insertSeen r.seen lib.db_id,
                        log := r.log ++ [StoreOp.setFavorite lib.db_id true] }
    else
      match check_provider_mappings env.instance_id lib prov true with
      | Except.error _ => r
      | Except.ok true => fanout { r with seen := insertSeen r.seen lib.db_id }
      | Except.ok false =>
        if fault = ItemFault.storeFail then r
        else
          let prov2 := markFirstMappingInLibrary prov true
          fanout { r with store := update_item_in_library r.store lib.db_id prov2,
                          seen := insertSeen r.seen lib.db_id,
                          log := r.log ++ [StoreOp.updateItem lib.db_id prov2] }

/-- Per-item body of _sync_library_audiobooks (music_provider.py lines
838-882): the artists-shaped branch chain, then the separate resume-state
comparison (an independent if, not part of the elif chain), then the seen
insertion.  library_item is reassigned by add and update but not by
set_favorite, which determines the entity the resume comparison reads. -/
def audiobookStepCore (env : SyncEnv) (r : RecState) (prov : ProvItem)
    (fault : ItemFault) : RecState :=
  match get_library_item_by_prov_mappings r.store prov.provider_mappings with
  | none =>
    if fault = ItemFault.storeFail then r
    else
      let prov2 := if env.import_as_favorite then { prov with favorite := true } else prov
      let res := add_item_to_library r.store prov2
      if resumeDiffers res.2 prov then
        { r with store := update_item_in_library res.1 res.2.db_id prov,
                 seen := insertSeen r.seen res.2.db_id,
                 log := r.log ++ [StoreOp.addItem prov2 res.2.db_id,
                                  StoreOp.updateItem res.2.db_id prov] }
      else
        { r with store := res.1, seen := insertSeen r.seen res.2.db_id,
                 log := r.log ++ [StoreOp.addItem prov2 res.2.db_id] }
  | some lib =>
    if !lib.favorite && env.import_as_favorite then
      if fault = ItemFault.storeFail then r
      else
        let st2 := set_favorite r.store lib.db_id true
        if resumeDiffers lib prov then
          { r with store := update_item_in_library st2 lib.db_id prov,
                   seen := insertSeen r.seen lib.db_id,
                   log := r.log ++ [StoreOp.setFavorite lib.db_id true,
                                    StoreOp.updateItem lib.db_id prov] }
        else
          { r with store := st2, seen := insertSeen r.seen lib.db_id,
                   log := r.log ++ [StoreOp.setFavorite lib.db_id true] }
    else
      match check_provider_mappings env.instance_id lib prov true with
      | Except.error _ => r
      | Except.ok true =>
        if resumeDiffers lib prov then
          if fault = ItemFault.storeFail then r
          else
            let prov2 := markFirstMappingInLibrary prov true
            { r with store := update_item_in_library r.store lib.db_id prov2,
                     seen := insertSeen r.seen lib.db_id,
                     log := r.log ++ [StoreOp.updateItem lib.db_id prov2] }
        else { r with seen := insertSeen r.seen lib.db_id }
      | Except.ok false =>
        if fault = ItemFault.storeFail then r
        else
          let prov2 := markFirstMappingInLibrary prov true
          let st2 := update_item_in_library r.store lib.db_id prov2
          if resumeDiffers (updateEntity lib prov2) prov then
            { r with store := update_item_in_library st2 lib.db_id prov2,
                     seen := insertSeen r.seen lib.db_id,
                     log := r.log ++ [StoreOp.updateItem lib.db_id prov2,
                                      StoreOp.updateItem lib.db_id prov2] }
          else
            { r with store := st2, seen := insertSeen r.seen lib.db_id,
                     log := r.log ++ [StoreOp.updateItem lib.db_id prov2] }

/-- Per-item step of the reconciler for a media type: the library lookup is
performed outside the try block (a MusicAssistantError there propagates and
aborts the pass); every error inside the try block is caught, so the rest of
the body is total. -/
def reconStep (mt : MediaType) (env : SyncEnv) (r : RecState)
    (entry : ProvItem × ItemFault) : Except SyncError RecState :=
  if entry.2 = ItemFault.lookupFail then Except.error SyncError.domain
  else
    Except.ok
      (match mt with
       | MediaType.artist => artistStepCore env r entry.1 entry.2
       | MediaType.album => albumStepCore env r entry.1 entry.2
       | MediaType.track => trackStepCore env r entry.1 entry.2
       | MediaType.playlist => playlistStepCore env r entry.1 entry.2
       | MediaType.radios => radioStepCore env r entry.1 entry.2
       | MediaType.audiobook => audiobookStepCore env r entry.1 entry.2
       | MediaType.podcast => podcastStepCore env r entry.1 entry.2
       | _ => r)

/-- The reconciler loop: items are pulled in catalog order; the loop stops
only when the whole pass aborts (an error outside a try block). -/
def runSteps (step : RecState → ProvItem × ItemFault → Except SyncError RecState)
    (catalog : List (ProvItem × ItemFault)) (r : RecState) : Except SyncError RecState :=
  match catalog with
  | [] => Except.ok r
  | e :: rest =>
    match step r e with
    | Except.error err => Except.error err
    | Except.ok r2 => runSteps step rest r2

/-- The per-media-type reconciler dispatch of sync_library (music_provider.py
lines 660-676): one of the seven _sync_library_* loops, or
UnsupportedFeaturedException for any other media type. -/
def runReconciler (mt : MediaType) (env : SyncEnv)
    (catalog : List (ProvItem × ItemFault)) (r : RecState) : Except SyncError RecState :=
  match mt with
  | MediaType.artist | MediaType.album | MediaType.track | MediaType.playlist
  | MediaType.radios | MediaType.audiobook | MediaType.podcast =>
    runSteps (reconStep mt env) catalog r
  | _ => Except.error SyncError.unsupported

/-- The demotion performed by the orphan collector: this provider instance's
mappings are flipped to in_library = False in place (music_provider.py lines
702-704 and 724-726). -/
def flipProviderMappings (instance_id : String)
    (ms : List ProviderMapping) : List ProviderMapping :=
  ms.map (fun m => if m.provider_instance == instance_id then { m with in_library := false } else m)

/-- One iteration of the orphan-collection loop of sync_library
(music_provider.py lines 687-730) for a previously-seen db id.  removeFails
models remove_item_from_library raising MusicAssistantError (for example
DependentsError) for the given id. -/
def orphanStep (instance_id : String) (mt : MediaType) (removeFails : Nat → Bool)
    (seen : List Nat) (acc : LibraryState × List StoreOp) (dbId : Nat) :
    LibraryState × List StoreOp :=
  if seen.contains dbId then acc
  else
    match get_library_item acc.1 dbId with
    | none => acc
    | some library_item =>
      if library_item.provider_mappings.any
          (fun m => m.provider_instance != instance_id && m.in_library) then
        let ms := flipProviderMappings instance_id library_item.provider_mappings
        (set_provider_mappings acc.1 dbId ms, acc.2 ++ [StoreOp.setMappings dbId ms])
      else if removeFails dbId then
        let recFlag := mt == MediaType.album
        let st2 := if library_item.favorite then set_favorite acc.1 dbId false else acc.1
        let log2 := acc.2 ++ [StoreOp.removeFailed dbId recFlag]
            ++ (if library_item.favorite then [StoreOp.setFavorite dbId false] else [])
        let ms := flipProviderMappings instance_id library_item.provider_mappings
        (set_provider_mappings st2 dbId ms, log2 ++ [StoreOp.setMappings dbId ms])
      else
        (remove_item_from_library acc.1 dbId,
         acc.2 ++ [StoreOp.removeItem dbId (mt == MediaType.album)])

/-- The orphan-collection phase of sync_library (music_provider.py lines
678-730): iterate the previous snapshot and resolve every id no longer seen.
An absent or empty previous snapshot (Python truthiness of the cached list)
skips the loop. -/
def orphanPhase (instance_id : String) (mt : MediaType) (removeFails : Nat → Bool)
    (prev : Option (List Nat)) (seen : List Nat) (st : LibraryState)
    (log : List StoreOp) : LibraryState × List StoreOp :=
  match prev with
  | none => (st, log)
  | some p =>
    if p.isEmpty then (st, log)
    else p.foldl (orphanStep instance_id mt removeFails seen) (st, log)

/-- The state a sync pass reads and writes: the pass's controller table, the
tracks controller table (fan-out target), and the Snapshot Cache entry for
this (provider instance, media type). -/
structure SyncState where
  main : LibraryState
  sub : LibraryState
  cache : Option (List Nat)
deriving DecidableEq, Repr

/-- MusicProvider.sync_library (music_provider.py lines 652-737): capability
check, reconciler dispatch, orphan collection against the previous snapshot,
and snapshot persistence.  The returned trace lists the store mutations in
order. -/
def sync_library (env : SyncEnv) (features : List ProviderFeature) (mt : MediaType)
    (catalog : List (ProvItem × ItemFault)) (removeFails : Nat → Bool)
    (st : SyncState) : Except SyncError (SyncState × List StoreOp) :=
  if !library_supported features mt then Except.error SyncError.unsupported
  else
    match runReconciler mt env catalog
        { store := st.main, sub := st.sub, seen := [], log := [] } with
    | Except.error e => Except.error e
    | Except.ok r =>
      let res := orphanPhase env.instance_id mt removeFails st.cache r.seen r.store r.log
      Except.ok ({ main := res.1, sub := r.sub, cache := some r.seen }, res.2)

/-! ### Generic helper lemmas -/

theorem beq_symm {α : Type} [BEq α] [LawfulBEq α] (a b : α) : (a == b) = (b == a) := by
  by_cases h : a = b
  · simp [h]
  · simp [h, Ne.symm h]

theorem length_le_one_mem {α : Type} {l : List α} {a b : α}
    (hl : l.length ≤ 1) (ha : a ∈ l) (hb : b ∈ l) : a = b := by
  match l with
  | [] => cases ha
  | [x] =>
    simp only [List.mem_singleton] at ha hb
    rw [ha, hb]
  | x :: y :: rest => simp at hl

theorem find?_map_pred {α : Type} {l : List α} {g : α → α} {p : α → Bool}
    (h : ∀ x ∈ l, p (g x) = p x) : (l.map g).find? p = (l.find? p).map g := by
  induction l with
  | nil => rfl
  | cons x xs ih =>
    simp only [List.map_cons, List.find?_cons]
    rw [h x (List.mem_cons_self x xs)]
    cases hx : p x
    · exact ih (fun y hy => h y (List.mem_cons_of_mem x hy))
    · rfl

theorem find?_filter_keep {α : Type} {l : List α} {p q : α → Bool} {a : α}
    (hf : l.find? p = some a) (hq : q a = true) : (l.filter q).find? p = some a := by
  induction l with
  | nil => cases hf
  | cons x xs ih =>
    rw [List.find?_cons] at hf
    rw [List.filter_cons]
    cases hx : p x
    · rw [hx] at hf
      split
      · rw [List.find?_cons, hx]
        exact ih hf
      · exact ih hf
    · rw [hx] at hf
      cases hf
      rw [if_pos hq, List.find?_cons, hx]

theorem find?_filter_none {α : Type} {l : List α} {p q : α → Bool}
    (hf : l.find? p = none) : (l.filter q).find? p = none := by
  rw [List.find?_eq_none] at hf ⊢
  intro x hx
  exact hf x (List.mem_filter.mp hx).1

theorem mem_insertSeen_self (s : List Nat) (i : Nat) : i ∈ MusicAssistant.insertSeen s i := by
  unfold MusicAssistant.insertSeen
  split
  case isTrue h => simpa using h
  case isFalse h => simp

theorem mem_insertSeen_of_mem {s : List Nat} {j : Nat} (i : Nat)
    (h : j ∈ s) : j ∈ MusicAssistant.insertSeen s i := by
  unfold MusicAssistant.insertSeen
  split
  · exact h
  · exact List.mem_append_left _ h

/-! ### Library-store frame lemmas -/

theorem get_set_provider_mappings (st : LibraryState) (d1 d : Nat)
    (ms : List ProviderMapping) :
    get_library_item (set_provider_mappings st d1 ms) d
      = (get_library_item st d).map
          (fun e => if e.db_id == d1 then { e with provider_mappings := ms } else e) := by
  unfold get_library_item set_provider_mappings
  apply find?_map_pred
  intro x _
  split <;> rfl

theorem get_set_favorite (st : LibraryState) (d1 d : Nat) (v : Bool) :
    get_library_item (set_favorite st d1 v) d
      = (get_library_item st d).map
          (fun e => if e.db_id == d1 then { e with favorite := v } else e) := by
  unfold get_library_item set_favorite
  apply find?_map_pred
  intro x _
  split <;> rfl

theorem get_update_item (st : LibraryState) (d1 d : Nat) (item : ProvItem) :
    get_library_item (update_item_in_library st d1 item) d
      = (get_library_item st d).map
          (fun e => if e.db_id == d1 then updateEntity e item else e) := by
  unfold get_library_item update_item_in_library
  apply find?_map_pred
  intro x _
  split
  case isTrue h => simp [updateEntity]
  case isFalse => rfl

theorem get_db_id {st : LibraryState} {d : Nat} {e : LibItem}
    (h : get_library_item st d = some e) : e.db_id = d := by
  have := List.find?_some h
  simpa using this

theorem get_remove_other {st : LibraryState} {d1 d : Nat} (hne : d ≠ d1) :
    get_library_item (remove_item_from_library st d1) d = get_library_item st d := by
  unfold get_library_item remove_item_from_library
  cases hf : st.items.find? (fun e => e.db_id == d) with
  | none => exact find?_filter_none hf
  | some e =>
    apply find?_filter_keep hf
    have he : e.db_id = d := by simpa using List.find?_some hf
    simp [he, hne]

theorem get_set_provider_mappings_other {st : LibraryState} {d1 d : Nat}
    {ms : List ProviderMapping} (hne : d ≠ d1) :
    get_library_item (set_provider_mappings st d1 ms) d = get_library_item st d := by
  rw [get_set_provider_mappings]
  cases hf : get_library_item st d with
  | none => rfl
  | some e =>
    have he : e.db_id = d := get_db_id hf
    simp [he, hne]

theorem get_set_favorite_other {st : LibraryState} {d1 d : Nat} {v : Bool}
    (hne : d ≠ d1) :
    get_library_item (set_favorite st d1 v) d = get_library_item st d := by
  rw [get_set_favorite]
  cases hf : get_library_item st d with
  | none => rfl
  | some e =>
    have he : e.db_id = d := get_db_id hf
    simp [he, hne]

theorem get_set_provider_mappings_self {st : LibraryState} {d : Nat}
    (ms : List ProviderMapping) {e : LibItem} (h : get_library_item st d = some e) :
    get_library_item (set_provider_mappings st d ms) d
      = some { e with provider_mappings := ms } := by
  rw [get_set_provider_mappings, h]
  have he : e.db_id = d := get_db_id h
  simp [he]

theorem get_set_favorite_self {st : LibraryState} {d : Nat} (v : Bool) {e : LibItem}
    (h : get_library_item st d = some e) :
    get_library_item (set_favorite st d v) d = some { e with favorite := v } := by
  rw [get_set_favorite, h]
  have he : e.db_id = d := get_db_id h
  simp [he]

/-! ### Concrete sample data used by witnesses and counterexamples -/

/-- A sample sync environment: instance "P", no favorite import, fan-outs off. -/
def cEnv : SyncEnv :=
  { instance_id := "P", import_as_favorite := false, sync_album_tracks := false,
    playlist_sync_conf := [], albumTracks := fun _ => [], playlistTracks := fun _ => [] }

/-- The sample environment with import_as_favorite switched on. -/
def cEnvFav : SyncEnv :=
  { cEnv with import_as_favorite := true }

/-- An empty sync state. -/
def cSt0 : SyncState :=
  { main := { items := [], next_id := 1 }, sub := { items := [], next_id := 1 }, cache := none }

/-- A well-formed mapping of instance "P" for a given source item id. -/
def cMap (iid : String) : ProviderMapping :=
  { item_id := iid, provider_domain := "d", provider_instance := "P",
    available := true, in_library := true, url := none }

/-- A well-formed catalog item of instance "P" for a given source item id. -/
def cItem (iid : String) : ProvItem :=
  { item_id := iid, name := iid, uri := String.append "u:" iid, favorite := false,
    available := true, cache_checksum := none, resume_position_ms := none,
    fully_played := none, provider_mappings := [cMap iid] }

/-- An empty reconciler state. -/
def cRec0 : RecState :=
  { store := { items := [], next_id := 1 }, sub := { items := [], next_id := 1 },
    seen := [], log := [] }

/-! ### Claim C9: derivation of lookup_key -/

/-- C9, counterexample: for a non-streaming provider that is not
multi-instance-capable, the code's lookup_key is the domain, while the
claimed rule ("domain when streaming or when multi-instance-capable and not
differentiated, instance id otherwise") yields the instance id under either
reading of "differentiated". -/
theorem claim9_counterexample :
    lookup_key false false "dom" "inst" = "dom" ∧
    lookup_key_specVersion false false true "dom" "inst" = "inst" ∧
    lookup_key_specVersion false false false "dom" "inst" = "inst" ∧
    ("dom" : String) ≠ "inst" := by
  refine ⟨rfl, rfl, rfl, ?_⟩
  decide

/-- C9, amended: the derived lookup_key equals the provider's domain exactly
when the provider is a streaming provider or is not multi-instance-capable,
and equals the instance id exactly when it is a non-streaming multi-instance
provider. -/
theorem claim9_lookup_key_amended (s m : Bool) (d i : String) (h : d ≠ i) :
    (lookup_key s m d i = d ↔ (s = true ∨ m = false)) ∧
    (lookup_key s m d i = i ↔ (s = false ∧ m = true)) := by
  cases s <;> cases m <;> simp [lookup_key, h, Ne.symm h]

/-- Witness for C9's amended theorem at a concrete provider. -/
theorem claim9_witness :
    (lookup_key false true "dom" "inst" = "dom" ↔ (false = true ∨ true = false)) ∧
    (lookup_key false true "dom" "inst" = "inst" ↔ (false = false ∧ true = true)) :=
  claim9_lookup_key_amended false true "dom" "inst" (by decide)

/-! ### Claim C6: the capability check -/

theorem reconStep_error {mt : MediaType} {env : SyncEnv} {r : RecState}
    {e : ProvItem × ItemFault} {err : SyncError}
    (h : reconStep mt env r e = Except.error err) : err = SyncError.domain := by
  unfold reconStep at h
  split at h
  · cases h; rfl
  · cases h

theorem runSteps_error_domain {mt : MediaType} {env : SyncEnv} :
    ∀ (catalog : List (ProvItem × ItemFault)) (r : RecState) (err : SyncError),
    runSteps (reconStep mt env) catalog r = Except.error err → err = SyncError.domain := by
  intro catalog
  induction catalog with
  | nil => intro r err h; cases h
  | cons e rest ih =>
    intro r err h
    unfold runSteps at h
    cases hs : reconStep mt env r e with
    | error e2 =>
      rw [hs] at h
      cases h
      exact reconStep_error hs
    | ok r2 =>
      rw [hs] at h
      exact ih r2 err h

theorem runReconciler_not_unsupported {features : List ProviderFeature}
    {mt : MediaType} {env : SyncEnv} {catalog : List (ProvItem × ItemFault)}
    {r : RecState} (hsup : library_supported features mt = true) :
    ∀ err, runReconciler mt env catalog r = Except.error err → err = SyncError.domain := by
  cases mt <;> first
    | (intro err h; exact runSteps_error_domain _ _ _ h)
    | (simp [library_supported] at hsup)

/-- C6: for every media type without declared library support, sync_library
fails with UnsupportedFeaturedException before any catalog iteration, store
mutation, or snapshot write (the error carries no state change and an empty
trace); for supported media types the capability check never raises that
exception. -/
theorem claim6_capability_check (env : SyncEnv) (features : List ProviderFeature)
    (mt : MediaType) (catalog : List (ProvItem × ItemFault)) (rf : Nat → Bool)
    (st : SyncState) :
    (library_supported features mt = false →
      sync_library env features mt catalog rf st = Except.error SyncError.unsupported) ∧
    (library_supported features mt = true →
      sync_library env features mt catalog rf st ≠ Except.error SyncError.unsupported) := by
  constructor
  · intro h
    unfold sync_library
    rw [h]
    rfl
  · intro h hcon
    unfold sync_library at hcon
    rw [h] at hcon
    simp only [Bool.not_true, Bool.false_eq_true, if_false] at hcon
    cases hr : runReconciler mt env catalog
        { store := st.main, sub := st.sub, seen := [], log := [] } with
    | error e =>
      rw [hr] at hcon
      have hd : e = SyncError.domain := runReconciler_not_unsupported h e hr
      rw [hd] at hcon
      cases hcon
    | ok r =>
      rw [hr] at hcon
      simp at hcon

/-- Witness for C6 at a concrete provider: an unsupported pass is rejected,
and a supported one is not rejected by the capability check. -/
theorem claim6_witness :
    sync_library cEnv [] MediaType.track [] (fun _ => false) cSt0
        = Except.error SyncError.unsupported ∧
    sync_library cEnv [ProviderFeature.libraryTracks] MediaType.track []
        (fun _ => false) cSt0 ≠ Except.error SyncError.unsupported :=
  ⟨(claim6_capability_check cEnv [] MediaType.track [] (fun _ => false) cSt0).1 (by decide),
   (claim6_capability_check cEnv [ProviderFeature.libraryTracks] MediaType.track []
      (fun _ => false) cSt0).2 (by decide)⟩

/-! ### Claim C5: the provider-mapping consistency checker -/

/-- The data-model invariant (spec section 3): within one entity's mapping
set the (provider instance, item id) pair is unique. -/
def uniqueMappingKeys (ms : List ProviderMapping) : Prop :=
  List.Pairwise
    (fun a b => ¬(a.provider_instance = b.provider_instance ∧ a.item_id = b.item_id)) ms

theorem uniqueMappingKeys_eq {ms : List ProviderMapping} (hu : uniqueMappingKeys ms)
    {a b : ProviderMapping} (ha : a ∈ ms) (hb : b ∈ ms)
    (hk : a.provider_instance = b.provider_instance ∧ a.item_id = b.item_id) : a = b := by
  induction ms with
  | nil => cases ha
  | cons x xs ih =>
    rw [uniqueMappingKeys, List.pairwise_cons] at hu
    rcases List.mem_cons.mp ha with ha1 | ha1 <;> rcases List.mem_cons.mp hb with hb1 | hb1
    · rw [ha1, hb1]
    · exact absurd hk (ha1 ▸ hu.1 b hb1)
    · exact absurd ⟨hk.1.symm, hk.2.symm⟩ (hb1 ▸ hu.1 a ha1)
    · exact ih hu.2 ha1 hb1

/-- C5: check_provider_mappings raises exactly when the head mapping's item id
or provider instance differs from the item's own identity; otherwise its
verdict only depends on the head mapping and equals the existence of a
library mapping with the same key, the requested in_library value and the
same available flag; an empty mapping set yields false. -/
theorem claim5_check_provider_mappings (inst : String) (lib : LibItem)
    (prov : ProvItem) (req : Bool) (hu : uniqueMappingKeys lib.provider_mappings) :
    (prov.provider_mappings = [] →
      check_provider_mappings inst lib prov req = Except.ok false) ∧
    (∀ m rest, prov.provider_mappings = m :: rest →
      ((m.item_id ≠ prov.item_id ∨ m.provider_instance ≠ inst) →
        check_provider_mappings inst lib prov req = Except.error SyncError.consistency) ∧
      (m.item_id = prov.item_id → m.provider_instance = inst →
        check_provider_mappings inst lib prov req =
          Except.ok (decide (∃ lm, lm ∈ lib.provider_mappings ∧
            lm.provider_instance = inst ∧ lm.item_id = m.item_id ∧
            lm.in_library = req ∧ lm.available = m.available)))) := by
  constructor
  · intro h
    unfold check_provider_mappings
    rw [h]
  · intro m rest hl
    have hck : check_provider_mappings inst lib prov req =
        (if m.item_id != prov.item_id then Except.error SyncError.consistency
         else if m.provider_instance != inst then Except.error SyncError.consistency
         else
           match lib.provider_mappings.find? (fun x =>
               x.provider_instance == m.provider_instance && x.item_id == m.item_id) with
           | none => Except.ok false
           | some lm =>
             if req != lm.in_library then Except.ok false
             else Except.ok (m.available == lm.available)) := by
      unfold check_provider_mappings
      rw [hl]
    constructor
    · intro hbad
      rw [hck]
      by_cases hid : m.item_id = prov.item_id
      · have hbi : m.provider_instance ≠ inst := by
          rcases hbad with h | h
          · exact absurd hid h
          · exact h
        rw [if_neg (by simp [hid]), if_pos (by simpa using hbi)]
      · rw [if_pos (by simpa using hid)]
    · intro hid hinst
      rw [hck, if_neg (by simp [hid]), if_neg (by simp [hinst]), hinst]
      cases hf : lib.provider_mappings.find? (fun x =>
          x.provider_instance == inst && x.item_id == m.item_id) with
      | none =>
        have hno : ∀ x ∈ lib.provider_mappings,
            ¬(x.provider_instance == inst && x.item_id == m.item_id) = true :=
          List.find?_eq_none.mp hf
        have : ¬(∃ lm, lm ∈ lib.provider_mappings ∧
            lm.provider_instance = inst ∧ lm.item_id = m.item_id ∧
            lm.in_library = req ∧ lm.available = m.available) := by
          rintro ⟨lm, hmem, h1, h2, _, _⟩
          exact hno lm hmem (by simp [h1, h2])
        simp [this]
      | some lm =>
        dsimp only
        have hpred := List.find?_some hf
        have hmem := List.mem_of_find?_eq_some hf
        have hk1 : lm.provider_instance = inst := by
          have := (Bool.and_eq_true _ _).mp hpred
          exact (beq_iff_eq).mp this.1
        have hk2 : lm.item_id = m.item_id := by
          have := (Bool.and_eq_true _ _).mp hpred
          exact (beq_iff_eq).mp this.2
        by_cases hin : lm.in_library = req
        · rw [if_neg (by simp [hin])]
          by_cases hav : lm.available = m.available
          · have hex : (∃ lm2, lm2 ∈ lib.provider_mappings ∧
                lm2.provider_instance = inst ∧ lm2.item_id = m.item_id ∧
                lm2.in_library = req ∧ lm2.available = m.available) :=
              ⟨lm, hmem, hk1, hk2, hin, hav⟩
            have h1 : (m.available == lm.available) = true := by simp [hav]
            have h2 : decide (∃ lm2, lm2 ∈ lib.provider_mappings ∧
                lm2.provider_instance = inst ∧ lm2.item_id = m.item_id ∧
                lm2.in_library = req ∧ lm2.available = m.available) = true :=
              decide_eq_true hex
            rw [h1, h2]
          · have hnex : ¬(∃ lm2, lm2 ∈ lib.provider_mappings ∧
                lm2.provider_instance = inst ∧ lm2.item_id = m.item_id ∧
                lm2.in_library = req ∧ lm2.available = m.available) := by
              rintro ⟨lm2, hmem2, h1, h2, h3, h4⟩
              have : lm2 = lm := uniqueMappingKeys_eq hu hmem2 hmem
                ⟨h1.trans hk1.symm, h2.trans hk2.symm⟩
              rw [this] at h4
              exact hav h4
            have hne : (m.available == lm.available) = false := by
              cases hb : m.available == lm.available
              · rfl
              · exact absurd ((beq_iff_eq).mp hb).symm hav
            simp [hnex, hne]
        · rw [if_pos (by simp [Ne.symm hin])]
          have hnex : ¬(∃ lm2, lm2 ∈ lib.provider_mappings ∧
              lm2.provider_instance = inst ∧ lm2.item_id = m.item_id ∧
              lm2.in_library = req ∧ lm2.available = m.available) := by
            rintro ⟨lm2, hmem2, h1, h2, h3, _⟩
            have : lm2 = lm := uniqueMappingKeys_eq hu hmem2 hmem
              ⟨h1.trans hk1.symm, h2.trans hk2.symm⟩
            rw [this] at h3
            exact hin h3
          simp [hnex]

/-- A sample library entity holding the single well-formed mapping of
item a1. -/
def cLib5 : LibItem :=
  { db_id := 1, name := "a1", favorite := false, available := true,
    cache_checksum := none, resume_position_ms := none, fully_played := none,
    provider_mappings := [cMap "a1"] }

/-- Witness for C5 at a concrete item with one library mapping: both the
empty-mapping clause and the head-mapping clause are exercised. -/
theorem claim5_witness :
    check_provider_mappings "P" cLib5 (cItem "a1") true =
      Except.ok (decide (∃ lm, lm ∈ cLib5.provider_mappings ∧
        lm.provider_instance = "P" ∧ lm.item_id = (cMap "a1").item_id ∧
        lm.in_library = true ∧ lm.available = (cMap "a1").available)) :=
  (((claim5_check_provider_mappings "P" cLib5 (cItem "a1") true (by
      unfold uniqueMappingKeys
      decide)).2) (cMap "a1") [] (by decide)).2 (by decide) (by decide)

/-! ### Claim C10: unavailable new tracks are skipped -/

/-- A provider item carrying exactly one self-mapping of the given instance,
with the mapping already flagged in_library (the "exactly one self-mapping
per observed item" invariant of spec section 9). -/
def wellFormedItem (inst : String) (item : ProvItem) : Bool :=
  match item.provider_mappings with
  | [m] => m.item_id == item.item_id && m.provider_instance == inst && m.in_library
  | _ => false

theorem check_ok_of_wf {inst : String} {lib : LibItem} {prov : ProvItem} {req : Bool}
    (hwf : wellFormedItem inst prov = true) :
    ∃ b, check_provider_mappings inst lib prov req = Except.ok b := by
  unfold wellFormedItem at hwf
  cases hpm : prov.provider_mappings with
  | nil => rw [hpm] at hwf; cases hwf
  | cons m rest =>
    rw [hpm] at hwf
    cases rest with
    | cons m2 rest2 => cases hwf
    | nil =>
      simp only [Bool.and_eq_true, beq_iff_eq] at hwf
      have hck : check_provider_mappings inst lib prov req =
          (if m.item_id != prov.item_id then Except.error SyncError.consistency
           else if m.provider_instance != inst then Except.error SyncError.consistency
           else
             match lib.provider_mappings.find? (fun x =>
                 x.provider_instance == m.provider_instance && x.item_id == m.item_id) with
             | none => Except.ok false
             | some lm =>
               if req != lm.in_library then Except.ok false
               else Except.ok (m.available == lm.available)) := by
        unfold check_provider_mappings
        rw [hpm]
      rw [hck, if_neg (by simp [hwf.1.1]), if_neg (by simp [hwf.1.2])]
      cases lib.provider_mappings.find? (fun x =>
          x.provider_instance == m.provider_instance && x.item_id == m.item_id) with
      | none => exact ⟨false, rfl⟩
      | some lm =>
        dsimp only
        split
        · exact ⟨false, rfl⟩
        · exact ⟨_, rfl⟩

/-- C10: during a track pass, a catalog track with no matching library entity
and available = false is skipped entirely (no store mutation, no state
change, no seen id); the skip does not apply when a matching library entity
exists: such a track still gets its id recorded in the seen set. -/
theorem claim10_track_skip (env : SyncEnv) (r : RecState) (prov : ProvItem) :
    (get_library_item_by_prov_mappings r.store prov.provider_mappings = none →
      prov.available = false →
      trackStepCore env r prov ItemFault.ok = r) ∧
    (∀ lib, get_library_item_by_prov_mappings r.store prov.provider_mappings = some lib →
      prov.available = false →
      wellFormedItem env.instance_id prov = true →
      (trackStepCore env r prov ItemFault.ok).seen = insertSeen r.seen lib.db_id) := by
  constructor
  · intro hl hav
    unfold trackStepCore
    rw [hl]
    simp [hav]
  · intro lib hl hav hwf
    unfold trackStepCore
    rw [hl]
    cases hb : lib.available != prov.available with
    | true =>
      simp only [hb]
      simp
    | false =>
      simp only [hb]
      cases hf : !lib.favorite && env.import_as_favorite with
      | true => simp
      | false =>
        simp only [Bool.false_eq_true, if_false]
        obtain ⟨b, hchk⟩ := @check_ok_of_wf env.instance_id lib prov true hwf
        rw [hchk]
        cases b <;> simp

/-- A track that is unavailable upstream. -/
def cItemUnav : ProvItem := { cItem "t9" with available := false }

/-- A library entity matching cItemUnav but currently available. -/
def cLibT : LibItem :=
  { db_id := 1, name := "t9", favorite := false, available := true,
    cache_checksum := none, resume_position_ms := none, fully_played := none,
    provider_mappings := [cMap "t9"] }

/-- A reconciler state holding cLibT. -/
def cRecT : RecState :=
  { store := { items := [cLibT], next_id := 2 }, sub := { items := [], next_id := 1 },
    seen := [], log := [] }

/-- Witness for C10: the skip fires on an empty store and does not fire when
the entity exists. -/
theorem claim10_witness :
    trackStepCore cEnv cRec0 cItemUnav ItemFault.ok = cRec0 ∧
    (trackStepCore cEnv cRecT cItemUnav ItemFault.ok).seen
      = insertSeen cRecT.seen cLibT.db_id :=
  ⟨(claim10_track_skip cEnv cRec0 cItemUnav).1 (by decide) (by decide),
   (claim10_track_skip cEnv cRecT cItemUnav).2 cLibT (by decide) (by decide) (by decide)⟩

/-! ### Claim C4: branch order for already-matched items -/

/-- C4 amended: for playlists, tracks and podcasts the type-specific change
branch (checksum, availability) is evaluated before favorite promotion, so
when both conditions hold in one iteration, update_item_in_library is invoked
and set_favorite is not; for audiobooks the favorite branch belongs to the
elif chain but the resume-state comparison is a separate if, so when both
hold, set_favorite and update_item_in_library are both invoked in that
iteration. -/
theorem claim4_branch_order (env : SyncEnv) (r : RecState) (prov : ProvItem)
    (lib : LibItem) (hfav : lib.favorite = false) (himp : env.import_as_favorite = true) :
    (get_library_item_by_prov_mappings r.store prov.provider_mappings = some lib →
      lib.cache_checksum ≠ prov.cache_checksum →
      env.playlist_sync_conf.contains prov.name = false →
      env.playlist_sync_conf.contains prov.uri = false →
      (playlistStepCore env r prov ItemFault.ok).log
        = r.log ++ [StoreOp.updateItem lib.db_id prov]) ∧
    (get_library_item_by_prov_mappings r.store prov.provider_mappings = some lib →
      lib.available ≠ prov.available →
      (trackStepCore env r prov ItemFault.ok).log
        = r.log ++ [StoreOp.updateItem lib.db_id prov]) ∧
    (get_library_item_by_prov_mappings r.store prov.provider_mappings = some lib →
      lib.available ≠ prov.available →
      (podcastStepCore env r prov ItemFault.ok).log
        = r.log ++ [StoreOp.updateItem lib.db_id prov]) ∧
    (get_library_item_by_prov_mappings r.store prov.provider_mappings = some lib →
      resumeDiffers lib prov = true →
      (audiobookStepCore env r prov ItemFault.ok).log
        = r.log ++ [StoreOp.setFavorite lib.db_id true,
                    StoreOp.updateItem lib.db_id prov]) := by
  refine ⟨?_, ?_, ?_, ?_⟩
  · intro hl hcs hn hu
    unfold playlistStepCore
    rw [hl]
    have hb : (lib.cache_checksum != prov.cache_checksum) = true := by simpa using hcs
    have hn2 : ¬ prov.name ∈ env.playlist_sync_conf := by simpa using hn
    have hu2 : ¬ prov.uri ∈ env.playlist_sync_conf := by simpa using hu
    simp [hb, hn2, hu2]
  · intro hl hav
    unfold trackStepCore
    rw [hl]
    have hb : (lib.available != prov.available) = true := by simpa using hav
    simp [hb]
  · intro hl hav
    unfold podcastStepCore
    rw [hl]
    have hb : (lib.available != prov.available) = true := by simpa using hav
    simp [hb]
  · intro hl hres
    unfold audiobookStepCore
    rw [hl]
    simp [hfav, himp, hres]

/-- The playlist as currently offered by the provider (changed checksum). -/
def cPl : ProvItem :=
  { item_id := "pl1", name := "N", uri := "u:pl1", favorite := false, available := true,
    cache_checksum := some "new", resume_position_ms := none, fully_played := none,
    provider_mappings := [cMap "pl1"] }

/-- The matching library playlist, not yet a favorite, with the old checksum. -/
def cLibPl : LibItem :=
  { db_id := 1, name := "N", favorite := false, available := true,
    cache_checksum := some "old", resume_position_ms := none, fully_played := none,
    provider_mappings := [cMap "pl1"] }

/-- Reconciler state holding cLibPl. -/
def cRecPl : RecState :=
  { store := { items := [cLibPl], next_id := 2 }, sub := { items := [], next_id := 1 },
    seen := [], log := [] }

/-- An audiobook as currently offered by the provider, with resume state. -/
def cAb : ProvItem :=
  { item_id := "ab1", name := "B", uri := "u:ab1", favorite := false, available := true,
    cache_checksum := none, resume_position_ms := some 5, fully_played := some false,
    provider_mappings := [cMap "ab1"] }

/-- The matching library audiobook: not a favorite, no resume state yet. -/
def cLibAb : LibItem :=
  { db_id := 1, name := "B", favorite := false, available := true,
    cache_checksum := none, resume_position_ms := none, fully_played := none,
    provider_mappings := [cMap "ab1"] }

/-- Reconciler state holding cLibAb. -/
def cRecAb : RecState :=
  { store := { items := [cLibAb], next_id := 2 }, sub := { items := [], next_id := 1 },
    seen := [], log := [] }

/-- C4, counterexample: with import_as_favorite = true, a non-favorite library
playlist whose checksum changed takes the update branch, not set_favorite —
the opposite of the order in the spec's pseudocode; and for a non-favorite
audiobook with changed resume state, set_favorite and an update both fire in
the same iteration, against the claim that no update occurs then. -/
theorem claim4_counterexample :
    cLibPl.favorite = false ∧ cEnvFav.import_as_favorite = true ∧
    cLibPl.cache_checksum ≠ cPl.cache_checksum ∧
    get_library_item_by_prov_mappings cRecPl.store cPl.provider_mappings = some cLibPl ∧
    (playlistStepCore cEnvFav cRecPl cPl ItemFault.ok).log = [StoreOp.updateItem 1 cPl] ∧
    StoreOp.setFavorite 1 true ∉ (playlistStepCore cEnvFav cRecPl cPl ItemFault.ok).log ∧
    cLibAb.favorite = false ∧ resumeDiffers cLibAb cAb = true ∧
    (audiobookStepCore cEnvFav cRecAb cAb ItemFault.ok).log
      = [StoreOp.setFavorite 1 true, StoreOp.updateItem 1 cAb] := by
  refine ⟨rfl, rfl, by decide, by decide, by decide, by decide, rfl, by decide, by decide⟩

/-- Witness for C4's amended theorem: the concrete playlist takes the update
branch only, and the concrete audiobook takes set_favorite plus the resume
update. -/
theorem claim4_witness :
    (playlistStepCore cEnvFav cRecPl cPl ItemFault.ok).log
      = cRecPl.log ++ [StoreOp.updateItem cLibPl.db_id cPl] ∧
    (audiobookStepCore cEnvFav cRecAb cAb ItemFault.ok).log
      = cRecAb.log ++ [StoreOp.setFavorite cLibAb.db_id true,
                       StoreOp.updateItem cLibAb.db_id cAb] :=
  ⟨(claim4_branch_order cEnvFav cRecPl cPl cLibPl (by decide) (by decide)).1
      (by decide) (by decide) (by decide) (by decide),
   (claim4_branch_order cEnvFav cRecAb cAb cLibAb (by decide) (by decide)).2.2.2
      (by decide) (by decide)⟩

/-! ### Claim C3: partial-failure isolation -/

theorem reconStep_ok_of_not_lookupFail {mt : MediaType} {env : SyncEnv}
    {r : RecState} {e : ProvItem × ItemFault} (h : e.2 ≠ ItemFault.lookupFail) :
    ∃ r2, reconStep mt env r e = Except.ok r2 := by
  unfold reconStep
  rw [if_neg h]
  exact ⟨_, rfl⟩

theorem runSteps_ok_of_no_lookupFail {mt : MediaType} {env : SyncEnv} :
    ∀ (catalog : List (ProvItem × ItemFault)) (r : RecState),
    (∀ e ∈ catalog, e.2 ≠ ItemFault.lookupFail) →
    ∃ r2, runSteps (reconStep mt env) catalog r = Except.ok r2 := by
  intro catalog
  induction catalog with
  | nil => intro r _; exact ⟨r, rfl⟩
  | cons e rest ih =>
    intro r h
    obtain ⟨r2, hr2⟩ := @reconStep_ok_of_not_lookupFail mt env r e
      (h e (List.mem_cons_self e rest))
    obtain ⟨r3, hr3⟩ := ih r2 (fun x hx => h x (List.mem_cons_of_mem e hx))
    exact ⟨r3, by unfold runSteps; rw [hr2]; exact hr3⟩

theorem stepCore_storeFail_new {mt : MediaType} {env : SyncEnv} {r : RecState}
    {prov : ProvItem}
    (h : get_library_item_by_prov_mappings r.store prov.provider_mappings = none) :
    reconStep mt env r (prov, ItemFault.storeFail) = Except.ok r := by
  unfold reconStep
  rw [if_neg (by simp)]
  cases mt
  case artist => unfold artistStepCore; rw [h]; simp
  case album => unfold albumStepCore; rw [h]; simp
  case track => dsimp only; unfold trackStepCore; rw [h]; simp
  case playlist => unfold playlistStepCore; rw [h]; simp
  case radios => unfold radioStepCore artistStepCore; rw [h]; simp
  case audiobook => unfold audiobookStepCore; rw [h]; simp
  case podcast => unfold podcastStepCore; rw [h]; simp
  case podcastEpisode => rfl
  case folder => rfl
  case unknown => rfl

/-- A step whose item fails every attempted store mutation (the DomainError
is caught by the per-item except clause) completes, commits nothing to either
controller table and emits no trace entry; whether the item is new or already
in the library is immaterial. -/
theorem stepCore_storeFail_frame {mt : MediaType} {env : SyncEnv} {r : RecState}
    {prov : ProvItem} {rK : RecState}
    (h : reconStep mt env r (prov, ItemFault.storeFail) = Except.ok rK) :
    rK.store = r.store ∧ rK.sub = r.sub ∧ rK.log = r.log := by
  unfold reconStep at h
  rw [if_neg (by simp)] at h
  injection h with h2
  subst h2
  cases mt
  case artist =>
    dsimp only
    unfold artistStepCore
    repeat' split
    all_goals simp_all
  case radios =>
    dsimp only
    unfold radioStepCore artistStepCore
    repeat' split
    all_goals simp_all
  case album =>
    dsimp only
    unfold albumStepCore
    repeat' split
    all_goals simp_all
  case track =>
    dsimp only
    unfold trackStepCore
    repeat' split
    all_goals simp_all
  case podcast =>
    dsimp only
    unfold podcastStepCore
    repeat' split
    all_goals simp_all
  case playlist =>
    dsimp only
    unfold playlistStepCore
    repeat' split
    all_goals simp_all
  case audiobook =>
    dsimp only
    unfold audiobookStepCore
    repeat' split
    all_goals simp_all
  case podcastEpisode => exact ⟨rfl, rfl, rfl⟩
  case folder => exact ⟨rfl, rfl, rfl⟩
  case unknown => exact ⟨rfl, rfl, rfl⟩

/-- C3 amended: when handling of item k raises a DomainError inside the
per-item guarded block (modelled as every store mutation attempted for item
k failing, whether item k is new or already in the library), the mutations
of items 1..k-1 remain committed, item k commits nothing (no store change,
no tracks-table change, no trace entry), items k+1..n are still attempted
from that state, and the pass completes.  (A DomainError at the library
lookup of item k instead aborts the pass — the lookup is outside the
guarded block; see the counterexample.) -/
theorem claim3_partial_failure (mt : MediaType) (env : SyncEnv)
    (l1 l2 : List (ProvItem × ItemFault)) (itemK : ProvItem) (r : RecState)
    (hnf : ∀ e ∈ l1 ++ l2, e.2 ≠ ItemFault.lookupFail) :
    ∀ r1, runSteps (reconStep mt env) l1 r = Except.ok r1 →
    ∃ rK, reconStep mt env r1 (itemK, ItemFault.storeFail) = Except.ok rK ∧
      rK.store = r1.store ∧ rK.sub = r1.sub ∧ rK.log = r1.log ∧
      runSteps (reconStep mt env) (l1 ++ (itemK, ItemFault.storeFail) :: l2) r
        = runSteps (reconStep mt env) l2 rK ∧
      ∃ r2, runSteps (reconStep mt env) l2 rK = Except.ok r2 := by
  induction l1 generalizing r with
  | nil =>
    intro r1 h1
    simp only [runSteps] at h1
    injection h1 with h2
    subst h2
    obtain ⟨rK, hrK⟩ := @reconStep_ok_of_not_lookupFail mt env r
      (itemK, ItemFault.storeFail) (by simp)
    obtain ⟨hst, hsb, hlg⟩ := stepCore_storeFail_frame hrK
    refine ⟨rK, hrK, hst, hsb, hlg, ?_, ?_⟩
    · simp only [List.nil_append, runSteps, hrK]
    · exact runSteps_ok_of_no_lookupFail l2 rK (fun x hx => hnf x (by simpa using hx))
  | cons e es ih =>
    intro r1 h1
    have he2 := hnf e (List.mem_cons_self e _)
    simp only [runSteps] at h1
    cases hs : reconStep mt env r e with
    | error err => rw [hs] at h1; cases h1
    | ok rA =>
      rw [hs] at h1
      have hnf2 : ∀ x ∈ es ++ l2, x.2 ≠ ItemFault.lookupFail := by
        intro x hx
        exact hnf x (List.mem_cons_of_mem e hx)
      obtain ⟨rK, hrK, hst, hsb, hlg, hrun, hok⟩ := ih rA hnf2 r1 h1
      refine ⟨rK, hrK, hst, hsb, hlg, ?_, hok⟩
      simp only [List.cons_append, runSteps, hs]
      exact hrun

/-- C3, counterexample: a DomainError raised at the library lookup of item 1
(which the source performs outside the per-item try block) aborts the whole
artist pass — the second item is never attempted and no seen set is
returned, contrary to the claim that the pass completes with items k+1..n
committed. -/
theorem claim3_counterexample :
    runSteps (reconStep MediaType.artist cEnv)
      [(cItem "a1", ItemFault.lookupFail), (cItem "a2", ItemFault.ok)] cRec0
      = Except.error SyncError.domain := by
  rfl

/-- Witness for C3's amended theorem: a store-failing update of an existing
playlist (checksum changed, so the update branch fires and raises) commits
nothing, the successor item is still processed and the pass completes. -/
theorem claim3_witness :
    ∃ rK, reconStep MediaType.playlist cEnv cRecPl (cPl, ItemFault.storeFail)
        = Except.ok rK ∧
      rK.store = cRecPl.store ∧ rK.sub = cRecPl.sub ∧ rK.log = cRecPl.log ∧
      runSteps (reconStep MediaType.playlist cEnv)
          ([] ++ (cPl, ItemFault.storeFail) :: [(cItem "p2", ItemFault.ok)]) cRecPl
        = runSteps (reconStep MediaType.playlist cEnv) [(cItem "p2", ItemFault.ok)] rK ∧
      ∃ r2, runSteps (reconStep MediaType.playlist cEnv)
          [(cItem "p2", ItemFault.ok)] rK = Except.ok r2 :=
  claim3_partial_failure MediaType.playlist cEnv [] [(cItem "p2", ItemFault.ok)]
    cPl cRecPl (by decide) cRecPl rfl

/-! ### Flip lemmas and orphan-collector frame lemmas -/

theorem flip_any_other (inst : String) (ms : List ProviderMapping) :
    (flipProviderMappings inst ms).any (fun m => m.provider_instance != inst && m.in_library)
      = ms.any (fun m => m.provider_instance != inst && m.in_library) := by
  induction ms with
  | nil => rfl
  | cons m rest ih =>
    simp only [flipProviderMappings, List.map_cons, List.any_cons] at ih ⊢
    rw [ih]
    congr 1
    by_cases h : (m.provider_instance == inst) = true
    · rw [if_pos h]
      have h2 : m.provider_instance = inst := by simpa using h
      simp [h2]
    · rw [if_neg h]

theorem flip_idem (inst : String) (ms : List ProviderMapping) :
    flipProviderMappings inst (flipProviderMappings inst ms)
      = flipProviderMappings inst ms := by
  induction ms with
  | nil => rfl
  | cons m rest ih =>
    simp only [flipProviderMappings, List.map_cons] at ih ⊢
    rw [ih]
    congr 1
    by_cases h : (m.provider_instance == inst) = true
    · rw [if_pos h, if_pos h]
    · rw [if_neg h, if_neg h]

theorem orphanStep_get_other {inst : String} {mt : MediaType} {rf : Nat → Bool}
    {seen : List Nat} {acc : LibraryState × List StoreOp} {d1 d : Nat} (hne : d ≠ d1) :
    get_library_item (orphanStep inst mt rf seen acc d1).1 d = get_library_item acc.1 d := by
  unfold orphanStep
  split
  · rfl
  · split
    · rfl
    · split
      · exact get_set_provider_mappings_other hne
      · split
        · rw [get_set_provider_mappings_other hne]
          split
          · exact get_set_favorite_other hne
          · rfl
        · exact get_remove_other hne

theorem orphanStep_log_mono {inst : String} {mt : MediaType} {rf : Nat → Bool}
    {seen : List Nat} {acc : LibraryState × List StoreOp} {d1 : Nat} {x : StoreOp}
    (hx : x ∈ acc.2) : x ∈ (orphanStep inst mt rf seen acc d1).2 := by
  unfold orphanStep
  split
  · exact hx
  · split
    · exact hx
    · split
      · exact List.mem_append_left _ hx
      · split
        · refine List.mem_append_left _ ?_
          exact List.mem_append_left _ (List.mem_append_left _ hx)
        · exact List.mem_append_left _ hx

theorem syncChildTracks_cons (inst : String) (sub : LibraryState) (t : ProvItem)
    (ts : List ProvItem) (log : List StoreOp) :
    syncChildTracks inst sub (t :: ts) log =
      match get_library_item_by_prov_mappings sub t.provider_mappings with
      | none =>
        syncChildTracks inst (add_item_to_library sub t).1 ts
          (log ++ [StoreOp.addItem t (add_item_to_library sub t).2.db_id])
      | some lib =>
        match check_provider_mappings inst lib t true with
        | Except.error _ => syncChildTracks inst sub ts log
        | Except.ok true => syncChildTracks inst sub ts log
        | Except.ok false =>
          syncChildTracks inst
            (update_item_in_library sub lib.db_id (markFirstMappingInLibrary t true)) ts
            (log ++ [StoreOp.updateItem lib.db_id (markFirstMappingInLibrary t true)]) := by
  unfold syncChildTracks
  rw [List.foldl_cons]
  cases get_library_item_by_prov_mappings sub t.provider_mappings with
  | none => rfl
  | some lib =>
    dsimp only
    cases check_provider_mappings inst lib t true with
    | error e => rfl
    | ok b => cases b <;> rfl

theorem syncChildTracks_log (inst : String) : ∀ (tracks : List ProvItem)
    (sub : LibraryState) (log : List StoreOp) (d : Nat) (ms : List ProviderMapping),
    StoreOp.setMappings d ms ∈ (syncChildTracks inst sub tracks log).2 →
    StoreOp.setMappings d ms ∈ log := by
  intro tracks
  induction tracks with
  | nil => intro sub log d ms hx; exact hx
  | cons t ts ih =>
    intro sub log d ms hx
    rw [syncChildTracks_cons] at hx
    cases hl : get_library_item_by_prov_mappings sub t.provider_mappings with
    | none =>
      rw [hl] at hx
      dsimp only at hx
      have := ih _ _ _ _ hx
      simp only [List.mem_append, List.mem_singleton] at this
      rcases this with h | h
      · exact h
      · cases h
    | some lib =>
      rw [hl] at hx
      dsimp only at hx
      cases hc : check_provider_mappings inst lib t true with
      | error e => rw [hc] at hx; exact ih _ _ _ _ hx
      | ok b =>
        rw [hc] at hx
        cases b
        · have := ih _ _ _ _ hx
          simp only [List.mem_append, List.mem_singleton] at this
          rcases this with h | h
          · exact h
          · cases h
        · exact ih _ _ _ _ hx

/-! ### Claim C8: frame property of mapping mutations -/

theorem syncChildTracks_log_app {inst : String} {sub : LibraryState}
    {tracks : List ProvItem} {log : List StoreOp} {op : StoreOp}
    {d : Nat} {ms : List ProviderMapping}
    (hop : ∀ d2 ms2, op ≠ StoreOp.setMappings d2 ms2)
    (hx : StoreOp.setMappings d ms ∈ (syncChildTracks inst sub tracks (log ++ [op])).2) :
    StoreOp.setMappings d ms ∈ log := by
  have h2 := syncChildTracks_log _ _ _ _ _ _ hx
  simp only [List.mem_append, List.mem_singleton] at h2
  rcases h2 with h | h
  · exact h
  · exact absurd h.symm (hop d ms)

theorem reconStep_log_setMappings {mt : MediaType} {env : SyncEnv} {r : RecState}
    {e : ProvItem × ItemFault} {r2 : RecState}
    (h : reconStep mt env r e = Except.ok r2) :
    ∀ d ms, StoreOp.setMappings d ms ∈ r2.log → StoreOp.setMappings d ms ∈ r.log := by
  unfold reconStep at h
  split at h
  · cases h
  · injection h with h2
    subst h2
    intro d ms hx
    cases mt
    case artist =>
      unfold artistStepCore at hx
      repeat' split at hx
      all_goals simp_all [List.mem_append]
    case radios =>
      unfold radioStepCore artistStepCore at hx
      repeat' split at hx
      all_goals simp_all [List.mem_append]
    case track =>
      unfold trackStepCore at hx
      repeat' split at hx
      all_goals simp_all [List.mem_append]
    case podcast =>
      unfold podcastStepCore at hx
      repeat' split at hx
      all_goals simp_all [List.mem_append]
    case audiobook =>
      unfold audiobookStepCore at hx
      simp only [apply_ite RecState.log] at hx
      repeat' split at hx
      all_goals simp_all [List.mem_append]
    case album =>
      unfold albumStepCore at hx
      repeat' split at hx
      all_goals
        first
        | exact hx
        | exact syncChildTracks_log_app (by intro d2 ms2 hne; cases hne) hx
        | exact syncChildTracks_log _ _ _ _ _ _ hx
        | simp_all [List.mem_append]
    case playlist =>
      unfold playlistStepCore at hx
      repeat' split at hx
      all_goals
        first
        | exact hx
        | exact syncChildTracks_log_app (by intro d2 ms2 hne; cases hne) hx
        | exact syncChildTracks_log _ _ _ _ _ _ hx
        | simp_all [List.mem_append]
    case podcastEpisode => exact hx
    case folder => exact hx
    case unknown => exact hx

theorem runSteps_log_setMappings {mt : MediaType} {env : SyncEnv} :
    ∀ (catalog : List (ProvItem × ItemFault)) (r r2 : RecState),
    runSteps (reconStep mt env) catalog r = Except.ok r2 →
    ∀ d ms, StoreOp.setMappings d ms ∈ r2.log → StoreOp.setMappings d ms ∈ r.log := by
  intro catalog
  induction catalog with
  | nil =>
    intro r r2 h d ms hx
    simp only [runSteps] at h
    injection h with h2
    subst h2
    exact hx
  | cons e rest ih =>
    intro r r2 h d ms hx
    simp only [runSteps] at h
    cases hs : reconStep mt env r e with
    | error err => rw [hs] at h; cases h
    | ok r1 =>
      rw [hs] at h
      exact reconStep_log_setMappings hs d ms (ih r1 r2 h d ms hx)

theorem orphanStep_setMappings {inst : String} {mt : MediaType} {rf : Nat → Bool}
    {seen : List Nat} {acc : LibraryState × List StoreOp} {d1 : Nat}
    {d : Nat} {ms : List ProviderMapping}
    (h : StoreOp.setMappings d ms ∈ (orphanStep inst mt rf seen acc d1).2) :
    StoreOp.setMappings d ms ∈ acc.2 ∨
      ∃ ms0, ms = flipProviderMappings inst ms0 := by
  unfold orphanStep at h
  repeat' split at h
  all_goals simp_all [List.mem_append]
  all_goals tauto

theorem orphanFold_setMappings {inst : String} {mt : MediaType} {rf : Nat → Bool}
    {seen : List Nat} : ∀ (p : List Nat) (acc : LibraryState × List StoreOp)
    (d : Nat) (ms : List ProviderMapping),
    StoreOp.setMappings d ms ∈ (p.foldl (orphanStep inst mt rf seen) acc).2 →
    StoreOp.setMappings d ms ∈ acc.2 ∨ ∃ ms0, ms = flipProviderMappings inst ms0 := by
  intro p
  induction p with
  | nil => intro acc d ms h; exact Or.inl h
  | cons x xs ih =>
    intro acc d ms h
    rw [List.foldl_cons] at h
    rcases ih _ d ms h with h2 | h2
    · exact orphanStep_setMappings h2
    · exact Or.inr h2

/-- C8: every set_provider_mappings write performed by a sync pass is one of
the two orphan-collector demotions: its payload is the flip of some mapping
list, and the flip is the identity on every mapping whose provider instance
differs from the syncing provider's instance id (elementwise, all fields
unchanged). -/
theorem claim8_mapping_frame (env : SyncEnv) (features : List ProviderFeature)
    (mt : MediaType) (catalog : List (ProvItem × ItemFault)) (rf : Nat → Bool)
    (st : SyncState) (st2 : SyncState) (log2 : List StoreOp)
    (hsync : sync_library env features mt catalog rf st = Except.ok (st2, log2)) :
    (∀ d ms, StoreOp.setMappings d ms ∈ log2 →
      ∃ ms0, ms = flipProviderMappings env.instance_id ms0) ∧
    (∀ ms0, List.Forall₂ (fun a b =>
        (a.provider_instance ≠ env.instance_id → b = a) ∧
        (a.provider_instance = env.instance_id → b = { a with in_library := false }))
      ms0 (flipProviderMappings env.instance_id ms0)) := by
  constructor
  · intro d ms hmem
    unfold sync_library at hsync
    split at hsync
    · cases hsync
    · cases hrec : runReconciler mt env catalog
          { store := st.main, sub := st.sub, seen := [], log := [] } with
      | error e => rw [hrec] at hsync; cases hsync
      | ok r =>
        rw [hrec] at hsync
        injection hsync with h1
        have hlog2 : log2 = (orphanPhase env.instance_id mt rf st.cache r.seen
            r.store r.log).2 := (congrArg Prod.snd h1).symm
        rw [hlog2] at hmem
        have hrlog : ∀ d2 ms2, StoreOp.setMappings d2 ms2 ∈ r.log → False := by
          intro d2 ms2 hin
          cases mt <;> simp only [runReconciler] at hrec <;>
            first
            | cases hrec
            | exact absurd (runSteps_log_setMappings _ _ _ hrec d2 ms2 hin) (by simp)
        unfold orphanPhase at hmem
        rcases hc : st.cache with _ | p
        · rw [hc] at hmem
          exact absurd hmem (fun hm => hrlog d ms hm)
        · rw [hc] at hmem
          dsimp only at hmem
          split at hmem
          · exact absurd hmem (fun hm => hrlog d ms hm)
          · rcases orphanFold_setMappings p _ d ms hmem with h2 | h2
            · exact absurd h2 (fun hm => hrlog d ms hm)
            · exact h2
  · intro ms0
    induction ms0 with
    | nil => exact List.Forall₂.nil
    | cons a rest ih =>
      unfold flipProviderMappings at ih ⊢
      simp only [List.map_cons]
      refine List.Forall₂.cons ?_ ih
      by_cases h : a.provider_instance = env.instance_id
      · constructor
        · intro hne; exact absurd h hne
        · intro _; simp [h]
      · constructor
        · intro _
          have hb : (a.provider_instance == env.instance_id) = false := by
            simp [h]
          simp [hb]
        · intro heq; exact absurd heq h

/-- A library entity claimed by instances "P" and "Q". -/
def cLibShared : LibItem :=
  { db_id := 1, name := "s1", favorite := false, available := true,
    cache_checksum := none, resume_position_ms := none, fully_played := none,
    provider_mappings := [cMap "s1",
      { item_id := "s1x", provider_domain := "d2", provider_instance := "Q",
        available := true, in_library := true, url := none }] }

/-- Sync state whose previous snapshot contains the shared entity. -/
def cStShared : SyncState :=
  { main := { items := [cLibShared], next_id := 2 },
    sub := { items := [], next_id := 1 }, cache := some [1] }

/-- The shared entity after the pass demotes instance "P". -/
def cLibSharedFlipped : LibItem :=
  { cLibShared with
    provider_mappings := flipProviderMappings "P" cLibShared.provider_mappings }

/-- The sync state left behind by the demoting pass. -/
def cStShared2 : SyncState :=
  { main := { items := [cLibSharedFlipped], next_id := 2 },
    sub := { items := [], next_id := 1 }, cache := some [] }

/-- Witness for C8: an empty catalog pass over a snapshot holding a shared
entity demotes it via set_provider_mappings; the conclusion applies to the
resulting trace. -/
theorem claim8_witness :
    (∀ d ms, StoreOp.setMappings d ms ∈
        [StoreOp.setMappings 1 (flipProviderMappings "P" cLibShared.provider_mappings)] →
      ∃ ms0, ms = flipProviderMappings cEnv.instance_id ms0) ∧
    (∀ ms0, List.Forall₂ (fun a b =>
        (a.provider_instance ≠ cEnv.instance_id → b = a) ∧
        (a.provider_instance = cEnv.instance_id → b = { a with in_library := false }))
      ms0 (flipProviderMappings cEnv.instance_id ms0)) :=
  claim8_mapping_frame cEnv [ProviderFeature.libraryTracks] MediaType.track []
    (fun _ => false) cStShared cStShared2
    [StoreOp.setMappings 1 (flipProviderMappings "P" cLibShared.provider_mappings)]
    (by rfl)

/-! ### Claim C1: still-claimed entities are demoted, never deleted -/

theorem orphanStep_c1_step (inst : String) (mt : MediaType) (rf : Nat → Bool)
    (seen : List Nat) (d : Nat) (item : LibItem)
    (hseen : seen.contains d = false)
    (hclaim : item.provider_mappings.any
      (fun m => m.provider_instance != inst && m.in_library) = true)
    (acc : LibraryState × List StoreOp) (d1 : Nat) :
    (get_library_item acc.1 d = some item →
      get_library_item (orphanStep inst mt rf seen acc d1).1 d = some item ∨
      (get_library_item (orphanStep inst mt rf seen acc d1).1 d
          = some { item with provider_mappings := flipProviderMappings inst item.provider_mappings } ∧
        StoreOp.setMappings d (flipProviderMappings inst item.provider_mappings)
          ∈ (orphanStep inst mt rf seen acc d1).2)) ∧
    ((get_library_item acc.1 d
          = some { item with provider_mappings := flipProviderMappings inst item.provider_mappings } ∧
        StoreOp.setMappings d (flipProviderMappings inst item.provider_mappings) ∈ acc.2) →
      (get_library_item (orphanStep inst mt rf seen acc d1).1 d
          = some { item with provider_mappings := flipProviderMappings inst item.provider_mappings } ∧
        StoreOp.setMappings d (flipProviderMappings inst item.provider_mappings)
          ∈ (orphanStep inst mt rf seen acc d1).2)) ∧
    (d1 = d → get_library_item acc.1 d = some item →
      (get_library_item (orphanStep inst mt rf seen acc d1).1 d
          = some { item with provider_mappings := flipProviderMappings inst item.provider_mappings } ∧
        StoreOp.setMappings d (flipProviderMappings inst item.provider_mappings)
          ∈ (orphanStep inst mt rf seen acc d1).2)) := by
  by_cases hd : d1 = d
  · subst hd
    have hflip : ∀ (cur : LibItem), get_library_item acc.1 d1 = some cur →
        cur.provider_mappings.any
          (fun m => m.provider_instance != inst && m.in_library) = true →
        orphanStep inst mt rf seen acc d1 =
          (set_provider_mappings acc.1 d1 (flipProviderMappings inst cur.provider_mappings),
           acc.2 ++ [StoreOp.setMappings d1 (flipProviderMappings inst cur.provider_mappings)]) := by
      intro cur hg hany
      unfold orphanStep
      rw [if_neg (by rw [hseen]; simp), hg]
      dsimp only
      rw [if_pos hany]
    refine ⟨?_, ?_, ?_⟩
    · intro hg
      rw [hflip item hg hclaim]
      right
      refine ⟨get_set_provider_mappings_self _ hg, ?_⟩
      exact List.mem_append_right _ (List.mem_singleton.mpr rfl)
    · rintro ⟨hg, hmemb⟩
      have hany2 : ({ item with
          provider_mappings := flipProviderMappings inst item.provider_mappings } : LibItem).provider_mappings.any
            (fun m => m.provider_instance != inst && m.in_library) = true := by
        show (flipProviderMappings inst item.provider_mappings).any _ = true
        rw [flip_any_other]
        exact hclaim
      rw [hflip _ hg hany2]
      dsimp only
      constructor
      · have hsel := get_set_provider_mappings_self
          (flipProviderMappings inst (flipProviderMappings inst item.provider_mappings)) hg
        rw [hsel]
        simp [flip_idem]
      · exact List.mem_append_left _ hmemb
    · intro _ hg
      rw [hflip item hg hclaim]
      refine ⟨get_set_provider_mappings_self _ hg, ?_⟩
      exact List.mem_append_right _ (List.mem_singleton.mpr rfl)
  · have hne : d ≠ d1 := fun h => hd h.symm
    refine ⟨?_, ?_, ?_⟩
    · intro hg
      left
      rw [orphanStep_get_other hne]
      exact hg
    · rintro ⟨hg, hmemb⟩
      rw [orphanStep_get_other hne]
      exact ⟨hg, orphanStep_log_mono hmemb⟩
    · intro h; exact absurd h hd

theorem orphanFold_c1 (inst : String) (mt : MediaType) (rf : Nat → Bool)
    (seen : List Nat) (d : Nat) (item : LibItem)
    (hseen : seen.contains d = false)
    (hclaim : item.provider_mappings.any
      (fun m => m.provider_instance != inst && m.in_library) = true) :
    ∀ (p : List Nat) (acc : LibraryState × List StoreOp),
    (get_library_item acc.1 d = some item ∨
      (get_library_item acc.1 d
          = some { item with provider_mappings := flipProviderMappings inst item.provider_mappings } ∧
        StoreOp.setMappings d (flipProviderMappings inst item.provider_mappings) ∈ acc.2)) →
    ((get_library_item (p.foldl (orphanStep inst mt rf seen) acc).1 d = some item ∨
      (get_library_item (p.foldl (orphanStep inst mt rf seen) acc).1 d
          = some { item with provider_mappings := flipProviderMappings inst item.provider_mappings } ∧
        StoreOp.setMappings d (flipProviderMappings inst item.provider_mappings)
          ∈ (p.foldl (orphanStep inst mt rf seen) acc).2)) ∧
     (((get_library_item acc.1 d
          = some { item with provider_mappings := flipProviderMappings inst item.provider_mappings } ∧
        StoreOp.setMappings d (flipProviderMappings inst item.provider_mappings) ∈ acc.2) ∨ d ∈ p) →
      (get_library_item (p.foldl (orphanStep inst mt rf seen) acc).1 d
          = some { item with provider_mappings := flipProviderMappings inst item.provider_mappings } ∧
        StoreOp.setMappings d (flipProviderMappings inst item.provider_mappings)
          ∈ (p.foldl (orphanStep inst mt rf seen) acc).2))) := by
  intro p
  induction p with
  | nil =>
    intro acc hI
    refine ⟨hI, ?_⟩
    rintro (hR | hmem)
    · exact hR
    · cases hmem
  | cons x xs ih =>
    intro acc hI
    rw [List.foldl_cons]
    have hstep := orphanStep_c1_step inst mt rf seen d item hseen hclaim acc x
    have hInext : get_library_item (orphanStep inst mt rf seen acc x).1 d = some item ∨
        (get_library_item (orphanStep inst mt rf seen acc x).1 d
            = some { item with provider_mappings := flipProviderMappings inst item.provider_mappings } ∧
          StoreOp.setMappings d (flipProviderMappings inst item.provider_mappings)
            ∈ (orphanStep inst mt rf seen acc x).2) := by
      rcases hI with hg | hR
      · exact hstep.1 hg
      · exact Or.inr (hstep.2.1 hR)
    have hrec := ih (orphanStep inst mt rf seen acc x) hInext
    refine ⟨hrec.1, ?_⟩
    rintro (hR | hmem)
    · exact hrec.2 (Or.inl (hstep.2.1 hR))
    · rcases List.mem_cons.mp hmem with hx | hxs
      · rcases hI with hg | hR
        · exact hrec.2 (Or.inl (hstep.2.2 hx.symm hg))
        · exact hrec.2 (Or.inl (hstep.2.1 hR))
      · exact hrec.2 (Or.inr hxs)

/-- C1: after a sync pass, a previously-seen id absent from the current seen
set whose entity still carries an in_library mapping of another provider
instance is not removed: the entity survives with exactly this instance's
mappings flipped to in_library = false, and the flipped mapping list is
persisted via set_provider_mappings. -/
theorem claim1_orphan_demotion (inst : String) (mt : MediaType) (rf : Nat → Bool)
    (p : List Nat) (seen : List Nat) (st : LibraryState) (log : List StoreOp)
    (d : Nat) (item : LibItem)
    (hmem : d ∈ p) (hseen : seen.contains d = false)
    (hget : get_library_item st d = some item)
    (hclaim : item.provider_mappings.any
      (fun m => m.provider_instance != inst && m.in_library) = true) :
    get_library_item (orphanPhase inst mt rf (some p) seen st log).1 d
      = some { item with provider_mappings := flipProviderMappings inst item.provider_mappings } ∧
    StoreOp.setMappings d (flipProviderMappings inst item.provider_mappings)
      ∈ (orphanPhase inst mt rf (some p) seen st log).2 := by
  unfold orphanPhase
  dsimp only
  have hpe : p.isEmpty = false := by
    cases p
    · cases hmem
    · rfl
  rw [if_neg (by rw [hpe]; simp)]
  exact (orphanFold_c1 inst mt rf seen d item hseen hclaim p (st, log)
    (Or.inl hget)).2 (Or.inr hmem)

/-- Witness for C1 on the shared two-provider entity. -/
theorem claim1_witness :
    get_library_item (orphanPhase "P" MediaType.track (fun _ => false) (some [1]) []
        { items := [cLibShared], next_id := 2 } []).1 1
      = some { cLibShared with
          provider_mappings := flipProviderMappings "P" cLibShared.provider_mappings } ∧
    StoreOp.setMappings 1 (flipProviderMappings "P" cLibShared.provider_mappings)
      ∈ (orphanPhase "P" MediaType.track (fun _ => false) (some [1]) []
        { items := [cLibShared], next_id := 2 } []).2 :=
  claim1_orphan_demotion "P" MediaType.track (fun _ => false) [1] []
    { items := [cLibShared], next_id := 2 } [] 1 cLibShared
    (by decide) (by decide) (by decide) (by decide)

/-! ### Claim C7: removal-failure fallback -/

/-- The entity left behind by the orphan collector's removal-failure
fallback: un-favorited, with this instance's mappings demoted. -/
def demotedItem (inst : String) (item : LibItem) : LibItem :=
  { item with
    favorite := false
    provider_mappings := flipProviderMappings inst item.provider_mappings }

theorem demoted_of_unfav {inst : String} {item : LibItem} (h : item.favorite = false) :
    ({ item with provider_mappings := flipProviderMappings inst item.provider_mappings } : LibItem)
      = demotedItem inst item := by
  cases item
  simp_all [demotedItem]

theorem demoted_of_fav (inst : String) (item : LibItem) :
    ({ ({ item with favorite := false } : LibItem) with
        provider_mappings := flipProviderMappings inst item.provider_mappings } : LibItem)
      = demotedItem inst item := by
  cases item
  rfl

theorem demoted_flip_idem (inst : String) (item : LibItem) :
    ({ demotedItem inst item with
        provider_mappings := flipProviderMappings inst
          (demotedItem inst item).provider_mappings } : LibItem)
      = demotedItem inst item := by
  cases item
  simp [demotedItem, flip_idem]

theorem orphanStep_c7_step (inst : String) (mt : MediaType) (rf : Nat → Bool)
    (seen : List Nat) (d : Nat) (item : LibItem)
    (hseen : seen.contains d = false)
    (hno : item.provider_mappings.any
      (fun m => m.provider_instance != inst && m.in_library) = false)
    (hrf : rf d = true)
    (acc : LibraryState × List StoreOp) (d1 : Nat) :
    (get_library_item acc.1 d = some item →
      get_library_item (orphanStep inst mt rf seen acc d1).1 d = some item ∨
      (get_library_item (orphanStep inst mt rf seen acc d1).1 d = some (demotedItem inst item) ∧
        StoreOp.removeFailed d (mt == MediaType.album) ∈ (orphanStep inst mt rf seen acc d1).2 ∧
        StoreOp.setMappings d (flipProviderMappings inst item.provider_mappings)
          ∈ (orphanStep inst mt rf seen acc d1).2 ∧
        (item.favorite = true →
          StoreOp.setFavorite d false ∈ (orphanStep inst mt rf seen acc d1).2))) ∧
    ((get_library_item acc.1 d = some (demotedItem inst item) ∧
        StoreOp.removeFailed d (mt == MediaType.album) ∈ acc.2 ∧
        StoreOp.setMappings d (flipProviderMappings inst item.provider_mappings) ∈ acc.2 ∧
        (item.favorite = true → StoreOp.setFavorite d false ∈ acc.2)) →
      (get_library_item (orphanStep inst mt rf seen acc d1).1 d = some (demotedItem inst item) ∧
        StoreOp.removeFailed d (mt == MediaType.album) ∈ (orphanStep inst mt rf seen acc d1).2 ∧
        StoreOp.setMappings d (flipProviderMappings inst item.provider_mappings)
          ∈ (orphanStep inst mt rf seen acc d1).2 ∧
        (item.favorite = true →
          StoreOp.setFavorite d false ∈ (orphanStep inst mt rf seen acc d1).2))) ∧
    (d1 = d → get_library_item acc.1 d = some item →
      (get_library_item (orphanStep inst mt rf seen acc d1).1 d = some (demotedItem inst item) ∧
        StoreOp.removeFailed d (mt == MediaType.album) ∈ (orphanStep inst mt rf seen acc d1).2 ∧
        StoreOp.setMappings d (flipProviderMappings inst item.provider_mappings)
          ∈ (orphanStep inst mt rf seen acc d1).2 ∧
        (item.favorite = true →
          StoreOp.setFavorite d false ∈ (orphanStep inst mt rf seen acc d1).2))) := by
  by_cases hd : d1 = d
  · subst hd
    have hfall : ∀ (cur : LibItem), get_library_item acc.1 d1 = some cur →
        cur.provider_mappings.any
          (fun m => m.provider_instance != inst && m.in_library) = false →
        orphanStep inst mt rf seen acc d1 =
          (set_provider_mappings
             (if cur.favorite then set_favorite acc.1 d1 false else acc.1) d1
             (flipProviderMappings inst cur.provider_mappings),
           (acc.2 ++ [StoreOp.removeFailed d1 (mt == MediaType.album)]
              ++ (if cur.favorite then [StoreOp.setFavorite d1 false] else []))
             ++ [StoreOp.setMappings d1 (flipProviderMappings inst cur.provider_mappings)]) := by
      intro cur hg hany
      unfold orphanStep
      rw [if_neg (by rw [hseen]; simp), hg]
      dsimp only
      rw [if_neg (by rw [hany]; simp), if_pos hrf]
    have hmain : get_library_item acc.1 d1 = some item →
        (get_library_item (orphanStep inst mt rf seen acc d1).1 d1
            = some (demotedItem inst item) ∧
          StoreOp.removeFailed d1 (mt == MediaType.album) ∈ (orphanStep inst mt rf seen acc d1).2 ∧
          StoreOp.setMappings d1 (flipProviderMappings inst item.provider_mappings)
            ∈ (orphanStep inst mt rf seen acc d1).2 ∧
          (item.favorite = true →
            StoreOp.setFavorite d1 false ∈ (orphanStep inst mt rf seen acc d1).2)) := by
      intro hg
      rw [hfall item hg hno]
      dsimp only
      refine ⟨?_, ?_, ?_, ?_⟩
      · by_cases hfv : item.favorite = true
        · rw [if_pos hfv]
          have h1 := get_set_favorite_self false hg
          have h2 := get_set_provider_mappings_self
            (flipProviderMappings inst item.provider_mappings) h1
          rw [h2, demoted_of_fav]
        · rw [if_neg hfv]
          have h2 := get_set_provider_mappings_self
            (flipProviderMappings inst item.provider_mappings) hg
          rw [h2, demoted_of_unfav (Bool.not_eq_true item.favorite ▸ hfv)]
      · refine List.mem_append_left _ (List.mem_append_left _ ?_)
        exact List.mem_append_right _ (List.mem_singleton.mpr rfl)
      · exact List.mem_append_right _ (List.mem_singleton.mpr rfl)
      · intro hfv
        refine List.mem_append_left _ (List.mem_append_right _ ?_)
        rw [if_pos hfv]
        exact List.mem_singleton.mpr rfl
    refine ⟨?_, ?_, fun _ => hmain⟩
    · intro hg
      exact Or.inr (hmain hg)
    · rintro ⟨hg, hm1, hm2, hm3⟩
      have hany2 : (demotedItem inst item).provider_mappings.any
          (fun m => m.provider_instance != inst && m.in_library) = false := by
        show (flipProviderMappings inst item.provider_mappings).any _ = false
        rw [flip_any_other]
        exact hno
      rw [hfall _ hg hany2]
      dsimp only
      have hfvd : (demotedItem inst item).favorite = false := rfl
      rw [hfvd]
      refine ⟨?_, ?_, ?_, ?_⟩
      · simp only [Bool.false_eq_true, if_false]
        have h2 := get_set_provider_mappings_self
          (flipProviderMappings inst (demotedItem inst item).provider_mappings) hg
        rw [h2, demoted_flip_idem]
      · simp only [Bool.false_eq_true, if_false, List.append_nil]
        exact List.mem_append_left _ (List.mem_append_left _ hm1)
      · simp only [Bool.false_eq_true, if_false, List.append_nil]
        exact List.mem_append_left _ (List.mem_append_left _ hm2)
      · intro hfv
        simp only [Bool.false_eq_true, if_false, List.append_nil]
        exact List.mem_append_left _ (List.mem_append_left _ (hm3 hfv))
  · have hne : d ≠ d1 := fun h => hd h.symm
    refine ⟨?_, ?_, ?_⟩
    · intro hg
      left
      rw [orphanStep_get_other hne]
      exact hg
    · rintro ⟨hg, hm1, hm2, hm3⟩
      rw [orphanStep_get_other hne]
      exact ⟨hg, orphanStep_log_mono hm1, orphanStep_log_mono hm2,
        fun hfv => orphanStep_log_mono (hm3 hfv)⟩
    · intro h; exact absurd h hd

theorem orphanFold_c7 (inst : String) (mt : MediaType) (rf : Nat → Bool)
    (seen : List Nat) (d : Nat) (item : LibItem)
    (hseen : seen.contains d = false)
    (hno : item.provider_mappings.any
      (fun m => m.provider_instance != inst && m.in_library) = false)
    (hrf : rf d = true) :
    ∀ (p : List Nat) (acc : LibraryState × List StoreOp),
    (get_library_item acc.1 d = some item ∨
      (get_library_item acc.1 d = some (demotedItem inst item) ∧
        StoreOp.removeFailed d (mt == MediaType.album) ∈ acc.2 ∧
        StoreOp.setMappings d (flipProviderMappings inst item.provider_mappings) ∈ acc.2 ∧
        (item.favorite = true → StoreOp.setFavorite d false ∈ acc.2))) →
    (d ∈ p ∨
      (get_library_item acc.1 d = some (demotedItem inst item) ∧
        StoreOp.removeFailed d (mt == MediaType.album) ∈ acc.2 ∧
        StoreOp.setMappings d (flipProviderMappings inst item.provider_mappings) ∈ acc.2 ∧
        (item.favorite = true → StoreOp.setFavorite d false ∈ acc.2))) →
    (get_library_item (p.foldl (orphanStep inst mt rf seen) acc).1 d
        = some (demotedItem inst item) ∧
      StoreOp.removeFailed d (mt == MediaType.album)
        ∈ (p.foldl (orphanStep inst mt rf seen) acc).2 ∧
      StoreOp.setMappings d (flipProviderMappings inst item.provider_mappings)
        ∈ (p.foldl (orphanStep inst mt rf seen) acc).2 ∧
      (item.favorite = true →
        StoreOp.setFavorite d false ∈ (p.foldl (orphanStep inst mt rf seen) acc).2)) := by
  intro p
  induction p with
  | nil =>
    intro acc hI hR
    rcases hR with hR | hR
    · cases hR
    · exact hR
  | cons x xs ih =>
    intro acc hI hR
    rw [List.foldl_cons]
    have hstep := orphanStep_c7_step inst mt rf seen d item hseen hno hrf acc x
    have hInext : get_library_item (orphanStep inst mt rf seen acc x).1 d = some item ∨
        (get_library_item (orphanStep inst mt rf seen acc x).1 d = some (demotedItem inst item) ∧
          StoreOp.removeFailed d (mt == MediaType.album) ∈ (orphanStep inst mt rf seen acc x).2 ∧
          StoreOp.setMappings d (flipProviderMappings inst item.provider_mappings)
            ∈ (orphanStep inst mt rf seen acc x).2 ∧
          (item.favorite = true →
            StoreOp.setFavorite d false ∈ (orphanStep inst mt rf seen acc x).2)) := by
      rcases hI with hg | hRacc
      · exact hstep.1 hg
      · exact Or.inr (hstep.2.1 hRacc)
    apply ih (orphanStep inst mt rf seen acc x) hInext
    rcases hR with hmem | hRacc
    · rcases List.mem_cons.mp hmem with hx | hxs
      · rcases hI with hg | hRacc
        · exact Or.inr (hstep.2.2 hx.symm hg)
        · exact Or.inr (hstep.2.1 hRacc)
      · exact Or.inl hxs
    · exact Or.inr (hstep.2.1 hRacc)

/-- C7: when removal of a no-longer-claimed entity fails with a store error,
the pass does not abort and the collector falls back to un-favoriting the
entity (when it was a favorite), flipping this instance's mappings to
in_library = false, and persisting them; the removal attempt carries
recursive = true exactly when the media type is ALBUM. -/
theorem claim7_removal_fallback (inst : String) (mt : MediaType) (rf : Nat → Bool)
    (p : List Nat) (seen : List Nat) (st : LibraryState) (log : List StoreOp)
    (d : Nat) (item : LibItem)
    (hmem : d ∈ p) (hseen : seen.contains d = false)
    (hget : get_library_item st d = some item)
    (hno : item.provider_mappings.any
      (fun m => m.provider_instance != inst && m.in_library) = false)
    (hrf : rf d = true) :
    get_library_item (orphanPhase inst mt rf (some p) seen st log).1 d
      = some (demotedItem inst item) ∧
    StoreOp.removeFailed d (mt == MediaType.album)
      ∈ (orphanPhase inst mt rf (some p) seen st log).2 ∧
    StoreOp.setMappings d (flipProviderMappings inst item.provider_mappings)
      ∈ (orphanPhase inst mt rf (some p) seen st log).2 ∧
    (item.favorite = true →
      StoreOp.setFavorite d false ∈ (orphanPhase inst mt rf (some p) seen st log).2) := by
  unfold orphanPhase
  dsimp only
  have hpe : p.isEmpty = false := by
    cases p
    · cases hmem
    · rfl
  rw [if_neg (by rw [hpe]; simp)]
  exact orphanFold_c7 inst mt rf seen d item hseen hno hrf p (st, log)
    (Or.inl hget) (Or.inl hmem)

/-- A favorite entity claimed only by instance "P". -/
def cLibSolo : LibItem :=
  { db_id := 1, name := "x1", favorite := true, available := true,
    cache_checksum := none, resume_position_ms := none, fully_played := none,
    provider_mappings := [cMap "x1"] }

/-- Witness for C7 on a favorite single-owner album entity whose removal
fails. -/
theorem claim7_witness :
    get_library_item (orphanPhase "P" MediaType.album (fun _ => true) (some [1]) []
        { items := [cLibSolo], next_id := 2 } []).1 1
      = some (demotedItem "P" cLibSolo) ∧
    StoreOp.removeFailed 1 (MediaType.album == MediaType.album)
      ∈ (orphanPhase "P" MediaType.album (fun _ => true) (some [1]) []
        { items := [cLibSolo], next_id := 2 } []).2 ∧
    StoreOp.setMappings 1 (flipProviderMappings "P" cLibSolo.provider_mappings)
      ∈ (orphanPhase "P" MediaType.album (fun _ => true) (some [1]) []
        { items := [cLibSolo], next_id := 2 } []).2 ∧
    (cLibSolo.favorite = true →
      StoreOp.setFavorite 1 false ∈ (orphanPhase "P" MediaType.album (fun _ => true)
        (some [1]) [] { items := [cLibSolo], next_id := 2 } []).2) :=
  claim7_removal_fallback "P" MediaType.album (fun _ => true) [1] []
    { items := [cLibSolo], next_id := 2 } [] 1 cLibSolo
    (by decide) (by decide) (by decide) (by decide) (by decide)

/-! ### Claim C2: idempotence of a sync pass — predicates -/

/-- A well-behaved catalog entry for the idempotence property: fault-free
and well-formed (the spec section 9 invariant: exactly one self-mapping,
carrying the item's own id, this instance, and in_library = true). -/
def goodEntry (env : SyncEnv) (e : ProvItem × ItemFault) : Bool :=
  (e.2 == ItemFault.ok) && wellFormedItem env.instance_id e.1

/-- Number of mappings of the given instance on an entity. -/
def instMappingCount (inst : String) (e : LibItem) : Nat :=
  (e.provider_mappings.filter (fun m => m.provider_instance == inst)).length

/-- Store sanity: distinct entity ids, ids bounded by the fresh-id counter,
and at most one mapping of the syncing instance per entity (one catalog
identity per provider connection). -/
def StoreInv (inst : String) (st : LibraryState) : Prop :=
  (st.items.map (fun e => e.db_id)).Nodup ∧
  (∀ e ∈ st.items, e.db_id < st.next_id) ∧
  (∀ e ∈ st.items, instMappingCount inst e ≤ 1)

/-- The type-specific change condition of the reconciler's elif chain. -/
def typeCond (mt : MediaType) (lib : LibItem) (prov : ProvItem) : Bool :=
  match mt with
  | MediaType.track => lib.available != prov.available
  | MediaType.podcast => lib.available != prov.available
  | MediaType.playlist => lib.cache_checksum != prov.cache_checksum
  | _ => false

/-- The audiobook resume-state condition. -/
def resumeCondMT (mt : MediaType) (lib : LibItem) (prov : ProvItem) : Bool :=
  match mt with
  | MediaType.audiobook => resumeDiffers lib prov
  | _ => false

/-- The catalog item is fully reconciled in the store under canonical id d:
its lookup succeeds, no reconciler branch fires, and the mapping check
passes. -/
def SyncedId (inst : String) (mt : MediaType) (st : LibraryState)
    (item : ProvItem) (d : Nat) : Prop :=
  ∃ lib, get_library_item_by_prov_mappings st item.provider_mappings = some lib ∧
    lib.db_id = d ∧ typeCond mt lib item = false ∧ resumeCondMT mt lib item = false ∧
    check_provider_mappings inst lib item true = Except.ok true

/-- Media types dispatched to a reconciler loop by sync_library. -/
def isSyncable (mt : MediaType) : Bool :=
  match mt with
  | MediaType.artist | MediaType.album | MediaType.track | MediaType.playlist
  | MediaType.radios | MediaType.audiobook | MediaType.podcast => true
  | _ => false

/-- The seen-set contribution of one catalog item evaluated against a fixed
store. -/
def seenStep (st : LibraryState) (s : List Nat) (item : ProvItem) : List Nat :=
  match get_library_item_by_prov_mappings st item.provider_mappings with
  | none => s
  | some lib => insertSeen s lib.db_id

/-- The seen set accumulated over a catalog against a fixed store. -/
def seenAll (st : LibraryState) (catalog : List (ProvItem × ItemFault))
    (s : List Nat) : List Nat :=
  catalog.foldl (fun acc e => seenStep st acc e.1) s

/-! ### C2 bridge lemmas -/

theorem wf_fields {inst : String} {item : ProvItem}
    (h : wellFormedItem inst item = true) :
    ∃ m, item.provider_mappings = [m] ∧ m.item_id = item.item_id ∧
      m.provider_instance = inst ∧ m.in_library = true := by
  unfold wellFormedItem at h
  cases hpm : item.provider_mappings with
  | nil => rw [hpm] at h; cases h
  | cons m rest =>
    rw [hpm] at h
    cases rest with
    | cons m2 rest2 => cases h
    | nil =>
      simp only [Bool.and_eq_true, beq_iff_eq] at h
      exact ⟨m, rfl, h.1.1, h.1.2, h.2⟩

theorem markFirst_id {inst : String} {item : ProvItem}
    (h : wellFormedItem inst item = true) :
    markFirstMappingInLibrary item true = item := by
  obtain ⟨m, hm, _, _, hin⟩ := wf_fields h
  have hmm : ({ m with in_library := true } : ProviderMapping) = m := by
    cases m
    simp_all
  unfold markFirstMappingInLibrary
  rw [hm]
  dsimp only
  rw [hmm, ← hm]

theorem entityMatches_single {m : ProviderMapping} {e : LibItem} :
    entityMatches [m] e
      = e.provider_mappings.any (fun lm =>
          lm.provider_instance == m.provider_instance && lm.item_id == m.item_id) := by
  unfold entityMatches mappingKeyMatch
  congr 1
  funext lm
  simp

theorem entityMatches_self {inst : String} {item : ProvItem} {d : Nat}
    (hw : wellFormedItem inst item = true) :
    entityMatches item.provider_mappings (entityOfItem d item) = true := by
  obtain ⟨m, hm, _, _, _⟩ := wf_fields hw
  rw [hm]
  rw [entityMatches_single]
  show (entityOfItem d item).provider_mappings.any _ = true
  have : (entityOfItem d item).provider_mappings = [m] := hm
  rw [this]
  simp

theorem entityMatches_disjoint {inst : String} {a b : ProvItem} {n : Nat}
    (hwa : wellFormedItem inst a = true) (hwb : wellFormedItem inst b = true)
    (hne : a.item_id ≠ b.item_id) :
    entityMatches a.provider_mappings (entityOfItem n b) = false := by
  obtain ⟨ma, hma, hia, hpa, _⟩ := wf_fields hwa
  obtain ⟨mb, hmb, hib, hpb, _⟩ := wf_fields hwb
  rw [hma, entityMatches_single]
  show (entityOfItem n b).provider_mappings.any _ = false
  have hb : (entityOfItem n b).provider_mappings = [mb] := hmb
  rw [hb]
  simp only [List.any_cons, List.any_nil, Bool.or_false]
  have : (mb.item_id == ma.item_id) = false := by
    rw [hib, hia]
    simp [Ne.symm hne]
  simp [this]

theorem nodup_unique_id {st : LibraryState} {a b : LibItem}
    (hnd : (st.items.map (fun e => e.db_id)).Nodup)
    (ha : a ∈ st.items) (hb : b ∈ st.items) (hid : a.db_id = b.db_id) : a = b := by
  exact List.inj_on_of_nodup_map hnd ha hb hid

theorem not_both_match {inst : String} {a b : ProvItem} {lib : LibItem}
    (hwa : wellFormedItem inst a = true) (hwb : wellFormedItem inst b = true)
    (hne : a.item_id ≠ b.item_id)
    (hc : instMappingCount inst lib ≤ 1)
    (h1 : entityMatches a.provider_mappings lib = true)
    (h2 : entityMatches b.provider_mappings lib = true) : False := by
  obtain ⟨ma, hma, hia, hpa, _⟩ := wf_fields hwa
  obtain ⟨mb, hmb, hib, hpb, _⟩ := wf_fields hwb
  rw [hma, entityMatches_single, List.any_eq_true] at h1
  rw [hmb, entityMatches_single, List.any_eq_true] at h2
  obtain ⟨la, hla, hka⟩ := h1
  obtain ⟨lb, hlb, hkb⟩ := h2
  simp only [Bool.and_eq_true, beq_iff_eq] at hka hkb
  have hfa : la ∈ lib.provider_mappings.filter (fun m => m.provider_instance == inst) :=
    List.mem_filter.mpr ⟨hla, by simp [hka.1, hpa]⟩
  have hfb : lb ∈ lib.provider_mappings.filter (fun m => m.provider_instance == inst) :=
    List.mem_filter.mpr ⟨hlb, by simp [hkb.1, hpb]⟩
  have heq : la = lb := length_le_one_mem hc hfa hfb
  apply hne
  rw [← hia, ← hib, ← hka.2, ← hkb.2, heq]

theorem typeCond_entity (mt : MediaType) (d : Nat) (item : ProvItem) :
    typeCond mt (entityOfItem d item) item = false := by
  cases mt <;> simp [typeCond, entityOfItem]

theorem typeCond_update (mt : MediaType) (e : LibItem) (item : ProvItem) :
    typeCond mt (updateEntity e item) item = false := by
  cases mt <;> simp [typeCond, updateEntity]

theorem resumeDiffers_entity (d : Nat) (item : ProvItem) :
    resumeDiffers (entityOfItem d item) item = false := by
  simp [resumeDiffers, entityOfItem]

theorem resumeDiffers_update (e : LibItem) (item : ProvItem) :
    resumeDiffers (updateEntity e item) item = false := by
  simp [resumeDiffers, updateEntity]

theorem resumeCondMT_entity (mt : MediaType) (d : Nat) (item : ProvItem) :
    resumeCondMT mt (entityOfItem d item) item = false := by
  cases mt <;> simp [resumeCondMT, resumeDiffers_entity]

theorem resumeCondMT_update (mt : MediaType) (e : LibItem) (item : ProvItem) :
    resumeCondMT mt (updateEntity e item) item = false := by
  cases mt <;> simp [resumeCondMT, resumeDiffers_update]

theorem check_canonical {inst : String} {lib : LibItem} {item : ProvItem}
    {m : ProviderMapping} (hm : item.provider_mappings = [m])
    (hid : m.item_id = item.item_id) (hpi : m.provider_instance = inst) :
    check_provider_mappings inst lib item true =
      (match lib.provider_mappings.find? (fun x =>
          x.provider_instance == m.provider_instance && x.item_id == m.item_id) with
        | none => Except.ok false
        | some lm =>
          if true != lm.in_library then Except.ok false
          else Except.ok (m.available == lm.available)) := by
  have hck : check_provider_mappings inst lib item true =
      (if m.item_id != item.item_id then Except.error SyncError.consistency
       else if m.provider_instance != inst then Except.error SyncError.consistency
       else
         match lib.provider_mappings.find? (fun x =>
             x.provider_instance == m.provider_instance && x.item_id == m.item_id) with
         | none => Except.ok false
         | some lm =>
           if true != lm.in_library then Except.ok false
           else Except.ok (m.available == lm.available)) := by
    unfold check_provider_mappings
    rw [hm]
  rw [hck, if_neg (by simp [hid]), if_neg (by simp [hpi])]

theorem check_entity_self {inst : String} {d : Nat} {item : ProvItem}
    (hw : wellFormedItem inst item = true) :
    check_provider_mappings inst (entityOfItem d item) item true = Except.ok true := by
  obtain ⟨m, hm, hid, hpi, hin⟩ := wf_fields hw
  rw [check_canonical hm hid hpi]
  have hms : (entityOfItem d item).provider_mappings = [m] := hm
  rw [hms]
  simp [List.find?_cons, hin]

theorem merge_find_self {old : List ProviderMapping}
    {m : ProviderMapping} :
    (mergeMappings old [m]).find? (fun x =>
        x.provider_instance == m.provider_instance && x.item_id == m.item_id) = some m := by
  unfold mergeMappings
  rw [List.find?_append]
  have h1 : (old.filter (fun m0 => !([m].any (fun n => mappingKeyMatch n m0)))).find?
      (fun x => x.provider_instance == m.provider_instance && x.item_id == m.item_id)
        = none := by
    rw [List.find?_eq_none]
    intro x hx
    have hk := (List.mem_filter.mp hx).2
    simp only [List.any_cons, List.any_nil, Bool.or_false, Bool.not_eq_eq_eq_not,
      Bool.not_true] at hk
    unfold mappingKeyMatch at hk
    intro hp
    simp only [Bool.and_eq_true, beq_iff_eq] at hp
    rw [hp.1, hp.2] at hk
    simp at hk
  rw [h1]
  simp [List.find?_cons]

theorem check_update_self {inst : String} {lib : LibItem} {item : ProvItem}
    (hw : wellFormedItem inst item = true) :
    check_provider_mappings inst (updateEntity lib item) item true = Except.ok true := by
  obtain ⟨m, hm, hid, hpi, hin⟩ := wf_fields hw
  rw [check_canonical hm hid hpi]
  have hms : (updateEntity lib item).provider_mappings
      = mergeMappings lib.provider_mappings [m] := by
    show mergeMappings lib.provider_mappings item.provider_mappings = _
    rw [hm]
  rw [hms, merge_find_self]
  simp [hin]

theorem lookup_add_some {st : LibraryState} {item2 : ProvItem}
    {ms : List ProviderMapping} {lib : LibItem}
    (h : get_library_item_by_prov_mappings st ms = some lib) :
    get_library_item_by_prov_mappings (add_item_to_library st item2).1 ms = some lib := by
  unfold get_library_item_by_prov_mappings at h
  unfold get_library_item_by_prov_mappings add_item_to_library
  dsimp only
  rw [List.find?_append, h]
  rfl

theorem lookup_add_new {inst : String} {st : LibraryState} {item : ProvItem}
    (hw : wellFormedItem inst item = true)
    (h : get_library_item_by_prov_mappings st item.provider_mappings = none) :
    get_library_item_by_prov_mappings (add_item_to_library st item).1 item.provider_mappings
      = some (entityOfItem st.next_id item) := by
  unfold get_library_item_by_prov_mappings at h
  unfold get_library_item_by_prov_mappings add_item_to_library
  dsimp only
  rw [List.find?_append, h]
  simp [List.find?_cons, entityMatches_self hw]

theorem lookup_add_none {inst : String} {st : LibraryState} {a b : ProvItem}
    (hwa : wellFormedItem inst a = true) (hwb : wellFormedItem inst b = true)
    (hne : a.item_id ≠ b.item_id)
    (h : get_library_item_by_prov_mappings st a.provider_mappings = none) :
    get_library_item_by_prov_mappings (add_item_to_library st b).1 a.provider_mappings
      = none := by
  unfold get_library_item_by_prov_mappings at h
  unfold get_library_item_by_prov_mappings add_item_to_library
  dsimp only
  rw [List.find?_append, h]
  simp [List.find?_cons, entityMatches_disjoint hwa hwb hne]

theorem lookup_mem {st : LibraryState} {ms : List ProviderMapping} {lib : LibItem}
    (h : get_library_item_by_prov_mappings st ms = some lib) : lib ∈ st.items :=
  List.mem_of_find?_eq_some h

theorem lookup_matches {st : LibraryState} {ms : List ProviderMapping} {lib : LibItem}
    (h : get_library_item_by_prov_mappings st ms = some lib) : entityMatches ms lib = true :=
  List.find?_some h

theorem any_filter_eq {α : Type} {l : List α} {p f : α → Bool}
    (h : ∀ x ∈ l, p x = true → f x = true) :
    (l.filter f).any p = l.any p := by
  induction l with
  | nil => rfl
  | cons x xs ih =>
    have htail : ∀ y ∈ xs, p y = true → f y = true :=
      fun y hy => h y (List.mem_cons_of_mem x hy)
    rw [List.filter_cons]
    by_cases hf : f x = true
    · rw [if_pos hf, List.any_cons, List.any_cons, ih htail]
    · rw [if_neg hf, List.any_cons]
      have hp : p x = false := by
        cases hpx : p x
        · rfl
        · exact absurd (h x (List.mem_cons_self x xs) hpx) hf
      rw [hp, Bool.false_or, ih htail]

theorem updateEntity_matches_iff {inst : String} {a b : ProvItem} {x : LibItem}
    (hwa : wellFormedItem inst a = true) (hwb : wellFormedItem inst b = true)
    (hne : a.item_id ≠ b.item_id) :
    entityMatches a.provider_mappings (updateEntity x b)
      = entityMatches a.provider_mappings x := by
  obtain ⟨ma, hma, hia, hpa, _⟩ := wf_fields hwa
  obtain ⟨mb, hmb, hib, hpb, _⟩ := wf_fields hwb
  rw [hma, entityMatches_single, entityMatches_single]
  have hms : (updateEntity x b).provider_mappings
      = mergeMappings x.provider_mappings [mb] := by
    show mergeMappings x.provider_mappings b.provider_mappings = _
    rw [hmb]
  rw [hms]
  unfold mergeMappings
  rw [List.any_append]
  have hmb_not : (mb.provider_instance == ma.provider_instance
      && mb.item_id == ma.item_id) = false := by
    have h2 : (mb.item_id == ma.item_id) = false := by
      rw [hib, hia]
      simp [Ne.symm hne]
    simp [h2]
  have h3 : ([mb].any (fun lm =>
      lm.provider_instance == ma.provider_instance && lm.item_id == ma.item_id)) = false := by
    simp only [List.any_cons, List.any_nil, Bool.or_false]
    exact hmb_not
  rw [h3, Bool.or_false]
  apply any_filter_eq
  intro lm hlm hp
  simp only [Bool.and_eq_true, beq_iff_eq] at hp
  simp only [List.any_cons, List.any_nil, Bool.or_false, Bool.not_eq_eq_eq_not, Bool.not_true]
  unfold mappingKeyMatch
  have h4 : (mb.item_id == lm.item_id) = false := by
    rw [hib, hp.2, hia]
    simp [Ne.symm hne]
  simp [h4]

theorem lookup_update_self {inst : String} {st : LibraryState} {item : ProvItem}
    {lib : LibItem} (hw : wellFormedItem inst item = true)
    (hnd : (st.items.map (fun e => e.db_id)).Nodup)
    (hl : get_library_item_by_prov_mappings st item.provider_mappings = some lib) :
    get_library_item_by_prov_mappings (update_item_in_library st lib.db_id item)
        item.provider_mappings = some (updateEntity lib item) := by
  have hmem := lookup_mem hl
  have hmatch := lookup_matches hl
  have hp : ∀ x ∈ st.items,
      entityMatches item.provider_mappings
        (if x.db_id == lib.db_id then updateEntity x item else x)
      = entityMatches item.provider_mappings x := by
    intro x hx
    by_cases hd : (x.db_id == lib.db_id) = true
    · rw [if_pos hd]
      have hxl : x = lib := nodup_unique_id hnd hx hmem (by simpa using hd)
      subst hxl
      rw [hmatch]
      obtain ⟨m, hm, _, _, _⟩ := wf_fields hw
      rw [hm, entityMatches_single]
      have hms2 : (updateEntity x item).provider_mappings
          = mergeMappings x.provider_mappings [m] := by
        show mergeMappings _ item.provider_mappings = _
        rw [hm]
      rw [hms2]
      unfold mergeMappings
      rw [List.any_append]
      simp
    · rw [if_neg hd]
  have hfind := find?_map_pred hp
  unfold get_library_item_by_prov_mappings update_item_in_library
  dsimp only
  rw [hfind]
  unfold get_library_item_by_prov_mappings at hl
  rw [hl]
  simp

theorem lookup_update_none {inst : String} {st : LibraryState} {a b : ProvItem}
    {d : Nat} (hwa : wellFormedItem inst a = true) (hwb : wellFormedItem inst b = true)
    (hne : a.item_id ≠ b.item_id)
    (hA : get_library_item_by_prov_mappings st a.provider_mappings = none) :
    get_library_item_by_prov_mappings (update_item_in_library st d b)
        a.provider_mappings = none := by
  have hp : ∀ x ∈ st.items,
      entityMatches a.provider_mappings (if x.db_id == d then updateEntity x b else x)
      = entityMatches a.provider_mappings x := by
    intro x _
    by_cases hd : (x.db_id == d) = true
    · rw [if_pos hd]
      exact updateEntity_matches_iff hwa hwb hne
    · rw [if_neg hd]
  have hfind := find?_map_pred hp
  unfold get_library_item_by_prov_mappings update_item_in_library
  dsimp only
  rw [hfind]
  unfold get_library_item_by_prov_mappings at hA
  rw [hA]
  rfl

theorem lookup_update_frame {inst : String} {st : LibraryState} {a b : ProvItem}
    {libA libB : LibItem}
    (hwa : wellFormedItem inst a = true) (hwb : wellFormedItem inst b = true)
    (hne : a.item_id ≠ b.item_id) (hinv : StoreInv inst st)
    (hA : get_library_item_by_prov_mappings st a.provider_mappings = some libA)
    (hB : get_library_item_by_prov_mappings st b.provider_mappings = some libB) :
    get_library_item_by_prov_mappings (update_item_in_library st libB.db_id b)
        a.provider_mappings = some libA := by
  have hp : ∀ x ∈ st.items,
      entityMatches a.provider_mappings
        (if x.db_id == libB.db_id then updateEntity x b else x)
      = entityMatches a.provider_mappings x := by
    intro x _
    by_cases hd : (x.db_id == libB.db_id) = true
    · rw [if_pos hd]
      exact updateEntity_matches_iff hwa hwb hne
    · rw [if_neg hd]
  have hdiff : (libA.db_id == libB.db_id) = false := by
    cases hdb : libA.db_id == libB.db_id
    · rfl
    · exfalso
      have hAB : libA = libB :=
        nodup_unique_id hinv.1 (lookup_mem hA) (lookup_mem hB) (by simpa using hdb)
      exact not_both_match hwa hwb hne (hinv.2.2 libB (lookup_mem hB))
        (hAB ▸ lookup_matches hA) (lookup_matches hB)
  have hfind := find?_map_pred hp
  unfold get_library_item_by_prov_mappings update_item_in_library
  dsimp only
  rw [hfind]
  unfold get_library_item_by_prov_mappings at hA
  rw [hA]
  show some (if (libA.db_id == libB.db_id) = true then updateEntity libA b else libA)
    = some libA
  rw [if_neg (by rw [hdiff]; simp)]

theorem storeInv_add {inst : String} {st : LibraryState} {item : ProvItem}
    (hw : wellFormedItem inst item = true)
    (hinv : StoreInv inst st) : StoreInv inst (add_item_to_library st item).1 := by
  obtain ⟨hnd, hbound, hcount⟩ := hinv
  refine ⟨?_, ?_, ?_⟩
  · show ((st.items ++ [entityOfItem st.next_id item]).map (fun e => e.db_id)).Nodup
    rw [List.map_append]
    rw [List.nodup_append]
    refine ⟨hnd, List.nodup_singleton _, ?_⟩
    intro x hx hy
    simp only [List.map_cons, List.map_nil, List.mem_singleton] at hy
    obtain ⟨e, he, hex⟩ := List.mem_map.mp hx
    have : e.db_id < st.next_id := hbound e he
    rw [hex] at this
    show False
    have hxn : x = st.next_id := hy
    rw [hxn] at this
    exact Nat.lt_irrefl _ this
  · intro e he
    rcases List.mem_append.mp he with h1 | h1
    · exact Nat.lt_succ_of_lt (hbound e h1)
    · simp only [List.mem_singleton] at h1
      rw [h1]
      exact Nat.lt_succ_self _
  · intro e he
    rcases List.mem_append.mp he with h1 | h1
    · exact hcount e h1
    · simp only [List.mem_singleton] at h1
      rw [h1]
      obtain ⟨m, hm, _, _, _⟩ := wf_fields hw
      show ((entityOfItem st.next_id item).provider_mappings.filter
        (fun m2 => m2.provider_instance == inst)).length ≤ 1
      have h2 : (entityOfItem st.next_id item).provider_mappings = [m] := hm
      rw [h2]
      exact le_trans (List.length_filter_le _ _) (by simp)

theorem storeInv_update {inst : String} {st : LibraryState} {item : ProvItem}
    {lib : LibItem} (hw : wellFormedItem inst item = true)
    (hinv : StoreInv inst st)
    (hl : get_library_item_by_prov_mappings st item.provider_mappings = some lib) :
    StoreInv inst (update_item_in_library st lib.db_id item) := by
  obtain ⟨hnd, hbound, hcount⟩ := hinv
  obtain ⟨m, hm, hid, hpi, hin⟩ := wf_fields hw
  have hgid : ∀ x : LibItem,
      (if (x.db_id == lib.db_id) = true then updateEntity x item else x).db_id = x.db_id := by
    intro x
    split <;> rfl
  refine ⟨?_, ?_, ?_⟩
  · show ((st.items.map fun x =>
      if (x.db_id == lib.db_id) = true then updateEntity x item else x).map
        (fun e => e.db_id)).Nodup
    rw [List.map_map]
    have hcomp : ((fun e : LibItem => e.db_id) ∘ fun x =>
        if (x.db_id == lib.db_id) = true then updateEntity x item else x)
        = (fun e : LibItem => e.db_id) := funext fun x => hgid x
    rw [hcomp]
    exact hnd
  · intro e he
    obtain ⟨x, hx, hxe⟩ := List.mem_map.mp he
    show e.db_id < st.next_id
    rw [← hxe, hgid]
    exact hbound x hx
  · intro e he
    obtain ⟨x, hx, hxe⟩ := List.mem_map.mp he
    rw [← hxe]
    by_cases hd : (x.db_id == lib.db_id) = true
    · have hxl : x = lib := nodup_unique_id hnd hx (lookup_mem hl) (by simpa using hd)
      rw [if_pos hd]
      unfold instMappingCount
      have hms : (updateEntity x item).provider_mappings
          = mergeMappings x.provider_mappings [m] := by
        show mergeMappings _ item.provider_mappings = _
        rw [hm]
      rw [hms]
      unfold mergeMappings
      rw [List.filter_append]
      have hmatch := lookup_matches hl
      rw [hm, entityMatches_single, List.any_eq_true] at hmatch
      obtain ⟨lm0, hlm0, hk0⟩ := hmatch
      simp only [Bool.and_eq_true, beq_iff_eq] at hk0
      have hzero : ((x.provider_mappings.filter
          (fun m0 => !([m].any fun n => mappingKeyMatch n m0))).filter
            (fun m2 => m2.provider_instance == inst)) = [] := by
        rw [List.eq_nil_iff_forall_not_mem]
        intro lm hlm
        have h1 := List.mem_filter.mp hlm
        have h2 := List.mem_filter.mp h1.1
        have hlminst : lm.provider_instance = inst := by simpa using h1.2
        have hf : mappingKeyMatch m lm = false := by
          have := h2.2
          simp only [List.any_cons, List.any_nil, Bool.or_false,
            Bool.not_eq_eq_eq_not, Bool.not_true] at this
          exact this
        unfold mappingKeyMatch at hf
        have hmi : (m.provider_instance == lm.provider_instance) = true := by
          rw [hpi, hlminst]
          simp
        rw [hmi, Bool.true_and] at hf
        have hlmid : lm.item_id ≠ m.item_id := by
          intro hcon
          rw [hcon] at hf
          simp at hf
        have hmemA : lm ∈ x.provider_mappings.filter
            (fun m2 => m2.provider_instance == inst) :=
          List.mem_filter.mpr ⟨h2.1, by simp [hlminst]⟩
        have hmemB : lm0 ∈ lib.provider_mappings.filter
            (fun m2 => m2.provider_instance == inst) :=
          List.mem_filter.mpr ⟨hlm0, by simp [hk0.1, hpi]⟩
        rw [hxl] at hmemA
        have heq : lm = lm0 :=
          length_le_one_mem (hcount lib (lookup_mem hl)) hmemA hmemB
        exact hlmid (by rw [heq, hk0.2])
      rw [hzero]
      simp only [List.nil_append]
      exact le_trans (List.length_filter_le _ _) (by simp)
    · rw [if_neg hd]
      exact hcount x hx

/-- A catalog item's stable outcome: either reconciled under some canonical
id, or (for tracks only) skipped as new-and-unavailable. -/
def SyncedOrSkip (inst : String) (mt : MediaType) (st : LibraryState)
    (item : ProvItem) : Prop :=
  (∃ d, SyncedId inst mt st item d) ∨
    (mt = MediaType.track ∧ item.available = false ∧
      get_library_item_by_prov_mappings st item.provider_mappings = none)

/-- The child tracks actually pulled by the per-item fan-out of this media
type: the album-track fan-out when CONF_ENTRY_LIBRARY_IMPORT_ALBUM_TRACKS is
set, the playlist-track fan-out when the playlist's name or uri is in the
configured allow-list, nothing otherwise. -/
def fanoutTracks (env : SyncEnv) (mt : MediaType) (item : ProvItem) : List ProvItem :=
  match mt with
  | MediaType.album => if env.sync_album_tracks then env.albumTracks item.item_id else []
  | MediaType.playlist =>
    if env.playlist_sync_conf.contains item.name || env.playlist_sync_conf.contains item.uri
    then env.playlistTracks item.item_id else []
  | _ => []

/-- A child track is reconciled in the tracks controller: its lookup succeeds
and the mapping check passes, so a further fan-out visit performs no store
mutation. -/
def SyncedSub (inst : String) (sub : LibraryState) (t : ProvItem) : Prop :=
  ∃ lib, get_library_item_by_prov_mappings sub t.provider_mappings = some lib ∧
    check_provider_mappings inst lib t true = Except.ok true

theorem find?_filter_eq {α : Type} {l : List α} {p f : α → Bool}
    (h : ∀ x ∈ l, p x = true → f x = true) :
    (l.filter f).find? p = l.find? p := by
  induction l with
  | nil => rfl
  | cons x xs ih =>
    have htail : ∀ y ∈ xs, p y = true → f y = true :=
      fun y hy => h y (List.mem_cons_of_mem x hy)
    rw [List.filter_cons]
    by_cases hf : f x = true
    · rw [if_pos hf, List.find?_cons, List.find?_cons, ih htail]
    · rw [if_neg hf]
      have hp : p x = false := by
        cases hpx : p x
        · rfl
        · exact absurd (h x (List.mem_cons_self x xs) hpx) hf
      rw [List.find?_cons, hp]
      exact ih htail

theorem merge_find_other {old : List ProviderMapping} {m q : ProviderMapping}
    (hne : (m.provider_instance == q.provider_instance && m.item_id == q.item_id) = false) :
    (mergeMappings old [m]).find? (fun x =>
        x.provider_instance == q.provider_instance && x.item_id == q.item_id)
      = old.find? (fun x =>
        x.provider_instance == q.provider_instance && x.item_id == q.item_id) := by
  unfold mergeMappings
  rw [List.find?_append]
  have hkeep : ∀ x ∈ old,
      (x.provider_instance == q.provider_instance && x.item_id == q.item_id) = true →
      (!([m].any (fun n => mappingKeyMatch n x))) = true := by
    intro x _ hx
    simp only [Bool.and_eq_true, beq_iff_eq] at hx
    simp only [List.any_cons, List.any_nil, Bool.or_false, Bool.not_eq_eq_eq_not,
      Bool.not_true]
    unfold mappingKeyMatch
    rw [hx.1, hx.2]
    exact hne
  rw [find?_filter_eq hkeep]
  cases hf : old.find? (fun x =>
      x.provider_instance == q.provider_instance && x.item_id == q.item_id) with
  | some a => rfl
  | none =>
    simp only [Option.none_or]
    rw [List.find?_cons, hne]
    rfl

theorem entityMatches_update_self {inst : String} {item : ProvItem} (x : LibItem)
    (hw : wellFormedItem inst item = true) :
    entityMatches item.provider_mappings (updateEntity x item) = true := by
  obtain ⟨m, hm, _, _, _⟩ := wf_fields hw
  rw [hm, entityMatches_single]
  show ((updateEntity x item).provider_mappings).any _ = true
  have hms : (updateEntity x item).provider_mappings
      = mergeMappings x.provider_mappings [m] := by
    show mergeMappings _ item.provider_mappings = _
    rw [hm]
  rw [hms]
  unfold mergeMappings
  rw [List.any_append]
  simp

theorem check_update_other {inst : String} {libx : LibItem} {t u : ProvItem}
    (hwt : wellFormedItem inst t = true) (hwu : wellFormedItem inst u = true)
    (hne : u.item_id ≠ t.item_id) :
    check_provider_mappings inst (updateEntity libx t) u true
      = check_provider_mappings inst libx u true := by
  obtain ⟨mu, hmu, hidu, hpiu, _⟩ := wf_fields hwu
  obtain ⟨mt2, hmt, hidt, hpit, _⟩ := wf_fields hwt
  rw [check_canonical hmu hidu hpiu, check_canonical hmu hidu hpiu]
  have hms : (updateEntity libx t).provider_mappings
      = mergeMappings libx.provider_mappings [mt2] := by
    show mergeMappings _ t.provider_mappings = _
    rw [hmt]
  rw [hms]
  rw [merge_find_other (by
    rw [hidt, hidu]
    simp [Ne.symm hne])]

theorem find?_map_target {α : Type} (p s : α → Bool) (g : α → α) (Q : α → Prop) :
    ∀ (l : List α) (a : α),
    l.find? p = some a → s a = true →
    (∀ x ∈ l, s x = true → p (g x) = true ∧ Q (g x)) →
    (∀ x ∈ l, s x = false → g x = x) →
    ∃ b, (l.map g).find? p = some b ∧ Q b := by
  intro l
  induction l with
  | nil => intro a h; cases h
  | cons x xs ih =>
    intro a hfind hsa hupd hid
    cases hsx : s x with
    | true =>
      obtain ⟨hp, hQ⟩ := hupd x (List.mem_cons_self x xs) hsx
      refine ⟨g x, ?_, hQ⟩
      simp [List.find?_cons, hp]
    | false =>
      have hgx := hid x (List.mem_cons_self x xs) hsx
      cases hpx : p x with
      | true =>
        have hax : x = a := by
          simp [List.find?_cons, hpx] at hfind
          exact hfind
        rw [← hax, hsx] at hsa
        cases hsa
      | false =>
        have hfind2 : xs.find? p = some a := by
          simpa [List.find?_cons, hpx] using hfind
        obtain ⟨b, hb, hQ⟩ := ih a hfind2 hsa
          (fun y hy => hupd y (List.mem_cons_of_mem x hy))
          (fun y hy => hid y (List.mem_cons_of_mem x hy))
        refine ⟨b, ?_, hQ⟩
        simp only [List.map_cons, hgx, List.find?_cons, hpx]
        exact hb

theorem syncedSub_add {inst : String} {sub : LibraryState} {w u : ProvItem}
    (hu : SyncedSub inst sub u) : SyncedSub inst (add_item_to_library sub w).1 u := by
  obtain ⟨libu, hl, hchk⟩ := hu
  exact ⟨libu, lookup_add_some hl, hchk⟩

theorem syncedSub_update_self {inst : String} {sub : LibraryState} {t : ProvItem}
    {lib : LibItem} (hw : wellFormedItem inst t = true)
    (hl : get_library_item_by_prov_mappings sub t.provider_mappings = some lib) :
    SyncedSub inst (update_item_in_library sub lib.db_id t) t := by
  obtain ⟨b, hfind, hQ⟩ := find?_map_target (entityMatches t.provider_mappings)
    (fun x => x.db_id == lib.db_id)
    (fun x => if x.db_id == lib.db_id then updateEntity x t else x)
    (fun b => check_provider_mappings inst b t true = Except.ok true)
    sub.items lib hl (by simp)
    (fun x hx hs => by
      dsimp only at hs ⊢
      rw [if_pos hs]
      exact ⟨entityMatches_update_self x hw, check_update_self hw⟩)
    (fun x hx hs => by
      dsimp only at hs ⊢
      rw [if_neg (by simp [hs])])
  exact ⟨b, hfind, hQ⟩

theorem syncedSub_update_other {inst : String} {sub : LibraryState} {t u : ProvItem}
    {d : Nat} (hwt : wellFormedItem inst t = true) (hwu : wellFormedItem inst u = true)
    (hne : u.item_id ≠ t.item_id)
    (hu : SyncedSub inst sub u) : SyncedSub inst (update_item_in_library sub d t) u := by
  obtain ⟨libu, hl, hchk⟩ := hu
  have hp : ∀ x ∈ sub.items,
      entityMatches u.provider_mappings (if x.db_id == d then updateEntity x t else x)
      = entityMatches u.provider_mappings x := by
    intro x _
    by_cases hd : (x.db_id == d) = true
    · rw [if_pos hd]
      exact updateEntity_matches_iff hwu hwt hne
    · rw [if_neg hd]
  have hfind := find?_map_pred hp
  refine ⟨if libu.db_id == d then updateEntity libu t else libu, ?_, ?_⟩
  · show (sub.items.map _).find? _ = _
    rw [hfind]
    unfold get_library_item_by_prov_mappings at hl
    rw [hl]
    rfl
  · by_cases hd : (libu.db_id == d) = true
    · rw [if_pos hd, check_update_other hwt hwu hne]
      exact hchk
    · rw [if_neg hd]
      exact hchk

theorem syncChildTracks_noop {inst : String} :
    ∀ (tracks : List ProvItem) (sub : LibraryState) (log : List StoreOp),
    (∀ t ∈ tracks, SyncedSub inst sub t) →
    syncChildTracks inst sub tracks log = (sub, log) := by
  intro tracks
  induction tracks with
  | nil => intro sub log _; rfl
  | cons t ts ih =>
    intro sub log hall
    obtain ⟨lib, hl, hchk⟩ := hall t (List.mem_cons_self t ts)
    rw [syncChildTracks_cons, hl]
    dsimp only
    rw [hchk]
    exact ih sub log (fun t2 ht2 => hall t2 (List.mem_cons_of_mem t ht2))

theorem syncChildTracks_establish {inst : String} :
    ∀ (tracks : List ProvItem) (sub : LibraryState) (log : List StoreOp),
    (∀ t ∈ tracks, wellFormedItem inst t = true) →
    (∀ t ∈ tracks, ∀ t2 ∈ tracks, t.item_id = t2.item_id → t = t2) →
    (∀ t ∈ tracks, SyncedSub inst (syncChildTracks inst sub tracks log).1 t) ∧
    (∀ u, wellFormedItem inst u = true →
      (∀ t ∈ tracks, t.item_id = u.item_id → t = u) →
      SyncedSub inst sub u → SyncedSub inst (syncChildTracks inst sub tracks log).1 u) := by
  intro tracks
  induction tracks with
  | nil =>
    intro sub log _ _
    exact ⟨fun t ht => absurd ht (List.not_mem_nil t), fun u _ _ h => h⟩
  | cons t ts ih =>
    intro sub log hwAll hcAll
    have hwt := hwAll t (List.mem_cons_self t ts)
    have hwTail : ∀ t2 ∈ ts, wellFormedItem inst t2 = true :=
      fun t2 ht2 => hwAll t2 (List.mem_cons_of_mem t ht2)
    have hcTail : ∀ t2 ∈ ts, ∀ t3 ∈ ts, t2.item_id = t3.item_id → t2 = t3 :=
      fun t2 ht2 t3 ht3 => hcAll t2 (List.mem_cons_of_mem t ht2) t3 (List.mem_cons_of_mem t ht3)
    -- one step of the fold, then the induction hypothesis from the new table
    cases hl : get_library_item_by_prov_mappings sub t.provider_mappings with
    | none =>
      have hstep : syncChildTracks inst sub (t :: ts) log
          = syncChildTracks inst (add_item_to_library sub t).1 ts
              (log ++ [StoreOp.addItem t (add_item_to_library sub t).2.db_id]) := by
        rw [syncChildTracks_cons, hl]
      have hEst : SyncedSub inst (add_item_to_library sub t).1 t :=
        ⟨entityOfItem sub.next_id t, lookup_add_new hwt hl, check_entity_self hwt⟩
      obtain ⟨ihE, ihP⟩ := ih (add_item_to_library sub t).1
        (log ++ [StoreOp.addItem t (add_item_to_library sub t).2.db_id]) hwTail hcTail
      constructor
      · intro t2 ht2
        rw [hstep]
        rcases List.mem_cons.mp ht2 with heq | htail
        · subst heq
          exact ihP t2 hwt
            (fun t3 ht3 hid => hcAll t3 (List.mem_cons_of_mem t2 ht3) t2
              (List.mem_cons_self t2 ts) hid)
            hEst
        · exact ihE t2 htail
      · intro u hwu hcu hu
        rw [hstep]
        exact ihP u hwu (fun t3 ht3 => hcu t3 (List.mem_cons_of_mem t ht3))
          (syncedSub_add hu)
    | some lib =>
      obtain ⟨b, hchk⟩ := @check_ok_of_wf inst lib t true hwt
      cases b
      case true =>
        have hstep : syncChildTracks inst sub (t :: ts) log
            = syncChildTracks inst sub ts log := by
          rw [syncChildTracks_cons, hl]
          dsimp only
          rw [hchk]
        obtain ⟨ihE, ihP⟩ := ih sub log hwTail hcTail
        constructor
        · intro t2 ht2
          rw [hstep]
          rcases List.mem_cons.mp ht2 with heq | htail
          · subst heq
            exact ihP t2 hwt
              (fun t3 ht3 hid => hcAll t3 (List.mem_cons_of_mem t2 ht3) t2
                (List.mem_cons_self t2 ts) hid)
              ⟨lib, hl, hchk⟩
          · exact ihE t2 htail
        · intro u hwu hcu hu
          rw [hstep]
          exact ihP u hwu (fun t3 ht3 => hcu t3 (List.mem_cons_of_mem t ht3)) hu
      case false =>
        have hstep : syncChildTracks inst sub (t :: ts) log
            = syncChildTracks inst (update_item_in_library sub lib.db_id t) ts
                (log ++ [StoreOp.updateItem lib.db_id (markFirstMappingInLibrary t true)]) := by
          rw [syncChildTracks_cons, hl]
          dsimp only
          rw [hchk]
          dsimp only
          rw [markFirst_id hwt]
        have hEst : SyncedSub inst (update_item_in_library sub lib.db_id t) t :=
          syncedSub_update_self hwt hl
        obtain ⟨ihE, ihP⟩ := ih (update_item_in_library sub lib.db_id t)
          (log ++ [StoreOp.updateItem lib.db_id (markFirstMappingInLibrary t true)])
          hwTail hcTail
        constructor
        · intro t2 ht2
          rw [hstep]
          rcases List.mem_cons.mp ht2 with heq | htail
          · subst heq
            exact ihP t2 hwt
              (fun t3 ht3 hid => hcAll t3 (List.mem_cons_of_mem t2 ht3) t2
                (List.mem_cons_self t2 ts) hid)
              hEst
          · exact ihE t2 htail
        · intro u hwu hcu hu
          rw [hstep]
          refine ihP u hwu (fun t3 ht3 => hcu t3 (List.mem_cons_of_mem t ht3)) ?_
          by_cases hid : u.item_id = t.item_id
          · have : t = u := hcu t (List.mem_cons_self t ts) hid.symm
            subst this
            exact hEst
          · exact syncedSub_update_other hwt hwu hid hu

/-- The contract established by one reconciler step on a good catalog entry:
the sub-table is untouched, the store invariant is preserved, the item ends
up synced or skipped, the seen set grows by exactly the item's id as read
from the new store, and reconciliation facts about other well-formed items
carry over. -/
def EstOut (env : SyncEnv) (mt : MediaType) (r r2 : RecState) (prov : ProvItem) : Prop :=
  StoreInv env.instance_id r2.store ∧
  SyncedOrSkip env.instance_id mt r2.store prov ∧
  r2.seen = seenStep r2.store r.seen prov ∧
  (∀ A d, wellFormedItem env.instance_id A = true → A.item_id ≠ prov.item_id →
    SyncedId env.instance_id mt r.store A d → SyncedId env.instance_id mt r2.store A d) ∧
  (∀ A, wellFormedItem env.instance_id A = true → A.item_id ≠ prov.item_id →
    get_library_item_by_prov_mappings r.store A.provider_mappings = none →
    get_library_item_by_prov_mappings r2.store A.provider_mappings = none) ∧
  (∀ t ∈ fanoutTracks env mt prov, SyncedSub env.instance_id r2.sub t) ∧
  (∀ u, wellFormedItem env.instance_id u = true →
    (∀ t ∈ fanoutTracks env mt prov, t.item_id = u.item_id → t = u) →
    SyncedSub env.instance_id r.sub u → SyncedSub env.instance_id r2.sub u)

theorem estOut_add {env : SyncEnv} {mt : MediaType} {r : RecState} {prov : ProvItem}
    (l2 : List StoreOp) (sub2 : LibraryState)
    (hw : wellFormedItem env.instance_id prov = true)
    (hinv : StoreInv env.instance_id r.store)
    (hnone : get_library_item_by_prov_mappings r.store prov.provider_mappings = none)
    (hfE : ∀ t ∈ fanoutTracks env mt prov, SyncedSub env.instance_id sub2 t)
    (hfP : ∀ u, wellFormedItem env.instance_id u = true →
      (∀ t ∈ fanoutTracks env mt prov, t.item_id = u.item_id → t = u) →
      SyncedSub env.instance_id r.sub u → SyncedSub env.instance_id sub2 u) :
    EstOut env mt r
      { r with store := (add_item_to_library r.store prov).1,
               sub := sub2,
               seen := insertSeen r.seen (add_item_to_library r.store prov).2.db_id,
               log := l2 } prov := by
  refine ⟨storeInv_add hw hinv, ?_, ?_, ?_, ?_, hfE, hfP⟩
  · exact Or.inl ⟨r.store.next_id,
      entityOfItem r.store.next_id prov, lookup_add_new hw hnone, rfl,
      typeCond_entity mt r.store.next_id prov, resumeCondMT_entity mt r.store.next_id prov,
      check_entity_self hw⟩
  · show insertSeen r.seen (add_item_to_library r.store prov).2.db_id = _
    unfold seenStep
    rw [lookup_add_new hw hnone]
    rfl
  · intro A d hwA hne hS
    obtain ⟨libA, hlA, hdA, htcA, hrcA, hchkA⟩ := hS
    exact ⟨libA, lookup_add_some hlA, hdA, htcA, hrcA, hchkA⟩
  · intro A hwA hne hnA
    exact lookup_add_none hwA hw hne hnA

theorem estOut_update {env : SyncEnv} {mt : MediaType} {r : RecState} {prov : ProvItem}
    {lib : LibItem} (l2 : List StoreOp) (sub2 : LibraryState)
    (hw : wellFormedItem env.instance_id prov = true)
    (hinv : StoreInv env.instance_id r.store)
    (hl : get_library_item_by_prov_mappings r.store prov.provider_mappings = some lib)
    (hfE : ∀ t ∈ fanoutTracks env mt prov, SyncedSub env.instance_id sub2 t)
    (hfP : ∀ u, wellFormedItem env.instance_id u = true →
      (∀ t ∈ fanoutTracks env mt prov, t.item_id = u.item_id → t = u) →
      SyncedSub env.instance_id r.sub u → SyncedSub env.instance_id sub2 u) :
    EstOut env mt r
      { r with store := update_item_in_library r.store lib.db_id prov,
               sub := sub2,
               seen := insertSeen r.seen lib.db_id,
               log := l2 } prov := by
  refine ⟨storeInv_update hw hinv hl, ?_, ?_, ?_, ?_, hfE, hfP⟩
  · exact Or.inl ⟨lib.db_id, updateEntity lib prov, lookup_update_self hw hinv.1 hl, rfl,
      typeCond_update mt lib prov, resumeCondMT_update mt lib prov, check_update_self hw⟩
  · show insertSeen r.seen lib.db_id = _
    unfold seenStep
    rw [lookup_update_self hw hinv.1 hl]
    rfl
  · intro A d hwA hne hS
    obtain ⟨libA, hlA, hdA, htcA, hrcA, hchkA⟩ := hS
    exact ⟨libA, lookup_update_frame hwA hw hne hinv hlA hl, hdA, htcA, hrcA, hchkA⟩
  · intro A hwA hne hnA
    exact lookup_update_none hwA hw hne hnA

theorem estOut_noop {env : SyncEnv} {mt : MediaType} {r : RecState} {prov : ProvItem}
    {lib : LibItem} (l2 : List StoreOp) (sub2 : LibraryState)
    (hinv : StoreInv env.instance_id r.store)
    (hl : get_library_item_by_prov_mappings r.store prov.provider_mappings = some lib)
    (htc : typeCond mt lib prov = false) (hrc : resumeCondMT mt lib prov = false)
    (hchk : check_provider_mappings env.instance_id lib prov true = Except.ok true)
    (hfE : ∀ t ∈ fanoutTracks env mt prov, SyncedSub env.instance_id sub2 t)
    (hfP : ∀ u, wellFormedItem env.instance_id u = true →
      (∀ t ∈ fanoutTracks env mt prov, t.item_id = u.item_id → t = u) →
      SyncedSub env.instance_id r.sub u → SyncedSub env.instance_id sub2 u) :
    EstOut env mt r
      { r with sub := sub2, seen := insertSeen r.seen lib.db_id, log := l2 } prov := by
  refine ⟨hinv, Or.inl ⟨lib.db_id, lib, hl, rfl, htc, hrc, hchk⟩, ?_,
    fun A d _ _ h => h, fun A _ _ h => h, hfE, hfP⟩
  show insertSeen r.seen lib.db_id = _
  unfold seenStep
  rw [hl]

theorem estOut_skip {env : SyncEnv} {r : RecState} {prov : ProvItem}
    (hinv : StoreInv env.instance_id r.store)
    (hav : prov.available = false)
    (hnone : get_library_item_by_prov_mappings r.store prov.provider_mappings = none) :
    EstOut env MediaType.track r r prov := by
  refine ⟨hinv, Or.inr ⟨rfl, hav, hnone⟩, ?_, fun A d _ _ h => h, fun A _ _ h => h,
    fun t ht => absurd ht (List.not_mem_nil t), fun u _ _ h => h⟩
  show r.seen = _
  unfold seenStep
  rw [hnone]

theorem fanout_album_pos {env : SyncEnv} {prov : ProvItem}
    (hsat : env.sync_album_tracks = true) :
    fanoutTracks env MediaType.album prov = env.albumTracks prov.item_id := by
  unfold fanoutTracks
  rw [hsat]
  simp

theorem fanout_album_neg {env : SyncEnv} {prov : ProvItem}
    (hsat : env.sync_album_tracks = false) :
    fanoutTracks env MediaType.album prov = [] := by
  unfold fanoutTracks
  rw [hsat]
  simp

theorem fanout_playlist_pos {env : SyncEnv} {prov : ProvItem}
    (hpc : (env.playlist_sync_conf.contains prov.name
      || env.playlist_sync_conf.contains prov.uri) = true) :
    fanoutTracks env MediaType.playlist prov = env.playlistTracks prov.item_id := by
  unfold fanoutTracks
  rw [hpc]
  simp

theorem fanout_playlist_neg {env : SyncEnv} {prov : ProvItem}
    (hpc : (env.playlist_sync_conf.contains prov.name
      || env.playlist_sync_conf.contains prov.uri) = false) :
    fanoutTracks env MediaType.playlist prov = [] := by
  unfold fanoutTracks
  rw [hpc]
  simp

theorem stepNoop {mt : MediaType} {env : SyncEnv} {r : RecState} {prov : ProvItem}
    (himp : env.import_as_favorite = false)
    (hmt : isSyncable mt = true)
    (hS : (∃ d, SyncedId env.instance_id mt r.store prov d) ∨
      (mt = MediaType.track ∧ prov.available = false ∧
        get_library_item_by_prov_mappings r.store prov.provider_mappings = none))
    (hsub : ∀ t ∈ fanoutTracks env mt prov, SyncedSub env.instance_id r.sub t) :
    reconStep mt env r (prov, ItemFault.ok)
      = Except.ok { r with seen := seenStep r.store r.seen prov } := by
  unfold reconStep
  rw [if_neg (by simp)]
  rcases hS with ⟨d, lib, hl, hdid, htc, hrc, hchk⟩ | ⟨hmtt, hav, hl⟩
  · cases mt
    case artist =>
      dsimp only
      unfold artistStepCore
      rw [hl]
      dsimp only
      rw [himp, Bool.and_false, if_neg (by simp), hchk]
      unfold seenStep
      rw [hl]
    case radios =>
      dsimp only
      unfold radioStepCore artistStepCore
      rw [hl]
      dsimp only
      rw [himp, Bool.and_false, if_neg (by simp), hchk]
      unfold seenStep
      rw [hl]
    case album =>
      dsimp only
      unfold albumStepCore
      rw [hl]
      dsimp only
      rw [himp, Bool.and_false, if_neg (by simp), hchk]
      dsimp only
      cases hsat : env.sync_album_tracks with
      | false =>
        rw [if_neg (by simp)]
        unfold seenStep
        rw [hl]
      | true =>
        rw [if_pos (by decide)]
        rw [syncChildTracks_noop (env.albumTracks prov.item_id) r.sub r.log
          (fun t ht => hsub t (by rw [fanout_album_pos hsat]; exact ht))]
        unfold seenStep
        rw [hl]
    case track =>
      dsimp only
      unfold trackStepCore
      rw [hl]
      dsimp only
      have htc2 : (lib.available != prov.available) = false := htc
      rw [htc2, if_neg (by simp), himp, Bool.and_false, if_neg (by simp), hchk]
      unfold seenStep
      rw [hl]
    case podcast =>
      dsimp only
      unfold podcastStepCore
      rw [hl]
      dsimp only
      have htc2 : (lib.available != prov.available) = false := htc
      rw [htc2, if_neg (by simp), himp, Bool.and_false, if_neg (by simp), hchk]
      unfold seenStep
      rw [hl]
    case playlist =>
      dsimp only
      unfold playlistStepCore
      rw [hl]
      dsimp only
      have htc2 : (lib.cache_checksum != prov.cache_checksum) = false := htc
      rw [htc2, if_neg (by simp), himp, Bool.and_false, if_neg (by simp), hchk]
      dsimp only
      cases hpc : (env.playlist_sync_conf.contains prov.name
          || env.playlist_sync_conf.contains prov.uri) with
      | false =>
        rw [if_neg (by simp)]
        unfold seenStep
        rw [hl]
      | true =>
        rw [if_pos (by decide)]
        rw [syncChildTracks_noop (env.playlistTracks prov.item_id) r.sub r.log
          (fun t ht => hsub t (by rw [fanout_playlist_pos hpc]; exact ht))]
        unfold seenStep
        rw [hl]
    case audiobook =>
      dsimp only
      unfold audiobookStepCore
      rw [hl]
      dsimp only
      rw [himp, Bool.and_false, if_neg (by simp), hchk]
      dsimp only
      have hrc2 : resumeDiffers lib prov = false := hrc
      rw [hrc2, if_neg (by simp)]
      unfold seenStep
      rw [hl]
    case podcastEpisode => cases hmt
    case folder => cases hmt
    case unknown => cases hmt
  · subst hmtt
    dsimp only
    unfold trackStepCore
    rw [hl]
    dsimp only
    rw [hav, if_pos (by simp)]
    unfold seenStep
    rw [hl]

theorem goodEntry_fields {env : SyncEnv} {e : ProvItem × ItemFault}
    (h : goodEntry env e = true) :
    e.2 = ItemFault.ok ∧ wellFormedItem env.instance_id e.1 = true := by
  unfold goodEntry at h
  simp only [Bool.and_eq_true, beq_iff_eq] at h
  exact ⟨h.1, h.2⟩

theorem isSyncable_of_supported {features : List ProviderFeature} {mt : MediaType}
    (h : library_supported features mt = true) : isSyncable mt = true := by
  cases mt <;> first | rfl | (exfalso; simp [library_supported] at h)

theorem albumCore_no_fanout {env : SyncEnv} {r : RecState} {prov : ProvItem}
    {fault : ItemFault} (halb : env.sync_album_tracks = false) :
    albumStepCore env r prov fault = artistStepCore env r prov fault := by
  unfold albumStepCore artistStepCore
  rw [halb]
  simp only [Bool.false_eq_true, if_false, Bool.false_and]

theorem artistCore_establish {env : SyncEnv} {mt : MediaType} {r : RecState}
    {prov : ProvItem}
    (himp : env.import_as_favorite = false)
    (hw : wellFormedItem env.instance_id prov = true)
    (hinv : StoreInv env.instance_id r.store)
    (htcAll : ∀ lib, typeCond mt lib prov = false)
    (hrcAll : ∀ lib, resumeCondMT mt lib prov = false)
    (hfo : fanoutTracks env mt prov = []) :
    ∃ r2, artistStepCore env r prov ItemFault.ok = r2 ∧ EstOut env mt r r2 prov := by
  have hfE : ∀ (sub2 : LibraryState), sub2 = r.sub →
      ∀ t ∈ fanoutTracks env mt prov, SyncedSub env.instance_id sub2 t := by
    intro sub2 _ t ht
    rw [hfo] at ht
    exact absurd ht (List.not_mem_nil t)
  cases hl : get_library_item_by_prov_mappings r.store prov.provider_mappings with
  | none =>
    have hcore : artistStepCore env r prov ItemFault.ok
        = { r with store := (add_item_to_library r.store prov).1,
                   seen := insertSeen r.seen (add_item_to_library r.store prov).2.db_id,
                   log := r.log ++ [StoreOp.addItem prov (add_item_to_library r.store prov).2.db_id] } := by
      unfold artistStepCore
      rw [hl]
      dsimp only
      rw [if_neg (by simp), himp, if_neg (by simp)]
    exact ⟨_, hcore, estOut_add _ r.sub hw hinv hl (hfE r.sub rfl) (fun u _ _ h => h)⟩
  | some lib =>
    have hfav : (!lib.favorite && env.import_as_favorite) = false := by
      rw [himp, Bool.and_false]
    obtain ⟨b, hchk⟩ := @check_ok_of_wf env.instance_id lib prov true hw
    cases b
    case false =>
      have hcore : artistStepCore env r prov ItemFault.ok
          = { r with store := update_item_in_library r.store lib.db_id prov,
                     seen := insertSeen r.seen lib.db_id,
                     log := r.log ++ [StoreOp.updateItem lib.db_id prov] } := by
        unfold artistStepCore
        rw [hl]
        dsimp only
        rw [hfav, if_neg (by simp), hchk]
        dsimp only
        rw [if_neg (by simp), markFirst_id hw]
      exact ⟨_, hcore, estOut_update _ r.sub hw hinv hl (hfE r.sub rfl) (fun u _ _ h => h)⟩
    case true =>
      have hcore : artistStepCore env r prov ItemFault.ok
          = { r with seen := insertSeen r.seen lib.db_id } := by
        unfold artistStepCore
        rw [hl]
        dsimp only
        rw [hfav, if_neg (by simp), hchk]
      exact ⟨_, hcore, estOut_noop _ r.sub hinv hl (htcAll lib) (hrcAll lib) hchk
        (hfE r.sub rfl) (fun u _ _ h => h)⟩

theorem stepEstablish {mt : MediaType} {env : SyncEnv} {r : RecState} {prov : ProvItem}
    (himp : env.import_as_favorite = false)
    (hw : wellFormedItem env.instance_id prov = true)
    (hmt : isSyncable mt = true)
    (hinv : StoreInv env.instance_id r.store)
    (hcw : ∀ t ∈ fanoutTracks env mt prov, wellFormedItem env.instance_id t = true)
    (hcc : ∀ t ∈ fanoutTracks env mt prov, ∀ t2 ∈ fanoutTracks env mt prov,
      t.item_id = t2.item_id → t = t2) :
    ∃ r2, reconStep mt env r (prov, ItemFault.ok) = Except.ok r2 ∧
      EstOut env mt r r2 prov := by
  unfold reconStep
  rw [if_neg (by simp)]
  cases mt
  case artist =>
    obtain ⟨r2, hcore, hout⟩ :=
      @artistCore_establish env MediaType.artist r prov himp hw hinv
        (fun _ => rfl) (fun _ => rfl) rfl
    exact ⟨r2, by dsimp only; rw [hcore], hout⟩
  case radios =>
    obtain ⟨r2, hcore, hout⟩ :=
      @artistCore_establish env MediaType.radios r prov himp hw hinv
        (fun _ => rfl) (fun _ => rfl) rfl
    refine ⟨r2, ?_, hout⟩
    dsimp only
    unfold radioStepCore
    rw [hcore]
  case album =>
    cases hsat : env.sync_album_tracks with
    | false =>
      obtain ⟨r2, hcore, hout⟩ :=
        @artistCore_establish env MediaType.album r prov himp hw hinv
          (fun _ => rfl) (fun _ => rfl) (fanout_album_neg hsat)
      refine ⟨r2, ?_, hout⟩
      dsimp only
      rw [albumCore_no_fanout hsat, hcore]
    | true =>
      dsimp only
      have hfp := @fanout_album_pos env prov hsat
      have hwT : ∀ t ∈ env.albumTracks prov.item_id,
          wellFormedItem env.instance_id t = true :=
        fun t ht => hcw t (by rw [hfp]; exact ht)
      have hcT : ∀ t ∈ env.albumTracks prov.item_id, ∀ t2 ∈ env.albumTracks prov.item_id,
          t.item_id = t2.item_id → t = t2 :=
        fun t ht t2 ht2 => hcc t (by rw [hfp]; exact ht) t2 (by rw [hfp]; exact ht2)
      cases hl : get_library_item_by_prov_mappings r.store prov.provider_mappings with
      | none =>
        have hcore : albumStepCore env r prov ItemFault.ok
            = { r with store := (add_item_to_library r.store prov).1,
                       sub := (syncChildTracks env.instance_id r.sub (env.albumTracks prov.item_id)
                         (r.log ++ [StoreOp.addItem prov (add_item_to_library r.store prov).2.db_id])).1,
                       seen := insertSeen r.seen (add_item_to_library r.store prov).2.db_id,
                       log := (syncChildTracks env.instance_id r.sub (env.albumTracks prov.item_id)
                         (r.log ++ [StoreOp.addItem prov (add_item_to_library r.store prov).2.db_id])).2 } := by
          unfold albumStepCore
          rw [hl]
          dsimp only
          rw [if_neg (by simp), hsat, if_pos rfl, himp]
          simp only [Bool.false_eq_true, if_false]
        obtain ⟨hsE, hsP⟩ := syncChildTracks_establish (env.albumTracks prov.item_id) r.sub
          (r.log ++ [StoreOp.addItem prov (add_item_to_library r.store prov).2.db_id]) hwT hcT
        refine ⟨_, by rw [hcore], estOut_add _ _ hw hinv hl ?_ ?_⟩
        · intro t ht
          rw [hfp] at ht
          exact hsE t ht
        · intro u hwu hcu hu
          exact hsP u hwu (fun t ht => hcu t (by rw [hfp]; exact ht)) hu
      | some lib =>
        have hfav : (!lib.favorite && env.import_as_favorite) = false := by
          rw [himp, Bool.and_false]
        obtain ⟨b, hchk⟩ := @check_ok_of_wf env.instance_id lib prov true hw
        cases b
        case false =>
          have hcore : albumStepCore env r prov ItemFault.ok
              = { r with store := update_item_in_library r.store lib.db_id prov,
                         sub := (syncChildTracks env.instance_id r.sub (env.albumTracks prov.item_id)
                           (r.log ++ [StoreOp.updateItem lib.db_id prov])).1,
                         seen := insertSeen r.seen lib.db_id,
                         log := (syncChildTracks env.instance_id r.sub (env.albumTracks prov.item_id)
                           (r.log ++ [StoreOp.updateItem lib.db_id prov])).2 } := by
            unfold albumStepCore
            rw [hl]
            dsimp only
            rw [hfav, if_neg (by simp), hchk]
            dsimp only
            rw [if_neg (by simp), markFirst_id hw, hsat, if_pos rfl]
          obtain ⟨hsE, hsP⟩ := syncChildTracks_establish (env.albumTracks prov.item_id) r.sub
            (r.log ++ [StoreOp.updateItem lib.db_id prov]) hwT hcT
          refine ⟨_, by rw [hcore], estOut_update _ _ hw hinv hl ?_ ?_⟩
          · intro t ht
            rw [hfp] at ht
            exact hsE t ht
          · intro u hwu hcu hu
            exact hsP u hwu (fun t ht => hcu t (by rw [hfp]; exact ht)) hu
        case true =>
          have hcore : albumStepCore env r prov ItemFault.ok
              = { r with sub := (syncChildTracks env.instance_id r.sub
                           (env.albumTracks prov.item_id) r.log).1,
                         seen := insertSeen r.seen lib.db_id,
                         log := (syncChildTracks env.instance_id r.sub
                           (env.albumTracks prov.item_id) r.log).2 } := by
            unfold albumStepCore
            rw [hl]
            dsimp only
            rw [hfav, if_neg (by simp), hchk]
            dsimp only
            rw [hsat, if_pos (by decide)]
          obtain ⟨hsE, hsP⟩ := syncChildTracks_establish (env.albumTracks prov.item_id) r.sub
            r.log hwT hcT
          refine ⟨_, by rw [hcore], estOut_noop _ _ hinv hl rfl rfl hchk ?_ ?_⟩
          · intro t ht
            rw [hfp] at ht
            exact hsE t ht
          · intro u hwu hcu hu
            exact hsP u hwu (fun t ht => hcu t (by rw [hfp]; exact ht)) hu
  case track =>
    dsimp only
    cases hl : get_library_item_by_prov_mappings r.store prov.provider_mappings with
    | none =>
      cases hav : prov.available with
      | false =>
        have hcore : trackStepCore env r prov ItemFault.ok = r := by
          unfold trackStepCore
          rw [hl]
          dsimp only
          rw [hav, if_pos (by simp)]
        rw [hcore]
        exact ⟨r, rfl, estOut_skip hinv hav hl⟩
      | true =>
        have hcore : trackStepCore env r prov ItemFault.ok
            = { r with store := (add_item_to_library r.store prov).1,
                       seen := insertSeen r.seen (add_item_to_library r.store prov).2.db_id,
                       log := r.log ++ [StoreOp.addItem prov (add_item_to_library r.store prov).2.db_id] } := by
          unfold trackStepCore
          rw [hl]
          dsimp only
          rw [hav, if_neg (by simp), if_neg (by simp), himp, if_neg (by simp)]
        rw [hcore]
        exact ⟨_, rfl, estOut_add _ r.sub hw hinv hl
          (fun t ht => absurd ht (List.not_mem_nil t)) (fun u _ _ h => h)⟩
    | some lib =>
      cases htc : (lib.available != prov.available) with
      | true =>
        have hcore : trackStepCore env r prov ItemFault.ok
            = { r with store := update_item_in_library r.store lib.db_id prov,
                       seen := insertSeen r.seen lib.db_id,
                       log := r.log ++ [StoreOp.updateItem lib.db_id prov] } := by
          unfold trackStepCore
          rw [hl]
          dsimp only
          rw [htc, if_pos rfl, if_neg (by simp)]
        rw [hcore]
        exact ⟨_, rfl, estOut_update _ r.sub hw hinv hl
          (fun t ht => absurd ht (List.not_mem_nil t)) (fun u _ _ h => h)⟩
      | false =>
        have hfav : (!lib.favorite && env.import_as_favorite) = false := by
          rw [himp, Bool.and_false]
        obtain ⟨b, hchk⟩ := @check_ok_of_wf env.instance_id lib prov true hw
        cases b
        case false =>
          have hcore : trackStepCore env r prov ItemFault.ok
              = { r with store := update_item_in_library r.store lib.db_id prov,
                         seen := insertSeen r.seen lib.db_id,
                         log := r.log ++ [StoreOp.updateItem lib.db_id prov] } := by
            unfold trackStepCore
            rw [hl]
            dsimp only
            rw [htc, if_neg (by simp), hfav, if_neg (by simp), hchk]
            dsimp only
            rw [if_neg (by simp), markFirst_id hw]
          rw [hcore]
          exact ⟨_, rfl, estOut_update _ r.sub hw hinv hl
            (fun t ht => absurd ht (List.not_mem_nil t)) (fun u _ _ h => h)⟩
        case true =>
          have hcore : trackStepCore env r prov ItemFault.ok
              = { r with seen := insertSeen r.seen lib.db_id } := by
            unfold trackStepCore
            rw [hl]
            dsimp only
            rw [htc, if_neg (by simp), hfav, if_neg (by simp), hchk]
          rw [hcore]
          exact ⟨_, rfl, estOut_noop _ r.sub hinv hl htc rfl hchk
            (fun t ht => absurd ht (List.not_mem_nil t)) (fun u _ _ h => h)⟩
  case podcast =>
    dsimp only
    cases hl : get_library_item_by_prov_mappings r.store prov.provider_mappings with
    | none =>
      have hcore : podcastStepCore env r prov ItemFault.ok
          = { r with store := (add_item_to_library r.store prov).1,
                     seen := insertSeen r.seen (add_item_to_library r.store prov).2.db_id,
                     log := r.log ++ [StoreOp.addItem prov (add_item_to_library r.store prov).2.db_id] } := by
        unfold podcastStepCore
        rw [hl]
        dsimp only
        rw [if_neg (by simp), himp, if_neg (by simp)]
      rw [hcore]
      exact ⟨_, rfl, estOut_add _ r.sub hw hinv hl
        (fun t ht => absurd ht (List.not_mem_nil t)) (fun u _ _ h => h)⟩
    | some lib =>
      cases htc : (lib.available != prov.available) with
      | true =>
        have hcore : podcastStepCore env r prov ItemFault.ok
            = { r with store := update_item_in_library r.store lib.db_id prov,
                       seen := insertSeen r.seen lib.db_id,
                       log := r.log ++ [StoreOp.updateItem lib.db_id prov] } := by
          unfold podcastStepCore
          rw [hl]
          dsimp only
          rw [htc, if_pos rfl, if_neg (by simp)]
        rw [hcore]
        exact ⟨_, rfl, estOut_update _ r.sub hw hinv hl
          (fun t ht => absurd ht (List.not_mem_nil t)) (fun u _ _ h => h)⟩
      | false =>
        have hfav : (!lib.favorite && env.import_as_favorite) = false := by
          rw [himp, Bool.and_false]
        obtain ⟨b, hchk⟩ := @check_ok_of_wf env.instance_id lib prov true hw
        cases b
        case false =>
          have hcore : podcastStepCore env r prov ItemFault.ok
              = { r with store := update_item_in_library r.store lib.db_id prov,
                         seen := insertSeen r.seen lib.db_id,
                         log := r.log ++ [StoreOp.updateItem lib.db_id prov] } := by
            unfold podcastStepCore
            rw [hl]
            dsimp only
            rw [htc, if_neg (by simp), hfav, if_neg (by simp), hchk]
            dsimp only
            rw [if_neg (by simp), markFirst_id hw]
          rw [hcore]
          exact ⟨_, rfl, estOut_update _ r.sub hw hinv hl
            (fun t ht => absurd ht (List.not_mem_nil t)) (fun u _ _ h => h)⟩
        case true =>
          have hcore : podcastStepCore env r prov ItemFault.ok
              = { r with seen := insertSeen r.seen lib.db_id } := by
            unfold podcastStepCore
            rw [hl]
            dsimp only
            rw [htc, if_neg (by simp), hfav, if_neg (by simp), hchk]
          rw [hcore]
          exact ⟨_, rfl, estOut_noop _ r.sub hinv hl htc rfl hchk
            (fun t ht => absurd ht (List.not_mem_nil t)) (fun u _ _ h => h)⟩
  case playlist =>
    dsimp only
    cases hpc : (env.playlist_sync_conf.contains prov.name
        || env.playlist_sync_conf.contains prov.uri) with
    | false =>
      have hfE : ∀ t ∈ fanoutTracks env MediaType.playlist prov,
          SyncedSub env.instance_id r.sub t := by
        intro t ht
        rw [fanout_playlist_neg hpc] at ht
        exact absurd ht (List.not_mem_nil t)
      cases hl : get_library_item_by_prov_mappings r.store prov.provider_mappings with
      | none =>
        have hcore : playlistStepCore env r prov ItemFault.ok
            = { r with store := (add_item_to_library r.store prov).1,
                       seen := insertSeen r.seen (add_item_to_library r.store prov).2.db_id,
                       log := r.log ++ [StoreOp.addItem prov (add_item_to_library r.store prov).2.db_id] } := by
          unfold playlistStepCore
          rw [hl]
          dsimp only
          rw [if_neg (by simp), himp, hpc]
          simp only [Bool.false_eq_true, if_false, Bool.false_and]
        rw [hcore]
        exact ⟨_, rfl, estOut_add _ r.sub hw hinv hl hfE (fun u _ _ h => h)⟩
      | some lib =>
        cases htc : (lib.cache_checksum != prov.cache_checksum) with
        | true =>
          have hcore : playlistStepCore env r prov ItemFault.ok
              = { r with store := update_item_in_library r.store lib.db_id prov,
                         seen := insertSeen r.seen lib.db_id,
                         log := r.log ++ [StoreOp.updateItem lib.db_id prov] } := by
            unfold playlistStepCore
            rw [hl]
            dsimp only
            rw [htc, if_pos rfl, if_neg (by simp), hpc]
            simp only [Bool.false_and, Bool.false_eq_true, if_false]
          rw [hcore]
          exact ⟨_, rfl, estOut_update _ r.sub hw hinv hl hfE (fun u _ _ h => h)⟩
        | false =>
          have hfav : (!lib.favorite && env.import_as_favorite) = false := by
            rw [himp, Bool.and_false]
          obtain ⟨b, hchk⟩ := @check_ok_of_wf env.instance_id lib prov true hw
          cases b
          case false =>
            have hcore : playlistStepCore env r prov ItemFault.ok
                = { r with store := update_item_in_library r.store lib.db_id prov,
                           seen := insertSeen r.seen lib.db_id,
                           log := r.log ++ [StoreOp.updateItem lib.db_id prov] } := by
              unfold playlistStepCore
              rw [hl]
              dsimp only
              rw [htc, if_neg (by simp), hfav, if_neg (by simp), hchk]
              dsimp only
              rw [if_neg (by simp), markFirst_id hw, hpc]
              simp only [Bool.false_and, Bool.false_eq_true, if_false]
            rw [hcore]
            exact ⟨_, rfl, estOut_update _ r.sub hw hinv hl hfE (fun u _ _ h => h)⟩
          case true =>
            have hcore : playlistStepCore env r prov ItemFault.ok
                = { r with seen := insertSeen r.seen lib.db_id } := by
              unfold playlistStepCore
              rw [hl]
              dsimp only
              rw [htc, if_neg (by simp), hfav, if_neg (by simp), hchk]
              dsimp only
              rw [hpc]
              simp only [Bool.false_and, Bool.false_eq_true, if_false]
            rw [hcore]
            exact ⟨_, rfl, estOut_noop _ r.sub hinv hl htc rfl hchk hfE (fun u _ _ h => h)⟩
    | true =>
      have hfp := @fanout_playlist_pos env prov hpc
      have hwT : ∀ t ∈ env.playlistTracks prov.item_id,
          wellFormedItem env.instance_id t = true :=
        fun t ht => hcw t (by rw [hfp]; exact ht)
      have hcT : ∀ t ∈ env.playlistTracks prov.item_id,
          ∀ t2 ∈ env.playlistTracks prov.item_id, t.item_id = t2.item_id → t = t2 :=
        fun t ht t2 ht2 => hcc t (by rw [hfp]; exact ht) t2 (by rw [hfp]; exact ht2)
      cases hl : get_library_item_by_prov_mappings r.store prov.provider_mappings with
      | none =>
        have hcore : playlistStepCore env r prov ItemFault.ok
            = { r with store := (add_item_to_library r.store prov).1,
                       sub := (syncChildTracks env.instance_id r.sub (env.playlistTracks prov.item_id)
                         (r.log ++ [StoreOp.addItem prov (add_item_to_library r.store prov).2.db_id])).1,
                       seen := insertSeen r.seen (add_item_to_library r.store prov).2.db_id,
                       log := (syncChildTracks env.instance_id r.sub (env.playlistTracks prov.item_id)
                         (r.log ++ [StoreOp.addItem prov (add_item_to_library r.store prov).2.db_id])).2 } := by
          unfold playlistStepCore
          rw [hl]
          dsimp only
          rw [if_neg (by simp), hpc, if_pos (by decide), himp]
          simp only [Bool.false_eq_true, if_false]
        obtain ⟨hsE, hsP⟩ := syncChildTracks_establish (env.playlistTracks prov.item_id) r.sub
          (r.log ++ [StoreOp.addItem prov (add_item_to_library r.store prov).2.db_id]) hwT hcT
        refine ⟨_, by rw [hcore], estOut_add _ _ hw hinv hl ?_ ?_⟩
        · intro t ht
          rw [hfp] at ht
          exact hsE t ht
        · intro u hwu hcu hu
          exact hsP u hwu (fun t ht => hcu t (by rw [hfp]; exact ht)) hu
      | some lib =>
        cases htc : (lib.cache_checksum != prov.cache_checksum) with
        | true =>
          have hcore : playlistStepCore env r prov ItemFault.ok
              = { r with store := update_item_in_library r.store lib.db_id prov,
                         sub := (syncChildTracks env.instance_id r.sub (env.playlistTracks prov.item_id)
                           (r.log ++ [StoreOp.updateItem lib.db_id prov])).1,
                         seen := insertSeen r.seen lib.db_id,
                         log := (syncChildTracks env.instance_id r.sub (env.playlistTracks prov.item_id)
                           (r.log ++ [StoreOp.updateItem lib.db_id prov])).2 } := by
            unfold playlistStepCore
            rw [hl]
            dsimp only
            rw [htc, if_pos rfl, if_neg (by simp), hpc, if_pos (by decide)]
          obtain ⟨hsE, hsP⟩ := syncChildTracks_establish (env.playlistTracks prov.item_id) r.sub
            (r.log ++ [StoreOp.updateItem lib.db_id prov]) hwT hcT
          refine ⟨_, by rw [hcore], estOut_update _ _ hw hinv hl ?_ ?_⟩
          · intro t ht
            rw [hfp] at ht
            exact hsE t ht
          · intro u hwu hcu hu
            exact hsP u hwu (fun t ht => hcu t (by rw [hfp]; exact ht)) hu
        | false =>
          have hfav : (!lib.favorite && env.import_as_favorite) = false := by
            rw [himp, Bool.and_false]
          obtain ⟨b, hchk⟩ := @check_ok_of_wf env.instance_id lib prov true hw
          cases b
          case false =>
            have hcore : playlistStepCore env r prov ItemFault.ok
                = { r with store := update_item_in_library r.store lib.db_id prov,
                           sub := (syncChildTracks env.instance_id r.sub (env.playlistTracks prov.item_id)
                             (r.log ++ [StoreOp.updateItem lib.db_id prov])).1,
                           seen := insertSeen r.seen lib.db_id,
                           log := (syncChildTracks env.instance_id r.sub (env.playlistTracks prov.item_id)
                             (r.log ++ [StoreOp.updateItem lib.db_id prov])).2 } := by
              unfold playlistStepCore
              rw [hl]
              dsimp only
              rw [htc, if_neg (by simp), hfav, if_neg (by simp), hchk]
              dsimp only
              rw [if_neg (by simp), markFirst_id hw, hpc, if_pos (by decide)]
            obtain ⟨hsE, hsP⟩ := syncChildTracks_establish (env.playlistTracks prov.item_id) r.sub
              (r.log ++ [StoreOp.updateItem lib.db_id prov]) hwT hcT
            refine ⟨_, by rw [hcore], estOut_update _ _ hw hinv hl ?_ ?_⟩
            · intro t ht
              rw [hfp] at ht
              exact hsE t ht
            · intro u hwu hcu hu
              exact hsP u hwu (fun t ht => hcu t (by rw [hfp]; exact ht)) hu
          case true =>
            have hcore : playlistStepCore env r prov ItemFault.ok
                = { r with sub := (syncChildTracks env.instance_id r.sub
                             (env.playlistTracks prov.item_id) r.log).1,
                           seen := insertSeen r.seen lib.db_id,
                           log := (syncChildTracks env.instance_id r.sub
                             (env.playlistTracks prov.item_id) r.log).2 } := by
              unfold playlistStepCore
              rw [hl]
              dsimp only
              rw [htc, if_neg (by simp), hfav, if_neg (by simp), hchk]
              dsimp only
              rw [hpc, if_pos (by decide)]
            obtain ⟨hsE, hsP⟩ := syncChildTracks_establish (env.playlistTracks prov.item_id)
              r.sub r.log hwT hcT
            refine ⟨_, by rw [hcore], estOut_noop _ _ hinv hl htc rfl hchk ?_ ?_⟩
            · intro t ht
              rw [hfp] at ht
              exact hsE t ht
            · intro u hwu hcu hu
              exact hsP u hwu (fun t ht => hcu t (by rw [hfp]; exact ht)) hu
  case audiobook =>
    dsimp only
    cases hl : get_library_item_by_prov_mappings r.store prov.provider_mappings with
    | none =>
      have hres : resumeDiffers (add_item_to_library r.store prov).2 prov = false := by
        show resumeDiffers (entityOfItem r.store.next_id prov) prov = false
        exact resumeDiffers_entity _ _
      have hcore : audiobookStepCore env r prov ItemFault.ok
          = { r with store := (add_item_to_library r.store prov).1,
                     seen := insertSeen r.seen (add_item_to_library r.store prov).2.db_id,
                     log := r.log ++ [StoreOp.addItem prov (add_item_to_library r.store prov).2.db_id] } := by
        unfold audiobookStepCore
        rw [hl]
        dsimp only
        rw [if_neg (by simp), himp]
        simp only [Bool.false_eq_true, if_false]
        rw [hres, if_neg (by simp)]
      rw [hcore]
      exact ⟨_, rfl, estOut_add _ r.sub hw hinv hl
        (fun t ht => absurd ht (List.not_mem_nil t)) (fun u _ _ h => h)⟩
    | some lib =>
      have hfav : (!lib.favorite && env.import_as_favorite) = false := by
        rw [himp, Bool.and_false]
      obtain ⟨b, hchk⟩ := @check_ok_of_wf env.instance_id lib prov true hw
      cases b
      case false =>
        have hres : resumeDiffers (updateEntity lib prov) prov = false :=
          resumeDiffers_update lib prov
        have hcore : audiobookStepCore env r prov ItemFault.ok
            = { r with store := update_item_in_library r.store lib.db_id prov,
                       seen := insertSeen r.seen lib.db_id,
                       log := r.log ++ [StoreOp.updateItem lib.db_id prov] } := by
          unfold audiobookStepCore
          rw [hl]
          dsimp only
          rw [hfav, if_neg (by simp), hchk]
          dsimp only
          rw [if_neg (by simp), markFirst_id hw, hres, if_neg (by simp)]
        rw [hcore]
        exact ⟨_, rfl, estOut_update _ r.sub hw hinv hl
          (fun t ht => absurd ht (List.not_mem_nil t)) (fun u _ _ h => h)⟩
      case true =>
        cases hres : resumeDiffers lib prov with
        | true =>
          have hcore : audiobookStepCore env r prov ItemFault.ok
              = { r with store := update_item_in_library r.store lib.db_id prov,
                         seen := insertSeen r.seen lib.db_id,
                         log := r.log ++ [StoreOp.updateItem lib.db_id prov] } := by
            unfold audiobookStepCore
            rw [hl]
            dsimp only
            rw [hfav, if_neg (by simp), hchk]
            dsimp only
            rw [hres, if_pos rfl, if_neg (by simp), markFirst_id hw]
          rw [hcore]
          exact ⟨_, rfl, estOut_update _ r.sub hw hinv hl
            (fun t ht => absurd ht (List.not_mem_nil t)) (fun u _ _ h => h)⟩
        | false =>
          have hcore : audiobookStepCore env r prov ItemFault.ok
              = { r with seen := insertSeen r.seen lib.db_id } := by
            unfold audiobookStepCore
            rw [hl]
            dsimp only
            rw [hfav, if_neg (by simp), hchk]
            dsimp only
            rw [hres, if_neg (by simp)]
          rw [hcore]
          exact ⟨_, rfl, estOut_noop _ r.sub hinv hl rfl hres hchk
            (fun t ht => absurd ht (List.not_mem_nil t)) (fun u _ _ h => h)⟩
  case podcastEpisode => cases hmt
  case folder => cases hmt
  case unknown => cases hmt

theorem passEstablishes {mt : MediaType} {env : SyncEnv}
    (himp : env.import_as_favorite = false)
    (hmt : isSyncable mt = true) :
    ∀ (L : List (ProvItem × ItemFault)) (r : RecState),
    (∀ e ∈ L, goodEntry env e = true) →
    (L.map (fun e => e.1.item_id)).Nodup →
    (∀ e ∈ L, ∀ t ∈ fanoutTracks env mt e.1, wellFormedItem env.instance_id t = true) →
    (∀ e ∈ L, ∀ e2 ∈ L, ∀ t ∈ fanoutTracks env mt e.1, ∀ t2 ∈ fanoutTracks env mt e2.1,
      t.item_id = t2.item_id → t = t2) →
    StoreInv env.instance_id r.store →
    ∃ r2, runSteps (reconStep mt env) L r = Except.ok r2 ∧
      StoreInv env.instance_id r2.store ∧
      (∀ e ∈ L, SyncedOrSkip env.instance_id mt r2.store e.1) ∧
      (∀ A d, wellFormedItem env.instance_id A = true →
        (∀ e ∈ L, A.item_id ≠ e.1.item_id) →
        SyncedId env.instance_id mt r.store A d →
        SyncedId env.instance_id mt r2.store A d) ∧
      (∀ A, wellFormedItem env.instance_id A = true →
        (∀ e ∈ L, A.item_id ≠ e.1.item_id) →
        get_library_item_by_prov_mappings r.store A.provider_mappings = none →
        get_library_item_by_prov_mappings r2.store A.provider_mappings = none) ∧
      r2.seen = seenAll r2.store L r.seen ∧
      (∀ e ∈ L, ∀ t ∈ fanoutTracks env mt e.1, SyncedSub env.instance_id r2.sub t) ∧
      (∀ u, wellFormedItem env.instance_id u = true →
        (∀ e ∈ L, ∀ t ∈ fanoutTracks env mt e.1, t.item_id = u.item_id → t = u) →
        SyncedSub env.instance_id r.sub u → SyncedSub env.instance_id r2.sub u) := by
  intro L
  induction L with
  | nil =>
    intro r _ _ _ _ hinv
    exact ⟨r, rfl, hinv, fun e he => absurd he (List.not_mem_nil e),
      fun A d _ _ h => h, fun A _ _ h => h, rfl,
      fun e he => absurd he (List.not_mem_nil e), fun u _ _ h => h⟩
  | cons e rest ih =>
    intro r hgood hnd hcw hcc hinv
    obtain ⟨hok, hw⟩ := goodEntry_fields (hgood e (List.mem_cons_self e rest))
    obtain ⟨prov, fault⟩ := e
    dsimp only at hok hw
    subst hok
    have hcwHead : ∀ t ∈ fanoutTracks env mt prov, wellFormedItem env.instance_id t = true :=
      hcw (prov, ItemFault.ok) (List.mem_cons_self _ _)
    have hccHead : ∀ t ∈ fanoutTracks env mt prov, ∀ t2 ∈ fanoutTracks env mt prov,
        t.item_id = t2.item_id → t = t2 :=
      hcc (prov, ItemFault.ok) (List.mem_cons_self _ _) (prov, ItemFault.ok)
        (List.mem_cons_self _ _)
    obtain ⟨r1, hstep, hinv1, hsync1, hseen1, hpresS1, hpresN1, hsubE1, hsubP1⟩ :=
      @stepEstablish mt env r prov himp hw hmt hinv hcwHead hccHead
    have hndRest : (rest.map (fun e => e.1.item_id)).Nodup := (List.nodup_cons.mp hnd).2
    have hHeadNotIn : prov.item_id ∉ rest.map (fun e => e.1.item_id) :=
      (List.nodup_cons.mp hnd).1
    have hHeadDisj : ∀ e2 ∈ rest, prov.item_id ≠ e2.1.item_id := by
      intro e2 he2 hcon
      exact hHeadNotIn (List.mem_map.mpr ⟨e2, he2, hcon.symm⟩)
    obtain ⟨r2, hrun, hinv2, hsyncL, hpresS2, hpresN2, hseen2, hsubL, hsubP2⟩ :=
      ih r1 (fun e2 he2 => hgood e2 (List.mem_cons_of_mem _ he2)) hndRest
        (fun e2 he2 => hcw e2 (List.mem_cons_of_mem _ he2))
        (fun e2 he2 e3 he3 => hcc e2 (List.mem_cons_of_mem _ he2) e3
          (List.mem_cons_of_mem _ he3))
        hinv1
    refine ⟨r2, ?_, hinv2, ?_, ?_, ?_, ?_, ?_, ?_⟩
    · unfold runSteps
      rw [hstep]
      exact hrun
    · intro e2 he2
      rcases List.mem_cons.mp he2 with heq | htail
      · rw [heq]
        dsimp only
        rcases hsync1 with ⟨d, hS⟩ | ⟨hmtT, hav, hnone⟩
        · exact Or.inl ⟨d, hpresS2 prov d hw hHeadDisj hS⟩
        · exact Or.inr ⟨hmtT, hav, hpresN2 prov hw hHeadDisj hnone⟩
      · exact hsyncL e2 htail
    · intro A d hwA hdisj hS
      exact hpresS2 A d hwA (fun e2 he2 => hdisj e2 (List.mem_cons_of_mem _ he2))
        (hpresS1 A d hwA (hdisj (prov, ItemFault.ok) (List.mem_cons_self _ _)) hS)
    · intro A hwA hdisj hn
      exact hpresN2 A hwA (fun e2 he2 => hdisj e2 (List.mem_cons_of_mem _ he2))
        (hpresN1 A hwA (hdisj (prov, ItemFault.ok) (List.mem_cons_self _ _)) hn)
    · have hstepEq : seenStep r1.store r.seen prov = seenStep r2.store r.seen prov := by
        rcases hsync1 with ⟨d, libp, hlp, hdp, htcp, hrcp, hchkp⟩ | ⟨_, _, hnone⟩
        · obtain ⟨libp2, hlp2, hdp2, _, _, _⟩ :=
            hpresS2 prov d hw hHeadDisj ⟨libp, hlp, hdp, htcp, hrcp, hchkp⟩
          unfold seenStep
          rw [hlp, hlp2]
          dsimp only
          rw [hdp, hdp2]
        · have hnone2 := hpresN2 prov hw hHeadDisj hnone
          unfold seenStep
          rw [hnone, hnone2]
      show r2.seen = seenAll r2.store ((prov, ItemFault.ok) :: rest) r.seen
      have heq : seenAll r2.store ((prov, ItemFault.ok) :: rest) r.seen
          = seenAll r2.store rest (seenStep r2.store r.seen prov) := rfl
      rw [heq, ← hstepEq, ← hseen1]
      exact hseen2
    · intro e2 he2
      rcases List.mem_cons.mp he2 with heq | htail
      · rw [heq]
        dsimp only
        intro t ht
        refine hsubP2 t (hcwHead t ht) ?_ (hsubE1 t ht)
        intro e3 he3 t3 ht3 hid
        exact hcc e3 (List.mem_cons_of_mem _ he3) (prov, ItemFault.ok)
          (List.mem_cons_self _ _) t3 ht3 t ht hid
      · exact hsubL e2 htail
    · intro u hwu hcons hu
      refine hsubP2 u hwu
        (fun e2 he2 t ht => hcons e2 (List.mem_cons_of_mem _ he2) t ht) ?_
      exact hsubP1 u hwu
        (fun t ht => hcons (prov, ItemFault.ok) (List.mem_cons_self _ _) t ht) hu

theorem passNoop {mt : MediaType} {env : SyncEnv}
    (himp : env.import_as_favorite = false)
    (hmt : isSyncable mt = true) :
    ∀ (L : List (ProvItem × ItemFault)) (r : RecState),
    (∀ e ∈ L, goodEntry env e = true) →
    (∀ e ∈ L, SyncedOrSkip env.instance_id mt r.store e.1) →
    (∀ e ∈ L, ∀ t ∈ fanoutTracks env mt e.1, SyncedSub env.instance_id r.sub t) →
    runSteps (reconStep mt env) L r
      = Except.ok { r with seen := seenAll r.store L r.seen } := by
  intro L
  induction L with
  | nil => intro r _ _ _; rfl
  | cons e rest ih =>
    intro r hgood hsync hsub
    obtain ⟨hok, hw⟩ := goodEntry_fields (hgood e (List.mem_cons_self e rest))
    obtain ⟨prov, fault⟩ := e
    dsimp only at hok hw
    subst hok
    have hS := hsync (prov, ItemFault.ok) (List.mem_cons_self _ _)
    have hstep := @stepNoop mt env r prov himp hmt hS
      (hsub (prov, ItemFault.ok) (List.mem_cons_self _ _))
    unfold runSteps
    rw [hstep]
    have hrest := ih { r with seen := seenStep r.store r.seen prov }
      (fun e2 he2 => hgood e2 (List.mem_cons_of_mem _ he2))
      (fun e2 he2 => hsync e2 (List.mem_cons_of_mem _ he2))
      (fun e2 he2 => hsub e2 (List.mem_cons_of_mem _ he2))
    exact hrest

theorem entityMatches_flip (inst : String) (ms : List ProviderMapping) (e : LibItem) :
    entityMatches ms
        { e with provider_mappings := flipProviderMappings inst e.provider_mappings }
      = entityMatches ms e := by
  show (flipProviderMappings inst e.provider_mappings).any _ = e.provider_mappings.any _
  unfold flipProviderMappings
  rw [List.any_map]
  congr 1
  funext lm
  show (ms.any fun m => mappingKeyMatch
      (if (lm.provider_instance == inst) = true then { lm with in_library := false } else lm) m)
    = ms.any fun m => mappingKeyMatch lm m
  by_cases h : (lm.provider_instance == inst) = true
  · rw [if_pos h]
    rfl
  · rw [if_neg h]

theorem nodup_ids_map_pres {st : LibraryState} {g : LibItem → LibItem}
    (hg : ∀ e, (g e).db_id = e.db_id)
    (hnd : (st.items.map (fun e => e.db_id)).Nodup) :
    ((st.items.map g).map (fun e => e.db_id)).Nodup := by
  rw [List.map_map]
  have hc : ((fun e : LibItem => e.db_id) ∘ g) = fun e : LibItem => e.db_id :=
    funext fun e => hg e
  rw [hc]
  exact hnd

theorem nodup_ids_filter {st : LibraryState} {f : LibItem → Bool}
    (hnd : (st.items.map (fun e => e.db_id)).Nodup) :
    ((st.items.filter f).map (fun e => e.db_id)).Nodup :=
  List.Nodup.sublist (List.Sublist.map _ (List.filter_sublist _)) hnd

theorem lookup_set_favorite_map (st : LibraryState) (dbId : Nat) (v : Bool)
    (ms : List ProviderMapping) :
    get_library_item_by_prov_mappings (set_favorite st dbId v) ms
      = (get_library_item_by_prov_mappings st ms).map
          (fun e => if e.db_id == dbId then { e with favorite := v } else e) := by
  unfold get_library_item_by_prov_mappings set_favorite
  apply find?_map_pred
  intro x _
  split <;> rfl

theorem lookup_set_mappings_map {st : LibraryState} {dbId : Nat} {li : LibItem}
    {msA : List ProviderMapping} (ms : List ProviderMapping)
    (hnd : (st.items.map (fun e => e.db_id)).Nodup)
    (hg : get_library_item st dbId = some li)
    (hkeep : entityMatches ms { li with provider_mappings := msA } = entityMatches ms li) :
    get_library_item_by_prov_mappings (set_provider_mappings st dbId msA) ms
      = (get_library_item_by_prov_mappings st ms).map
          (fun e => if e.db_id == dbId then { e with provider_mappings := msA } else e) := by
  unfold get_library_item_by_prov_mappings set_provider_mappings
  apply find?_map_pred
  intro x hx
  by_cases hd : (x.db_id == dbId) = true
  · rw [if_pos hd]
    have hxl : x = li := by
      apply nodup_unique_id hnd hx (List.mem_of_find?_eq_some hg)
      rw [get_db_id hg]
      simpa using hd
    rw [hxl]
    exact hkeep
  · rw [if_neg hd]

theorem orphanStep_nodup {inst : String} {mt : MediaType} {rf : Nat → Bool}
    {seen : List Nat} {acc : LibraryState × List StoreOp} {dbId : Nat}
    (hnd : (acc.1.items.map (fun e => e.db_id)).Nodup) :
    (((orphanStep inst mt rf seen acc dbId).1).items.map (fun e => e.db_id)).Nodup := by
  unfold orphanStep
  by_cases hs : seen.contains dbId = true
  · rw [if_pos hs]
    exact hnd
  · rw [if_neg hs]
    cases hg : get_library_item acc.1 dbId with
    | none => exact hnd
    | some li =>
      dsimp only
      by_cases hany : (li.provider_mappings.any
          (fun m => m.provider_instance != inst && m.in_library)) = true
      · rw [if_pos hany]
        exact nodup_ids_map_pres (fun e => by split <;> rfl) hnd
      · rw [if_neg hany]
        by_cases hrf : rf dbId = true
        · rw [if_pos hrf]
          dsimp only
          by_cases hfav : li.favorite = true
          · rw [if_pos hfav]
            exact nodup_ids_map_pres (fun e => by split <;> rfl)
              (nodup_ids_map_pres (fun e => by split <;> rfl) hnd)
          · rw [if_neg hfav]
            exact nodup_ids_map_pres (fun e => by split <;> rfl) hnd
        · rw [if_neg hrf]
          exact nodup_ids_filter hnd

theorem orphanStep_lookup_some {inst : String} {mt : MediaType} {rf : Nat → Bool}
    {seen : List Nat} {acc : LibraryState × List StoreOp} {dbId : Nat}
    {ms : List ProviderMapping} {lib : LibItem}
    (hnd : (acc.1.items.map (fun e => e.db_id)).Nodup)
    (hl : get_library_item_by_prov_mappings acc.1 ms = some lib)
    (hseen : seen.contains lib.db_id = true) :
    get_library_item_by_prov_mappings (orphanStep inst mt rf seen acc dbId).1 ms
      = some lib := by
  unfold orphanStep
  by_cases hs : seen.contains dbId = true
  · rw [if_pos hs]
    exact hl
  · rw [if_neg hs]
    have hne : lib.db_id ≠ dbId := fun h => hs (h ▸ hseen)
    cases hg : get_library_item acc.1 dbId with
    | none => exact hl
    | some li =>
      dsimp only
      by_cases hany : (li.provider_mappings.any
          (fun m => m.provider_instance != inst && m.in_library)) = true
      · rw [if_pos hany]
        rw [lookup_set_mappings_map ms hnd hg (entityMatches_flip inst ms li), hl]
        simp [hne]
      · rw [if_neg hany]
        by_cases hrf : rf dbId = true
        · rw [if_pos hrf]
          by_cases hfav : li.favorite = true
          · rw [if_pos hfav]
            have hl2 : get_library_item_by_prov_mappings (set_favorite acc.1 dbId false) ms
                = some lib := by
              rw [lookup_set_favorite_map, hl]
              simp [hne]
            have hnd2 : (((set_favorite acc.1 dbId false).items).map
                (fun e => e.db_id)).Nodup :=
              nodup_ids_map_pres (fun e => by split <;> rfl) hnd
            have hg2 : get_library_item (set_favorite acc.1 dbId false) dbId
                = some { li with favorite := false } := get_set_favorite_self false hg
            rw [lookup_set_mappings_map ms hnd2 hg2
              (entityMatches_flip inst ms { li with favorite := false }), hl2]
            simp [hne]
          · rw [if_neg hfav]
            rw [lookup_set_mappings_map ms hnd hg (entityMatches_flip inst ms li), hl]
            simp [hne]
        · rw [if_neg hrf]
          exact find?_filter_keep hl (by simp [hne])

theorem orphanStep_lookup_none {inst : String} {mt : MediaType} {rf : Nat → Bool}
    {seen : List Nat} {acc : LibraryState × List StoreOp} {dbId : Nat}
    {ms : List ProviderMapping}
    (hnd : (acc.1.items.map (fun e => e.db_id)).Nodup)
    (hl : get_library_item_by_prov_mappings acc.1 ms = none) :
    get_library_item_by_prov_mappings (orphanStep inst mt rf seen acc dbId).1 ms = none := by
  unfold orphanStep
  by_cases hs : seen.contains dbId = true
  · rw [if_pos hs]
    exact hl
  · rw [if_neg hs]
    cases hg : get_library_item acc.1 dbId with
    | none => exact hl
    | some li =>
      dsimp only
      by_cases hany : (li.provider_mappings.any
          (fun m => m.provider_instance != inst && m.in_library)) = true
      · rw [if_pos hany]
        rw [lookup_set_mappings_map ms hnd hg (entityMatches_flip inst ms li), hl]
        rfl
      · rw [if_neg hany]
        by_cases hrf : rf dbId = true
        · rw [if_pos hrf]
          by_cases hfav : li.favorite = true
          · rw [if_pos hfav]
            have hl2 : get_library_item_by_prov_mappings (set_favorite acc.1 dbId false) ms
                = none := by
              rw [lookup_set_favorite_map, hl]
              rfl
            have hnd2 : (((set_favorite acc.1 dbId false).items).map
                (fun e => e.db_id)).Nodup :=
              nodup_ids_map_pres (fun e => by split <;> rfl) hnd
            have hg2 : get_library_item (set_favorite acc.1 dbId false) dbId
                = some { li with favorite := false } := get_set_favorite_self false hg
            rw [lookup_set_mappings_map ms hnd2 hg2
              (entityMatches_flip inst ms { li with favorite := false }), hl2]
            rfl
          · rw [if_neg hfav]
            rw [lookup_set_mappings_map ms hnd hg (entityMatches_flip inst ms li), hl]
            rfl
        · rw [if_neg hrf]
          exact find?_filter_none hl

theorem orphanFold_nodup {inst : String} {mt : MediaType} {rf : Nat → Bool}
    {seen : List Nat} :
    ∀ (p : List Nat) (acc : LibraryState × List StoreOp),
    (acc.1.items.map (fun e => e.db_id)).Nodup →
    (((p.foldl (orphanStep inst mt rf seen) acc).1).items.map (fun e => e.db_id)).Nodup := by
  intro p
  induction p with
  | nil => intro acc h; exact h
  | cons i rest ih => intro acc h; exact ih _ (orphanStep_nodup h)

theorem orphanFold_lookup_some {inst : String} {mt : MediaType} {rf : Nat → Bool}
    {seen : List Nat} {ms : List ProviderMapping} {lib : LibItem} :
    ∀ (p : List Nat) (acc : LibraryState × List StoreOp),
    (acc.1.items.map (fun e => e.db_id)).Nodup →
    get_library_item_by_prov_mappings acc.1 ms = some lib →
    seen.contains lib.db_id = true →
    get_library_item_by_prov_mappings
        (p.foldl (orphanStep inst mt rf seen) acc).1 ms = some lib := by
  intro p
  induction p with
  | nil => intro acc _ hl _; exact hl
  | cons i rest ih =>
    intro acc hnd hl hseen
    exact ih _ (orphanStep_nodup hnd) (orphanStep_lookup_some hnd hl hseen) hseen

theorem orphanFold_lookup_none {inst : String} {mt : MediaType} {rf : Nat → Bool}
    {seen : List Nat} {ms : List ProviderMapping} :
    ∀ (p : List Nat) (acc : LibraryState × List StoreOp),
    (acc.1.items.map (fun e => e.db_id)).Nodup →
    get_library_item_by_prov_mappings acc.1 ms = none →
    get_library_item_by_prov_mappings
        (p.foldl (orphanStep inst mt rf seen) acc).1 ms = none := by
  intro p
  induction p with
  | nil => intro acc _ hl; exact hl
  | cons i rest ih =>
    intro acc hnd hl
    exact ih _ (orphanStep_nodup hnd) (orphanStep_lookup_none hnd hl)

theorem orphanPhase_lookup_some {inst : String} {mt : MediaType} {rf : Nat → Bool}
    {prev : Option (List Nat)} {seen : List Nat} {st : LibraryState} {log : List StoreOp}
    {ms : List ProviderMapping} {lib : LibItem}
    (hnd : (st.items.map (fun e => e.db_id)).Nodup)
    (hl : get_library_item_by_prov_mappings st ms = some lib)
    (hseen : seen.contains lib.db_id = true) :
    get_library_item_by_prov_mappings (orphanPhase inst mt rf prev seen st log).1 ms
      = some lib := by
  unfold orphanPhase
  cases prev with
  | none => exact hl
  | some p =>
    dsimp only
    split
    · exact hl
    · exact orphanFold_lookup_some p (st, log) hnd hl hseen

theorem orphanPhase_lookup_none {inst : String} {mt : MediaType} {rf : Nat → Bool}
    {prev : Option (List Nat)} {seen : List Nat} {st : LibraryState} {log : List StoreOp}
    {ms : List ProviderMapping}
    (hnd : (st.items.map (fun e => e.db_id)).Nodup)
    (hl : get_library_item_by_prov_mappings st ms = none) :
    get_library_item_by_prov_mappings (orphanPhase inst mt rf prev seen st log).1 ms
      = none := by
  unfold orphanPhase
  cases prev with
  | none => exact hl
  | some p =>
    dsimp only
    split
    · exact hl
    · exact orphanFold_lookup_none p (st, log) hnd hl

theorem orphanFold_noop {inst : String} {mt : MediaType} {rf : Nat → Bool}
    {seen : List Nat} :
    ∀ (p : List Nat) (acc : LibraryState × List StoreOp),
    (∀ i ∈ p, seen.contains i = true) →
    p.foldl (orphanStep inst mt rf seen) acc = acc := by
  intro p
  induction p with
  | nil => intro acc _; rfl
  | cons i rest ih =>
    intro acc h
    have hstep : orphanStep inst mt rf seen acc i = acc := by
      unfold orphanStep
      rw [if_pos (h i (List.mem_cons_self i rest))]
    show List.foldl _ (orphanStep inst mt rf seen acc i) rest = acc
    rw [hstep]
    exact ih acc (fun j hj => h j (List.mem_cons_of_mem _ hj))

theorem orphanPhase_noop {inst : String} {mt : MediaType} {rf : Nat → Bool}
    {p seen : List Nat} {st : LibraryState} {log : List StoreOp}
    (h : ∀ i ∈ p, seen.contains i = true) :
    orphanPhase inst mt rf (some p) seen st log = (st, log) := by
  unfold orphanPhase
  dsimp only
  split
  · rfl
  · exact orphanFold_noop p (st, log) h

theorem seenAll_mono {st : LibraryState} :
    ∀ (L : List (ProvItem × ItemFault)) (s : List Nat) {j : Nat},
    j ∈ s → j ∈ seenAll st L s := by
  intro L
  induction L with
  | nil => intro s j h; exact h
  | cons e rest ih =>
    intro s j h
    show j ∈ seenAll st rest (seenStep st s e.1)
    apply ih
    unfold seenStep
    cases get_library_item_by_prov_mappings st e.1.provider_mappings with
    | none => exact h
    | some lib => exact mem_insertSeen_of_mem _ h

theorem mem_seenAll {st : LibraryState} {lib : LibItem} :
    ∀ (L : List (ProvItem × ItemFault)) (s : List Nat) {e : ProvItem × ItemFault},
    e ∈ L →
    get_library_item_by_prov_mappings st e.1.provider_mappings = some lib →
    lib.db_id ∈ seenAll st L s := by
  intro L
  induction L with
  | nil => intro s e he; cases he
  | cons x rest ih =>
    intro s e he hl
    rcases List.mem_cons.mp he with heq | htail
    · subst heq
      show lib.db_id ∈ seenAll st rest (seenStep st s e.1)
      apply seenAll_mono
      unfold seenStep
      rw [hl]
      exact mem_insertSeen_self _ _
    · show lib.db_id ∈ seenAll st rest (seenStep st s x.1)
      exact ih _ htail hl

theorem seenAll_congr {st st2 : LibraryState} :
    ∀ (L : List (ProvItem × ItemFault)) (s : List Nat),
    (∀ e ∈ L, (get_library_item_by_prov_mappings st e.1.provider_mappings).map
        (fun l => l.db_id)
      = (get_library_item_by_prov_mappings st2 e.1.provider_mappings).map
        (fun l => l.db_id)) →
    seenAll st L s = seenAll st2 L s := by
  intro L
  induction L with
  | nil => intro s _; rfl
  | cons e rest ih =>
    intro s h
    have hstep : seenStep st s e.1 = seenStep st2 s e.1 := by
      have he := h e (List.mem_cons_self e rest)
      unfold seenStep
      cases h1 : get_library_item_by_prov_mappings st e.1.provider_mappings with
      | none =>
        rw [h1] at he
        cases h2 : get_library_item_by_prov_mappings st2 e.1.provider_mappings with
        | none => rfl
        | some l2 => rw [h2] at he; cases he
      | some l1 =>
        rw [h1] at he
        cases h2 : get_library_item_by_prov_mappings st2 e.1.provider_mappings with
        | none => rw [h2] at he; cases he
        | some l2 =>
          rw [h2] at he
          dsimp only
          have hd : l1.db_id = l2.db_id := by
            simpa using he
          rw [hd]
    show seenAll st rest (seenStep st s e.1) = seenAll st2 rest (seenStep st2 s e.1)
    rw [hstep]
    exact ih _ (fun e2 he2 => h e2 (List.mem_cons_of_mem _ he2))

theorem contains_of_mem {s : List Nat} {i : Nat} (h : i ∈ s) : s.contains i = true := by
  simpa using h

theorem orphanPhase_nodup {inst : String} {mt : MediaType} {rf : Nat → Bool}
    {prev : Option (List Nat)} {seen : List Nat} {st : LibraryState} {log : List StoreOp}
    (hnd : (st.items.map (fun e => e.db_id)).Nodup) :
    (((orphanPhase inst mt rf prev seen st log).1).items.map (fun e => e.db_id)).Nodup := by
  unfold orphanPhase
  cases prev with
  | none => exact hnd
  | some p =>
    dsimp only
    split
    · exact hnd
    · exact orphanFold_nodup p (st, log) hnd

/-- C2, amended: with favorite import off, a sync pass over a fault-free,
well-formed catalog of pairwise distinct source ids — including the album
and playlist child-track fan-outs, whose tracks are likewise well-formed and
id-consistent — starting from a store with distinct entity ids and at most
one mapping of the syncing instance per entity, is idempotent: running the pass
again on its own output returns exactly the same sync state (canonical
entity set, tracks table, and persisted snapshot) and performs zero store
mutations.  Each hypothesis beyond fault-freeness is forced by a scenario of
the C2 counterexample: with import_as_favorite on, a type-specific update
shadows a pending favorite promotion which then fires on the second pass;
and dropping the distinct-ids, one-mapping-per-entity, or child-track
well-formedness/consistency hypotheses each yields a second pass that still
mutates. -/
theorem claim2_idempotence
    (env : SyncEnv) (features : List ProviderFeature) (mt : MediaType)
    (catalog : List (ProvItem × ItemFault)) (removeFails : Nat → Bool)
    (st st1 : SyncState) (log1 : List StoreOp)
    (himp : env.import_as_favorite = false)
    (hgood : ∀ e ∈ catalog, goodEntry env e = true)
    (hnd : (catalog.map (fun e => e.1.item_id)).Nodup)
    (hcw : ∀ e ∈ catalog, ∀ t ∈ fanoutTracks env mt e.1,
      wellFormedItem env.instance_id t = true)
    (hcc : ∀ e ∈ catalog, ∀ e2 ∈ catalog, ∀ t ∈ fanoutTracks env mt e.1,
      ∀ t2 ∈ fanoutTracks env mt e2.1, t.item_id = t2.item_id → t = t2)
    (hinv : StoreInv env.instance_id st.main)
    (h1 : sync_library env features mt catalog removeFails st = Except.ok (st1, log1)) :
    sync_library env features mt catalog removeFails st1 = Except.ok (st1, []) := by
  cases hsup : library_supported features mt with
  | false =>
    unfold sync_library at h1
    rw [hsup] at h1
    simp at h1
  | true =>
    have hmt : isSyncable mt = true := isSyncable_of_supported hsup
    have hrr : ∀ (cat : List (ProvItem × ItemFault)) (r : RecState),
        runReconciler mt env cat r = runSteps (reconStep mt env) cat r := by
      intro cat r
      cases mt
      case artist => rfl
      case album => rfl
      case track => rfl
      case playlist => rfl
      case radios => rfl
      case audiobook => rfl
      case podcast => rfl
      case podcastEpisode => cases hmt
      case folder => cases hmt
      case unknown => cases hmt
    unfold sync_library at h1
    rw [if_neg (by rw [hsup]; simp)] at h1
    obtain ⟨r2, hrun, hinv2, hsyncL, hpresS, hpresN, hseen, hsubE, hsubP⟩ :=
      passEstablishes himp hmt catalog
        { store := st.main, sub := st.sub, seen := [], log := [] } hgood hnd hcw hcc hinv
    rw [hrr, hrun] at h1
    dsimp only at h1
    injection h1 with h2
    injection h2 with hst1 hlog1
    subst hst1
    unfold sync_library
    rw [if_neg (by rw [hsup]; simp)]
    dsimp only
    have hlookupO : ∀ e ∈ catalog,
        get_library_item_by_prov_mappings
            (orphanPhase env.instance_id mt removeFails st.cache r2.seen r2.store r2.log).1
            e.1.provider_mappings
          = get_library_item_by_prov_mappings r2.store e.1.provider_mappings := by
      intro e he
      rcases hsyncL e he with ⟨d, lib, hl, hdid, h3, h4, h5⟩ | ⟨h3, h4, hnone⟩
      · have hmem : lib.db_id ∈ r2.seen := by
          rw [hseen]
          exact mem_seenAll catalog _ he hl
        rw [orphanPhase_lookup_some hinv2.1 hl (contains_of_mem hmem), hl]
      · rw [orphanPhase_lookup_none hinv2.1 hnone, hnone]
    have hsyncO : ∀ e ∈ catalog, SyncedOrSkip env.instance_id mt
        (orphanPhase env.instance_id mt removeFails st.cache r2.seen r2.store r2.log).1
        e.1 := by
      intro e he
      rcases hsyncL e he with ⟨d, lib, hl, hdid, h3, h4, h5⟩ | ⟨h3, h4, hnone⟩
      · exact Or.inl ⟨d, lib, by rw [hlookupO e he]; exact hl, hdid, h3, h4, h5⟩
      · exact Or.inr ⟨h3, h4, by rw [hlookupO e he]; exact hnone⟩
    have hseenEq : seenAll
        (orphanPhase env.instance_id mt removeFails st.cache r2.seen r2.store r2.log).1
        catalog [] = r2.seen := by
      exact (@seenAll_congr
        (orphanPhase env.instance_id mt removeFails st.cache r2.seen r2.store r2.log).1
        r2.store catalog [] (fun e he => by rw [hlookupO e he])).trans hseen.symm
    rw [hrr]
    rw [passNoop himp hmt catalog
      { store := (orphanPhase env.instance_id mt removeFails st.cache r2.seen
          r2.store r2.log).1,
        sub := r2.sub, seen := [], log := [] } hgood hsyncO hsubE]
    dsimp only
    rw [hseenEq]
    rw [orphanPhase_noop (fun i hi => contains_of_mem hi)]

/-- The sync state holding only the library playlist cLibPl (old checksum,
not a favorite). -/
def cStPl : SyncState :=
  { main := { items := [cLibPl], next_id := 2 },
    sub := { items := [], next_id := 1 }, cache := none }

/-- The library playlist after its checksum is refreshed. -/
def cLibPlNew : LibItem :=
  { cLibPl with cache_checksum := some "new" }

/-- The refreshed playlist once the favorite promotion has fired. -/
def cLibPlNewFav : LibItem :=
  { cLibPlNew with favorite := true }

/-- The state after the first playlist pass: checksum refreshed, favorite
still pending. -/
def cStPl1 : SyncState :=
  { main := { items := [cLibPlNew], next_id := 2 },
    sub := { items := [], next_id := 1 }, cache := some [1] }

/-- The state after the second playlist pass: the favorite promotion fires. -/
def cStPl2 : SyncState :=
  { main := { items := [cLibPlNewFav], next_id := 2 },
    sub := { items := [], next_id := 1 }, cache := some [1] }

/-- Does rerunning the very same sync pass on the state left by a first,
successful run still perform store mutations?  (True refutes idempotence.) -/
def secondPassMutates (env : SyncEnv) (features : List ProviderFeature) (mt : MediaType)
    (catalog : List (ProvItem × ItemFault)) (removeFails : Nat → Bool)
    (st : SyncState) : Bool :=
  match sync_library env features mt catalog removeFails st with
  | Except.ok (st1, _) =>
    match sync_library env features mt catalog removeFails st1 with
    | Except.ok (_, log2) => !log2.isEmpty
    | Except.error _ => false
  | Except.error _ => false

/-- A track the provider currently reports unavailable. -/
def cT1 : ProvItem := { cItem "t1" with available := false }

/-- One entity carrying two mappings of the same instance (ids t1 and t2). -/
def cLibDup : LibItem :=
  { db_id := 1, name := "x", favorite := false, available := true,
    cache_checksum := none, resume_position_ms := none, fully_played := none,
    provider_mappings := [cMap "t1", cMap "t2"] }

/-- Sync state holding only the doubly-mapped entity. -/
def cStDup : SyncState :=
  { main := { items := [cLibDup], next_id := 2 },
    sub := { items := [], next_id := 1 }, cache := none }

/-- A child track whose self-mapping carries in_library = false (violating
the section 9 well-formedness invariant). -/
def cBadT : ProvItem :=
  { cItem "bt" with provider_mappings := [{ cMap "bt" with in_library := false }] }

/-- Album-track import switched on, every album fanning out to cBadT. -/
def cEnvAlb : SyncEnv :=
  { cEnv with
    sync_album_tracks := true
    albumTracks := fun _ => [cBadT] }

/-- A second child track with the same source id "dt" but a differing
mapping, breaking same-id consistency. -/
def cDupT2 : ProvItem :=
  { cItem "dt" with provider_mappings := [{ cMap "dt" with available := false }] }

/-- Album-track import switched on, every album fanning out to two
inconsistent tracks of the same source id. -/
def cEnvAlb2 : SyncEnv :=
  { cEnv with
    sync_album_tracks := true
    albumTracks := fun _ => [cItem "dt", cDupT2] }

/-- C2, counterexample to the claim as stated, plus one scenario per amended
hypothesis showing it necessary.  Main refutation: with import_as_favorite =
true, a non-favorite playlist whose checksum changed takes the update branch
on the first pass (shadowing the favorite promotion, C4); the second pass,
over the unchanged catalog, then performs a set_favorite mutation and changes
the canonical entity set, so the second pass is neither mutation-free nor
state-preserving.  The further scenarios each satisfy every other amended
hypothesis and still make the second pass mutate: an entity carrying two
mappings of the syncing instance (both syncing items keep toggling its
availability); a catalog repeating one source id with differing availability
(the same oscillation from an empty store); an album fan-out whose child
track's mapping has in_library = false (the mapping check fails again on the
second pass); and an album fan-out listing two inconsistent tracks under one
source id (their updates keep overwriting each other). -/
theorem claim2_counterexample :
    (sync_library cEnvFav [ProviderFeature.libraryPlaylists] MediaType.playlist
        [(cPl, ItemFault.ok)] (fun _ => false) cStPl
      = Except.ok (cStPl1, [StoreOp.updateItem 1 cPl]) ∧
    sync_library cEnvFav [ProviderFeature.libraryPlaylists] MediaType.playlist
        [(cPl, ItemFault.ok)] (fun _ => false) cStPl1
      = Except.ok (cStPl2, [StoreOp.setFavorite 1 true]) ∧
    cStPl2 ≠ cStPl1 ∧ [StoreOp.setFavorite 1 true] ≠ ([] : List StoreOp)) ∧
    secondPassMutates cEnv [ProviderFeature.libraryTracks] MediaType.track
      [(cT1, ItemFault.ok), (cItem "t2", ItemFault.ok)] (fun _ => false) cStDup = true ∧
    secondPassMutates cEnv [ProviderFeature.libraryTracks] MediaType.track
      [(cItem "t3", ItemFault.ok), ({ cItem "t3" with available := false }, ItemFault.ok)]
      (fun _ => false) cSt0 = true ∧
    secondPassMutates cEnvAlb [ProviderFeature.libraryAlbums] MediaType.album
      [(cItem "al1", ItemFault.ok)] (fun _ => false) cSt0 = true ∧
    secondPassMutates cEnvAlb2 [ProviderFeature.libraryAlbums] MediaType.album
      [(cItem "al2", ItemFault.ok)] (fun _ => false) cSt0 = true := by
  refine ⟨⟨rfl, rfl, by decide, by decide⟩, by decide, by decide, by decide, by decide⟩

/-- Album-track import switched on, every album fanning out to the
well-formed child track ct1. -/
def cEnvAlbGood : SyncEnv :=
  { cEnv with
    sync_album_tracks := true
    albumTracks := fun _ => [cItem "ct1"] }

/-- The canonical album entity created from cItem "al9" under id 1. -/
def cEntAl9 : LibItem :=
  { db_id := 1, name := "al9", favorite := false, available := true,
    cache_checksum := none, resume_position_ms := none, fully_played := none,
    provider_mappings := [cMap "al9"] }

/-- The canonical track entity created in the tracks controller from the
album fan-out, under id 1. -/
def cEntCt1 : LibItem :=
  { db_id := 1, name := "ct1", favorite := false, available := true,
    cache_checksum := none, resume_position_ms := none, fully_played := none,
    provider_mappings := [cMap "ct1"] }

/-- The sync state produced by one album pass (with its child-track fan-out)
over the catalog [cItem "al9"] from the empty state. -/
def cStAlb1 : SyncState :=
  { main := { items := [cEntAl9], next_id := 2 },
    sub := { items := [cEntCt1], next_id := 2 }, cache := some [1] }

/-- Witness for C2's amended theorem: a concrete album pass with the
album-track fan-out enabled, rerun on its own output, returns the same
state and an empty trace. -/
theorem claim2_witness :
    sync_library cEnvAlbGood [ProviderFeature.libraryAlbums] MediaType.album
        [(cItem "al9", ItemFault.ok)] (fun _ => false) cStAlb1
      = Except.ok (cStAlb1, []) :=
  claim2_idempotence cEnvAlbGood [ProviderFeature.libraryAlbums] MediaType.album
    [(cItem "al9", ItemFault.ok)] (fun _ => false) cSt0 cStAlb1
    [StoreOp.addItem (cItem "al9") 1, StoreOp.addItem (cItem "ct1") 1]
    rfl (by decide) (by decide) (by decide) (by decide)
    ⟨by simp [cSt0], by simp [cSt0], by simp [cSt0]⟩ rfl

end MusicAssistant
